import Mathlib

/-!
# Verification development for `drm_learning`

A shallow embedding of `dh-modeset-atomic/modeset-atomic.c` (atomic KMS
mode-setting with a double-buffered, page-flip driven redraw loop) and
theorems about it.  Functions of `dh-modeset-vsync/modeset-vsync.c` carry the
name space `Vsync`, those of `dh-modeset/modeset.c` the name space `Modeset`
and those of `dh-modeset-double-buffered/modeset-double-buffered.c` the name
space `DoubleBuffered`.

Conventions of the embedding

* Machine integers are `Nat` / `Int`; where C arithmetic can wrap the
  reduction `% 2 ^ w` is written out.
* Pointers into the process-wide `output_list` become positions of a
  `List modeset_output`; an in-place update through a pointer becomes an
  update of that list element.
* Everything the kernel or libc answers (ioctl results, `rand()`, events
  read from the device, `select`) is an explicit input of the function
  that asks for it.
* Every function that talks to the device also returns the ordered list
  of calls it made (`DrmCall`), so that statements about "what was
  submitted / destroyed, and in which state" can be made about that list.
-/

namespace ModesetAtomic

/-! ## Constants of the kernel interface (headers outside the repository) -/

/-- Modelled from the spec: the libdrm header that defines
`DRM_MODE_PAGE_FLIP_EVENT` is not part of the sources; the spec calls it the
"request completion event" flag.  Value of the Linux UAPI (`0x01`). -/
def DRM_MODE_PAGE_FLIP_EVENT : Nat := 0x01

/-- Modelled from the spec: `DRM_MODE_ATOMIC_TEST_ONLY`, the "test and don't
apply" (validate-only) flag; header not part of the sources.  UAPI value
`0x0100`. -/
def DRM_MODE_ATOMIC_TEST_ONLY : Nat := 0x0100

/-- Modelled from the spec: `DRM_MODE_ATOMIC_NONBLOCK`, the "non-blocking"
flag; header not part of the sources.  UAPI value `0x0200`. -/
def DRM_MODE_ATOMIC_NONBLOCK : Nat := 0x0200

/-- Modelled from the spec: `DRM_MODE_ATOMIC_ALLOW_MODESET`, the "allow full
mode change" flag; header not part of the sources.  UAPI value `0x0400`. -/
def DRM_MODE_ATOMIC_ALLOW_MODESET : Nat := 0x0400

/-- Modelled from the spec: `DRM_PLANE_TYPE_PRIMARY`, the device's
primary-plane enumeration value; header not part of the sources.  UAPI value
`1`. -/
def DRM_PLANE_TYPE_PRIMARY : Int := 1

/-- Modelled from the spec: `DRM_MODE_CONNECTED`, the connection status of a
connected display; header not part of the sources.  libdrm value `1`. -/
def DRM_MODE_CONNECTED : Nat := 1

/-- Modelled from the spec: `EINVAL` comes from the C library headers, which
are not part of the sources; the spec only asks for a non-zero failure
reason.  Linux value `22`. -/
def EINVAL : Int := 22
/-- Modelled from the spec: `ENOENT`, from the C library headers (not part of
the sources).  Linux value `2`. -/
def ENOENT : Int := 2
/-- Modelled from the spec: `ENOMEM`, from the C library headers (not part of
the sources).  Linux value `12`. -/
def ENOMEM : Int := 12
/-- Modelled from the spec: `EOPNOTSUPP`, from the C library headers (not
part of the sources).  Linux value `95`. -/
def EOPNOTSUPP : Int := 95

/-! ## Data model -/

/-- One entry of an object's property table as the device reports it:
`drmModePropertyRes` (identifier and name) together with the current value
from `drmModeObjectProperties.prop_values`. -/
structure drmModePropertyRes where
  prop_id : Nat
  name : String
  value : Nat
  deriving DecidableEq, Repr

/-- The C `struct drm_object`: the object identifier and the cached property
table (`props` / `props_info`; `none` is the `NULL` left by `memset` or by a
failed `drmModeObjectGetProperties`). -/
structure drm_object where
  props_info : Option (List drmModePropertyRes)
  id : Nat
  deriving DecidableEq, Repr

/-- The C `struct modeset_buf`.  `map` is the content of the memory mapping,
one list element per byte. -/
structure modeset_buf where
  width : Nat
  height : Nat
  stride : Nat
  size : Nat
  handle : Nat
  map : List Nat
  fb : Nat
  deriving DecidableEq, Repr

/-- The part of `drmModeModeInfo` the program reads. -/
structure drmModeModeInfo where
  hdisplay : Nat
  vdisplay : Nat
  deriving DecidableEq, Repr

/-- The C `struct modeset_output` without the `next` link (the list structure
is the Lean list).  `bufs0` and `bufs1` are `bufs[0]` and `bufs[1]`. -/
structure modeset_output where
  front_buf : Nat
  bufs0 : modeset_buf
  bufs1 : modeset_buf
  connector : drm_object
  crtc : drm_object
  plane : drm_object
  mode : drmModeModeInfo
  mode_blob_id : Nat
  crtc_index : Nat
  pflip_pending : Bool
  cleanup : Bool
  r : Nat
  g : Nat
  b : Nat
  r_up : Bool
  g_up : Bool
  b_up : Bool
  deriving DecidableEq, Repr

/-- The array access `out->bufs[i]` of the two-element swap chain.  (`i` is
`front_buf` or `front_buf ^ 1`, which the program keeps in `{0, 1}`; an index
outside the array, undefined in C, reads `bufs[1]` here.) -/
def modeset_output.bufs (out : modeset_output) (i : Nat) : modeset_buf :=
  if i = 0 then out.bufs0 else out.bufs1

/-- The assignment `out->bufs[i] = b`. -/
def modeset_output.setBuf (out : modeset_output) (i : Nat) (b : modeset_buf) : modeset_output :=
  if i = 0 then { out with bufs0 := b } else { out with bufs1 := b }

/-- One (object id, property id, value) triple of an atomic request. -/
structure AtomicItem where
  object_id : Nat
  property_id : Nat
  value : Nat
  deriving DecidableEq, Repr

/-- The libdrm `drmModeAtomicReq`: the ordered triples added so far. -/
abbrev drmModeAtomicReq := List AtomicItem

/-- The calls a function made to the device, in order, plus two markers for
program-internal calls (`draw_out`, `output_destroy`) and one for the
delivery of a completion event to the handler. -/
inductive DrmCall where
  /-- `drmModeAtomicCommit(fd, req, flags, NULL)` returned `ret`. -/
  | atomicCommit (req : drmModeAtomicReq) (flags : Nat) (ret : Int)
  /-- `modeset_draw_out` entered with the output in this state. -/
  | draw_out (out : modeset_output)
  /-- `modeset_page_flip_event` entered for this CRTC identifier. -/
  | page_flip_event (crtc_id : Nat)
  /-- `modeset_output_destroy` entered with the output in this state. -/
  | output_destroy (out : modeset_output)
  /-- A dumb buffer with this handle was created. -/
  | createDumb (handle : Nat)
  /-- `DRM_IOCTL_MODE_DESTROY_DUMB` on this handle. -/
  | destroyDumb (handle : Nat)
  /-- A framebuffer with this identifier was registered. -/
  | addFB (fb : Nat)
  /-- `drmModeRmFB` on this identifier. -/
  | rmFB (fb : Nat)
  /-- A mapping of this many bytes of the buffer with this handle was made. -/
  | mmap (handle : Nat) (size : Nat)
  /-- `munmap` of the mapping of the buffer with this handle. -/
  | munmap (handle : Nat) (size : Nat)
  /-- A property blob with this identifier was created. -/
  | createBlob (blob_id : Nat)
  /-- `drmModeDestroyPropertyBlob` on this identifier. -/
  | destroyBlob (blob_id : Nat)
  deriving DecidableEq, Repr

/-! ## Property lookup and transaction building -/

/-- The search loop of `set_drm_object_property`: the `prop_id` of the first
cached property whose name is `name`, and `0` when there is none. -/
def find_prop_id : List drmModePropertyRes → String → Nat
  | [], _ => 0
  | p :: ps, name => if p.name = name then p.prop_id else find_prop_id ps name

/-- The libdrm `drmModeAtomicAddProperty` for a non-zero object identifier
and a non-zero property identifier: appends the triple and returns the new
number of items (allocation failure is outside the model).  libdrm refuses a
zero identifier with `-EINVAL`; `set_drm_object_property` never passes a zero
property identifier, and no object the device hands out has identifier
zero. -/
def drmModeAtomicAddProperty (req : drmModeAtomicReq) (object_id property_id value : Nat) :
    Int × drmModeAtomicReq :=
  (((req.length + 1 : Nat) : Int), req ++ [⟨object_id, property_id, value⟩])

/-- The C function `set_drm_object_property`: result code and the request
afterwards. -/
def set_drm_object_property (req : drmModeAtomicReq) (obj : drm_object) (name : String)
    (value : Nat) : Int × drmModeAtomicReq :=
  let prop_id := find_prop_id (obj.props_info.getD []) name
  if prop_id = 0 then (-EINVAL, req)
  else drmModeAtomicAddProperty req obj.id prop_id value

/-- The C function `modeset_atomic_prepare_commit`: the thirteen property
settings of one output, stopping with `-1` at the first that fails. -/
def modeset_atomic_prepare_commit (out : modeset_output) (req : drmModeAtomicReq) :
    Int × drmModeAtomicReq :=
  let plane := out.plane
  let buf := out.bufs (out.front_buf ^^^ 1)
  let r := set_drm_object_property req out.connector "CRTC_ID" out.crtc.id
  if r.1 < 0 then (-1, r.2) else
  let r := set_drm_object_property r.2 out.crtc "MODE_ID" out.mode_blob_id
  if r.1 < 0 then (-1, r.2) else
  let r := set_drm_object_property r.2 out.crtc "ACTIVE" 1
  if r.1 < 0 then (-1, r.2) else
  let r := set_drm_object_property r.2 plane "FB_ID" buf.fb
  if r.1 < 0 then (-1, r.2) else
  let r := set_drm_object_property r.2 plane "CRTC_ID" out.crtc.id
  if r.1 < 0 then (-1, r.2) else
  let r := set_drm_object_property r.2 plane "SRC_X" 0
  if r.1 < 0 then (-1, r.2) else
  let r := set_drm_object_property r.2 plane "SRC_Y" 0
  if r.1 < 0 then (-1, r.2) else
  let r := set_drm_object_property r.2 plane "SRC_W" ((buf.width <<< 16) % 2 ^ 32)
  if r.1 < 0 then (-1, r.2) else
  let r := set_drm_object_property r.2 plane "SRC_H" ((buf.height <<< 16) % 2 ^ 32)
  if r.1 < 0 then (-1, r.2) else
  let r := set_drm_object_property r.2 plane "CRTC_X" 0
  if r.1 < 0 then (-1, r.2) else
  let r := set_drm_object_property r.2 plane "CRTC_Y" 0
  if r.1 < 0 then (-1, r.2) else
  let r := set_drm_object_property r.2 plane "CRTC_W" buf.width
  if r.1 < 0 then (-1, r.2) else
  let r := set_drm_object_property r.2 plane "CRTC_H" buf.height
  if r.1 < 0 then (-1, r.2) else
  (0, r.2)

/-! ## The device as seen during discovery -/

/-- The part of `drmModeRes` the program reads. -/
structure drmModeRes where
  connectors : List Nat
  crtcs : List Nat
  deriving DecidableEq, Repr

/-- The part of `drmModeEncoder` the program reads. -/
structure drmModeEncoder where
  encoder_id : Nat
  crtc_id : Nat
  possible_crtcs : Nat
  deriving DecidableEq, Repr

/-- The part of `drmModeConnector` the program reads. -/
structure drmModeConnector where
  connector_id : Nat
  encoder_id : Nat
  connection : Nat
  modes : List drmModeModeInfo
  encoders : List Nat
  deriving DecidableEq, Repr

/-- The part of `drmModePlane` the program reads. -/
structure drmModePlane where
  plane_id : Nat
  possible_crtcs : Nat
  deriving DecidableEq, Repr

/-- What the device answers during one call of `modeset_create_fb`. -/
structure CreateFbAnswer where
  /-- result of `DRM_IOCTL_MODE_CREATE_DUMB` -/
  create_ret : Int
  pitch : Nat
  size : Nat
  handle : Nat
  /-- result of `drmModeAddFB2` -/
  addfb_ret : Int
  fb : Nat
  /-- result of `DRM_IOCTL_MODE_MAP_DUMB` -/
  map_ret : Int
  /-- whether `mmap` returned `MAP_FAILED` -/
  mmap_failed : Bool
  /-- the `errno` left by the call that failed -/
  errno : Nat
  deriving DecidableEq, Repr

/-- The device during discovery.  The enumeration queries are a snapshot;
the two resource-creating requests are indexed by the position of the
connector in `drmModeRes.connectors` (and the buffer index), each of which
the program visits once. -/
structure Device where
  /-- `drmModeGetResources` -/
  getResources : Option drmModeRes
  /-- `errno` after a failed `drmModeGetResources` -/
  errno : Nat
  /-- `drmModeGetConnector` -/
  getConnector : Nat → Option drmModeConnector
  /-- `drmModeGetEncoder` -/
  getEncoder : Nat → Option drmModeEncoder
  /-- `drmModeGetPlaneResources` -/
  getPlaneResources : Option (List Nat)
  /-- `drmModeGetPlane` -/
  getPlane : Nat → Option drmModePlane
  /-- `drmModeObjectGetProperties` followed by `drmModeGetProperty` on every
  entry, by object identifier -/
  objectGetProperties : Nat → Option (List drmModePropertyRes)
  /-- `drmModeCreatePropertyBlob` for the connector at this position: result
  code and blob identifier -/
  createPropertyBlob : Nat → Int × Nat
  /-- the answers to `modeset_create_fb` for the connector at this position
  and this buffer index -/
  createFb : Nat → Nat → CreateFbAnswer

/-! ## Discovery -/

/-- The conversion of a `uint64_t` to `int64_t`. -/
def toInt64 (v : Nat) : Int :=
  if v % 2 ^ 64 < 2 ^ 63 then ((v % 2 ^ 64 : Nat) : Int) else ((v % 2 ^ 64 : Nat) : Int) - 2 ^ 64

/-- The search loop of `get_property_value`: the value of the first property
with this name. -/
def get_property_value_loop : List drmModePropertyRes → String → Option Nat
  | [], _ => none
  | p :: ps, name => if p.name = name then some p.value else get_property_value_loop ps name

/-- The C function `get_property_value` on a property table: `-1` when no
property has the name, else its value as `int64_t`.  A `NULL` table, which
the C code dereferences, is read as an empty table here;
`get_property_value_run` and `modeset_find_plane_run` keep the dereference
apart. -/
def get_property_value (props : Option (List drmModePropertyRes)) (name : String) : Int :=
  match get_property_value_loop (props.getD []) name with
  | none => -1
  | some value => toInt64 value

/-- The C function `modeset_get_object_properties`: fills the cache of `obj`;
leaves it untouched (`props == NULL`) when the device reports none. -/
def modeset_get_object_properties (dev : Device) (obj : drm_object) : drm_object :=
  match dev.objectGetProperties obj.id with
  | none => { obj with props_info := none }
  | some ps => { obj with props_info := some ps }

/-- The loop `for (iter = output_list; iter; iter = iter->next)` of
`modeset_find_crtc` that resets `crtc` to `0` when an existing output already
drives it. -/
def crtc_unclaimed : List modeset_output → Nat → Nat
  | [], crtc => crtc
  | iter :: rest, crtc => if iter.crtc.id = crtc then 0 else crtc_unclaimed rest crtc

/-- The loop of `modeset_find_crtc` that looks up the position of `crtc` in
`res->crtcs`, counting from `i`. -/
def crtc_position : List Nat → Nat → Nat → Option Nat
  | [], _, _ => none
  | c :: cs, i, crtc => if c = crtc then some i else crtc_position cs (i + 1) crtc

/-- The bit test `mask & (1 << j)` on a 32-bit mask.  (For `j >= 32`, where
the C shift is undefined, no bit is set; a device has at most 32 CRTCs.) -/
def bit_set (mask j : Nat) : Bool :=
  (mask &&& ((1 <<< j) % 2 ^ 32)) % 2 ^ 32 != 0

/-- The inner loop of `modeset_find_crtc` over `res->crtcs` from position
`j`: the first CRTC this encoder can drive that no output has claimed,
with its position. -/
def find_crtc_scan_crtcs (output_list : List modeset_output) (possible_crtcs : Nat) :
    List Nat → Nat → Option (Nat × Nat)
  | [], _ => none
  | c :: cs, j =>
    if !bit_set possible_crtcs j then find_crtc_scan_crtcs output_list possible_crtcs cs (j + 1)
    else
      let crtc := crtc_unclaimed output_list c
      if crtc > 0 then some (crtc, j)
      else find_crtc_scan_crtcs output_list possible_crtcs cs (j + 1)

/-- The outer loop of `modeset_find_crtc` over `conn->encoders`. -/
def find_crtc_scan_encoders (dev : Device) (output_list : List modeset_output)
    (crtcs : List Nat) : List Nat → Option (Nat × Nat)
  | [] => none
  | e :: es =>
    match dev.getEncoder e with
    | none => find_crtc_scan_encoders dev output_list crtcs es
    | some enc =>
      match find_crtc_scan_crtcs output_list enc.possible_crtcs crtcs 0 with
      | some r => some r
      | none => find_crtc_scan_encoders dev output_list crtcs es

/-- The first part of `modeset_find_crtc`: the CRTC of the currently bound
encoder, when there is one and no output has claimed it. -/
def find_crtc_current (dev : Device) (conn : drmModeConnector)
    (output_list : List modeset_output) : Option Nat :=
  let enc := if conn.encoder_id ≠ 0 then dev.getEncoder conn.encoder_id else none
  match enc with
  | none => none
  | some enc =>
    if enc.crtc_id ≠ 0 then
      let crtc := crtc_unclaimed output_list enc.crtc_id
      if crtc > 0 then some crtc else none
    else none

/-- The C function `modeset_find_crtc`: result code and the output with
`crtc.id` and `crtc_index` filled in. -/
def modeset_find_crtc (dev : Device) (res : drmModeRes) (conn : drmModeConnector)
    (output_list : List modeset_output) (out : modeset_output) : Int × modeset_output :=
  match find_crtc_current dev conn output_list with
  | some crtc =>
    let out := { out with crtc := { out.crtc with id := crtc } }
    match crtc_position res.crtcs 0 crtc with
    | some i => (0, { out with crtc_index := i })
    | none => (0, out)
  | none =>
    match find_crtc_scan_encoders dev output_list res.crtcs conn.encoders with
    | some (crtc, j) => (0, { out with crtc := { out.crtc with id := crtc }, crtc_index := j })
    | none => (-ENOENT, out)

/-- The loop of `modeset_find_plane` over the plane list: the first plane
that can be retrieved, can drive the CRTC at `crtc_index` and whose `type`
property is the primary-plane value. -/
def find_plane_loop (dev : Device) (crtc_index : Nat) : List Nat → Option Nat
  | [] => none
  | plane_id :: ps =>
    match dev.getPlane plane_id with
    | none => find_plane_loop dev crtc_index ps
    | some plane =>
      if bit_set plane.possible_crtcs crtc_index then
        if get_property_value (dev.objectGetProperties plane_id) "type" = DRM_PLANE_TYPE_PRIMARY
        then some plane_id
        else find_plane_loop dev crtc_index ps
      else find_plane_loop dev crtc_index ps

/-- The C function `modeset_find_plane`. -/
def modeset_find_plane (dev : Device) (out : modeset_output) : Int × modeset_output :=
  match dev.getPlaneResources with
  | none => (-ENOENT, out)
  | some planes =>
    match find_plane_loop dev out.crtc_index planes with
    | some plane_id => (0, { out with plane := { out.plane with id := plane_id } })
    | none => (-EINVAL, out)

/-- The C function `modeset_setup_objects`. -/
def modeset_setup_objects (dev : Device) (out : modeset_output) : Int × modeset_output :=
  let connector := modeset_get_object_properties dev out.connector
  let out := { out with connector := connector }
  if connector.props_info.isNone then (-ENOMEM, out) else
  let crtc := modeset_get_object_properties dev out.crtc
  let out := { out with crtc := crtc }
  if crtc.props_info.isNone then (-ENOMEM, out) else
  let plane := modeset_get_object_properties dev out.plane
  let out := { out with plane := plane }
  if plane.props_info.isNone then (-ENOMEM, out) else
  (0, out)

/-- The C function `modeset_create_fb`: result code, the buffer afterwards
and the device calls that took effect. -/
def modeset_create_fb (ans : CreateFbAnswer) (buf : modeset_buf) :
    Int × modeset_buf × List DrmCall :=
  if ans.create_ret < 0 then (-(ans.errno : Int), buf, []) else
  let buf := { buf with stride := ans.pitch, size := ans.size, handle := ans.handle }
  if ans.addfb_ret ≠ 0 then
    (-(ans.errno : Int), buf, [.createDumb buf.handle, .destroyDumb buf.handle])
  else
  let buf := { buf with fb := ans.fb }
  if ans.map_ret ≠ 0 then
    (-(ans.errno : Int), buf,
      [.createDumb buf.handle, .addFB buf.fb, .rmFB buf.fb, .destroyDumb buf.handle])
  else
  if ans.mmap_failed then
    (-(ans.errno : Int), buf,
      [.createDumb buf.handle, .addFB buf.fb, .rmFB buf.fb, .destroyDumb buf.handle])
  else
  let buf := { buf with map := List.replicate buf.size 0 }
  (0, buf, [.createDumb buf.handle, .addFB buf.fb, .mmap buf.handle buf.size])

/-- The C function `modeset_destroy_fb`. -/
def modeset_destroy_fb (buf : modeset_buf) : List DrmCall :=
  [.munmap buf.handle buf.size, .rmFB buf.fb, .destroyDumb buf.handle]

/-- The read `conn->modes[0]`.  (With `count_modes == 0` the C code reads
outside the array; the model then yields a zero mode.) -/
def first_mode (conn : drmModeConnector) : drmModeModeInfo :=
  conn.modes.headD ⟨0, 0⟩

/-- The C function `modeset_setup_framebuffers`, with the device's answers for
the two buffers. -/
def modeset_setup_framebuffers (a0 a1 : CreateFbAnswer) (conn : drmModeConnector)
    (out : modeset_output) : Int × modeset_output × List DrmCall :=
  let b0 := { out.bufs0 with width := (first_mode conn).hdisplay,
                             height := (first_mode conn).vdisplay }
  let r0 := modeset_create_fb a0 b0
  let out := { out with bufs0 := r0.2.1 }
  if r0.1 ≠ 0 then (r0.1, out, r0.2.2) else
  let b1 := { out.bufs1 with width := (first_mode conn).hdisplay,
                             height := (first_mode conn).vdisplay }
  let r1 := modeset_create_fb a1 b1
  let out := { out with bufs1 := r1.2.1 }
  if r1.1 ≠ 0 then (r1.1, out, r0.2.2 ++ r1.2.2 ++ modeset_destroy_fb out.bufs0) else
  (0, out, r0.2.2 ++ r1.2.2)

/-- The state `memset(out, 0, sizeof(*out))` leaves. -/
def zero_buf : modeset_buf := ⟨0, 0, 0, 0, 0, [], 0⟩

/-- The state `memset(out, 0, sizeof(*out))` leaves. -/
def zero_output : modeset_output :=
  { front_buf := 0, bufs0 := zero_buf, bufs1 := zero_buf,
    connector := ⟨none, 0⟩, crtc := ⟨none, 0⟩, plane := ⟨none, 0⟩,
    mode := ⟨0, 0⟩, mode_blob_id := 0, crtc_index := 0,
    pflip_pending := false, cleanup := false,
    r := 0, g := 0, b := 0, r_up := false, g_up := false, b_up := false }

/-- The C function `modeset_output_create` for the connector at position `i`
of the connector list: the new output (`none` is `NULL`) and the device calls
that took effect. -/
def modeset_output_create (dev : Device) (i : Nat) (res : drmModeRes) (conn : drmModeConnector)
    (output_list : List modeset_output) : Option modeset_output × List DrmCall :=
  let out := { zero_output with connector := ⟨none, conn.connector_id⟩ }
  if conn.connection ≠ DRM_MODE_CONNECTED then (none, []) else
  let out := { out with mode := first_mode conn }
  let blob := dev.createPropertyBlob i
  if blob.1 ≠ 0 then (none, []) else
  let out := { out with mode_blob_id := blob.2 }
  let rc := modeset_find_crtc dev res conn output_list out
  if rc.1 ≠ 0 then (none, [.createBlob blob.2, .destroyBlob blob.2]) else
  let rp := modeset_find_plane dev rc.2
  if rp.1 ≠ 0 then (none, [.createBlob blob.2, .destroyBlob blob.2]) else
  let ro := modeset_setup_objects dev rp.2
  if ro.1 ≠ 0 then (none, [.createBlob blob.2, .destroyBlob blob.2]) else
  let rf := modeset_setup_framebuffers (dev.createFb i 0) (dev.createFb i 1) conn ro.2
  if rf.1 ≠ 0 then (none, [.createBlob blob.2] ++ rf.2.2 ++ [.destroyBlob blob.2]) else
  (some rf.2.1, [.createBlob blob.2] ++ rf.2.2)

/-- The connector loop of `modeset_prepare`, from position `i`: the output
list and the device calls afterwards. -/
def modeset_prepare_loop (dev : Device) (res : drmModeRes) :
    List Nat → Nat → List modeset_output → List modeset_output × List DrmCall
  | [], _, output_list => (output_list, [])
  | c :: cs, i, output_list =>
    match dev.getConnector c with
    | none => modeset_prepare_loop dev res cs (i + 1) output_list
    | some conn =>
      match modeset_output_create dev i res conn output_list with
      | (none, tr) =>
        let r := modeset_prepare_loop dev res cs (i + 1) output_list
        (r.1, tr ++ r.2)
      | (some out, tr) =>
        let r := modeset_prepare_loop dev res cs (i + 1) (out :: output_list)
        (r.1, tr ++ r.2)

/-- The C function `modeset_prepare`, started with the given `output_list`:
result code, `output_list` afterwards and the device calls that took
effect. -/
def modeset_prepare (dev : Device) (output_list : List modeset_output) :
    Int × List modeset_output × List DrmCall :=
  match dev.getResources with
  | none => (-(dev.errno : Int), output_list, [])
  | some res =>
    let r := modeset_prepare_loop dev res res.connectors 0 output_list
    if r.1.isEmpty then (-1, r.1, r.2) else (0, r.1, r.2)

/-! ## Painting -/

/-- The C function `next_color`, with `rnd` the value `rand()` returned: the
new channel value and the new direction flag.  The sum is computed in
`unsigned int` (32 bits) and stored into a `uint8_t`. -/
def next_color (up : Bool) (cur mod rnd : Nat) : Nat × Bool :=
  let next := ((cur + ((if up then 1 else 2 ^ 32 - 1) * (rnd % mod)) % 2 ^ 32) % 2 ^ 32) % 256
  if (up && decide (next < cur)) || (!up && decide (next > cur)) then (cur, !up)
  else (next, up)

/-- The store `*(uint32_t*)&map[off] = v` on a little-endian machine; a store
outside the mapping is dropped. -/
def write32 (map : List Nat) (off v : Nat) : List Nat :=
  (((map.set off (v % 256)).set (off + 1) (v / 2 ^ 8 % 256)).set (off + 2)
    (v / 2 ^ 16 % 256)).set (off + 3) (v / 2 ^ 24 % 256)

/-- The two nested loops of `modeset_paint_framebuffer` over rows `j` and
columns `k`; the offset is computed in `unsigned int`. -/
def paint_pixels (buf : modeset_buf) (v : Nat) : List Nat :=
  (List.range buf.height).foldl
    (fun m j => (List.range buf.width).foldl
      (fun m k => write32 m ((buf.stride * j + k * 4) % 2 ^ 32) v) m)
    buf.map

/-- The C function `modeset_paint_framebuffer`.  `rnd` is the sequence of
values `rand()` returns and `n` the number of calls made so far; the result
is the output afterwards and the new number of calls. -/
def modeset_paint_framebuffer (rnd : Nat → Nat) (n : Nat) (out : modeset_output) :
    modeset_output × Nat :=
  let cr := next_color out.r_up out.r 5 (rnd n)
  let out := { out with r := cr.1, r_up := cr.2 }
  let cg := next_color out.g_up out.g 5 (rnd (n + 1))
  let out := { out with g := cg.1, g_up := cg.2 }
  let cb := next_color out.b_up out.b 5 (rnd (n + 2))
  let out := { out with b := cb.1, b_up := cb.2 }
  let buf := out.bufs (out.front_buf ^^^ 1)
  let v := ((out.r <<< 16) ||| (out.g <<< 8) ||| out.b) % 2 ^ 32
  (out.setBuf (out.front_buf ^^^ 1) { buf with map := paint_pixels buf v }, n + 3)

/-! ## Frame submission and completion events -/

/-- The C function `modeset_draw_out`.  `commit_ret` is what
`drmModeAtomicCommit` answers if it is called.  Result: the output
afterwards, the number of `rand()` calls, and the calls made (headed by the
marker of this invocation). -/
def modeset_draw_out (rnd : Nat → Nat) (n : Nat) (commit_ret : Int) (out : modeset_output) :
    modeset_output × Nat × List DrmCall :=
  let p := modeset_paint_framebuffer rnd n out
  let r := modeset_atomic_prepare_commit p.1 []
  if r.1 < 0 then (p.1, p.2, [.draw_out out]) else
  let flags := DRM_MODE_PAGE_FLIP_EVENT ||| DRM_MODE_ATOMIC_NONBLOCK
  if commit_ret < 0 then (p.1, p.2, [.draw_out out, .atomicCommit r.2 flags commit_ret]) else
  ({ p.1 with front_buf := p.1.front_buf ^^^ 1, pflip_pending := true }, p.2,
    [.draw_out out, .atomicCommit r.2 flags commit_ret])

/-- The body of `modeset_page_flip_event`: the search for the first output
with this CRTC identifier and the update of that output in place. -/
def page_flip_event_loop (rnd : Nat → Nat) (commit_ret : Int) (crtc_id : Nat) :
    List modeset_output → Nat → List modeset_output × Nat × List DrmCall
  | [], n => ([], n, [])
  | iter :: rest, n =>
    if iter.crtc.id = crtc_id then
      let out := { iter with pflip_pending := false }
      if !out.cleanup then
        let d := modeset_draw_out rnd n commit_ret out
        (d.1 :: rest, d.2.1, d.2.2)
      else (out :: rest, n, [])
    else
      let r := page_flip_event_loop rnd commit_ret crtc_id rest n
      (iter :: r.1, r.2.1, r.2.2)

/-- The process state the run-time functions work on: the global
`output_list`, the number of `rand()` calls made, and the calls made so
far. -/
structure World where
  output_list : List modeset_output
  rand_calls : Nat
  calls : List DrmCall
  deriving DecidableEq, Repr

/-- The C function `modeset_page_flip_event` for a completion event of CRTC
`crtc_id`; `commit_ret` is the device's answer to the commit the handler may
submit. -/
def modeset_page_flip_event (rnd : Nat → Nat) (commit_ret : Int) (crtc_id : Nat) (w : World) :
    World :=
  let r := page_flip_event_loop rnd commit_ret crtc_id w.output_list w.rand_calls
  { output_list := r.1, rand_calls := r.2.1,
    calls := w.calls ++ [.page_flip_event crtc_id] ++ r.2.2 }

/-- The libdrm `drmHandleEvent` when it succeeds: the handler is called for
each completion event read, in order.  An event is the CRTC identifier and
the device's answer to the commit its handler may submit. -/
def drmHandleEvent (rnd : Nat → Nat) : List (Nat × Int) → World → World
  | [], w => w
  | ev :: evs, w => drmHandleEvent rnd evs (modeset_page_flip_event rnd ev.2 ev.1 w)

/-! ## Startup commits -/

/-- The first loop of `modeset_perform_modeset`.  The loop runs once per
element of the list, and each run passes `output_list` itself (`head`) to
`modeset_atomic_prepare_commit`. -/
def perform_modeset_prepare_loop (head : modeset_output) :
    List modeset_output → Int → drmModeAtomicReq → Int × drmModeAtomicReq
  | [], ret, req => (ret, req)
  | _ :: rest, _, req =>
    let r := modeset_atomic_prepare_commit head req
    if r.1 < 0 then r else perform_modeset_prepare_loop head rest r.1 r.2

/-- The second loop of `modeset_perform_modeset`: random start colour and
first painting of every output. -/
def perform_modeset_paint_loop (rnd : Nat → Nat) :
    List modeset_output → Nat → List modeset_output × Nat
  | [], n => ([], n)
  | iter :: rest, n =>
    let iter := { iter with r := rnd n % 0xff, g := rnd (n + 1) % 0xff, b := rnd (n + 2) % 0xff,
                            r_up := true, g_up := true, b_up := true }
    let p := modeset_paint_framebuffer rnd (n + 3) iter
    let r := perform_modeset_paint_loop rnd rest p.2
    (p.1 :: r.1, r.2)

/-- The C function `modeset_perform_modeset`.  `ret0` is the indeterminate
initial value of the local `ret` (read only when the list is empty),
`test_ret` and `apply_ret` are the device's answers to the validate-only and
to the applying commit.  Result: the return value and the world
afterwards. -/
def modeset_perform_modeset (rnd : Nat → Nat) (ret0 test_ret apply_ret : Int) (w : World) :
    Int × World :=
  let r := match w.output_list with
    | [] => (ret0, ([] : drmModeAtomicReq))
    | head :: _ => perform_modeset_prepare_loop head w.output_list ret0 []
  if r.1 < 0 then (r.1, w) else
  let flags := DRM_MODE_ATOMIC_TEST_ONLY ||| DRM_MODE_ATOMIC_ALLOW_MODESET
  let w := { w with calls := w.calls ++ [.atomicCommit r.2 flags test_ret] }
  if test_ret < 0 then (test_ret, w) else
  let p := perform_modeset_paint_loop rnd w.output_list w.rand_calls
  let flags := DRM_MODE_ATOMIC_ALLOW_MODESET ||| DRM_MODE_PAGE_FLIP_EVENT
  (apply_ret, { output_list := p.1, rand_calls := p.2,
                calls := w.calls ++ [.atomicCommit r.2 flags apply_ret] })

/-! ## Event loop and shutdown -/

/-- What one iteration of the loop of `modeset_draw` observes: the result of
`select`, which descriptors are ready, and, for the device descriptor, what
`drmHandleEvent` does (`none`: it fails). -/
structure SelectResult where
  ret : Int
  stdin_ready : Bool
  drm_ready : Bool
  events : Option (List (Nat × Int))
  deriving DecidableEq, Repr

/-- The `while (time(&cur) < start + 5)` loop of `modeset_draw`.  The list
holds the iterations entered before the deadline; its end is the deadline. -/
def modeset_draw_loop (rnd : Nat → Nat) : List SelectResult → World → World
  | [], w => w
  | s :: rest, w =>
    if s.ret < 0 then w
    else if s.stdin_ready then w
    else if s.drm_ready then
      match s.events with
      | none => modeset_draw_loop rnd rest w
      | some evs => modeset_draw_loop rnd rest (drmHandleEvent rnd evs w)
    else modeset_draw_loop rnd rest w

/-- The C function `modeset_draw`; the return value of
`modeset_perform_modeset` is not used. -/
def modeset_draw (rnd : Nat → Nat) (ret0 test_ret apply_ret : Int) (loop : List SelectResult)
    (w : World) : World :=
  modeset_draw_loop rnd loop (modeset_perform_modeset rnd ret0 test_ret apply_ret w).2

/-- The C function `modeset_output_destroy`: the marker of the invocation
and the device calls. -/
def modeset_output_destroy (out : modeset_output) : List DrmCall :=
  [.output_destroy out] ++ modeset_destroy_fb out.bufs0 ++ modeset_destroy_fb out.bufs1
    ++ [.destroyBlob out.mode_blob_id]

/-- Whether the loop condition `iter->pflip_pending` holds for the head of
the list. -/
def head_pending (w : World) : Bool :=
  match w.output_list with
  | [] => false
  | iter :: _ => iter.pflip_pending

/-- State after the inner loop of `modeset_cleanup`. -/
structure CleanupWait where
  world : World
  /-- the results of `drmHandleEvent` not consumed yet -/
  script : List (Option (List (Nat × Int)))
  /-- `false` when the loop is still waiting after the last result -/
  returned : Bool
  deriving DecidableEq, Repr

/-- The loop `while (iter->pflip_pending)` of `modeset_cleanup`, `iter` being
the head of `output_list`.  The list holds the results of the successive
`drmHandleEvent` calls (`none`: a non-zero return). -/
def modeset_cleanup_wait (rnd : Nat → Nat) :
    List (Option (List (Nat × Int))) → World → CleanupWait
  | [], w => { world := w, script := [], returned := !head_pending w }
  | r :: rest, w =>
    if !head_pending w then { world := w, script := r :: rest, returned := true }
    else
      match r with
      | none => { world := w, script := rest, returned := true }
      | some evs => modeset_cleanup_wait rnd rest (drmHandleEvent rnd evs w)

/-- The loop `while (output_list)` of `modeset_cleanup`, run for at most
`fuel` outputs: the world afterwards and whether the loop has ended. -/
def modeset_cleanup_loop (rnd : Nat → Nat) :
    Nat → List (Option (List (Nat × Int))) → World → World × Bool
  | 0, _, w => (w, w.output_list.isEmpty)
  | fuel + 1, script, w =>
    match w.output_list with
    | [] => (w, true)
    | iter :: rest =>
      let c := modeset_cleanup_wait rnd script
        { w with output_list := { iter with cleanup := true } :: rest }
      if !c.returned then (c.world, false) else
      match c.world.output_list with
      | [] => (c.world, true)
      | iter :: rest =>
        modeset_cleanup_loop rnd fuel c.script
          { c.world with output_list := rest,
                         calls := c.world.calls ++ modeset_output_destroy iter }

/-- The C function `modeset_cleanup`: one round of the outer loop per output
in the list.  The second component is `false` when the function is still
blocked in `drmHandleEvent` after the last scripted result. -/
def modeset_cleanup (rnd : Nat → Nat) (script : List (Option (List (Nat × Int)))) (w : World) :
    World × Bool :=
  modeset_cleanup_loop rnd w.output_list.length script w

/-! ## Opening the device and `main` -/

/-- What the system answers during `modeset_open`. -/
structure OpenAnswer where
  /-- result of `open` -/
  fd : Int
  /-- `errno` after a failed `open` -/
  errno : Nat
  /-- result of `drmSetClientCap(DRM_CLIENT_CAP_UNIVERSAL_PLANES)` -/
  universal_planes_ret : Int
  /-- result of `drmSetClientCap(DRM_CLIENT_CAP_ATOMIC)` -/
  atomic_ret : Int
  /-- the indeterminate initial value of the local `cap` -/
  cap_init : Nat
  /-- result of `drmGetCap(DRM_CAP_DUMB_BUFFER)` and the value it stores on
  success -/
  dumb_ret : Int
  dumb_cap : Nat
  /-- result of `drmGetCap(DRM_CAP_CRTC_IN_VBLANK_EVENT)` and the value it
  stores on success -/
  vblank_ret : Int
  vblank_cap : Nat
  deriving DecidableEq, Repr

/-- The C function `modeset_open`: the return value and the descriptor
stored through `out` (`none`: nothing stored). -/
def modeset_open (a : OpenAnswer) : Int × Option Int :=
  if a.fd < 0 then (-(a.errno : Int), none) else
  if a.universal_planes_ret ≠ 0 then (a.universal_planes_ret, none) else
  if a.atomic_ret ≠ 0 then (a.atomic_ret, none) else
  let cap := if a.dumb_ret < 0 then a.cap_init else a.dumb_cap
  if a.dumb_ret < 0 || cap = 0 then (-EOPNOTSUPP, none) else
  let cap := if a.vblank_ret < 0 then cap else a.vblank_cap
  if a.vblank_ret < 0 && cap = 0 then (-EOPNOTSUPP, none) else
  (0, some a.fd)

/-- Everything the environment contributes to one run of the program. -/
structure Environment where
  openAnswer : OpenAnswer
  dev : Device
  /-- the values returned by successive calls of `rand()` -/
  rnd : Nat → Nat
  /-- the indeterminate initial value of `ret` in `modeset_perform_modeset` -/
  ret0 : Int
  /-- the device's answer to the validate-only commit -/
  test_ret : Int
  /-- the device's answer to the first applying commit -/
  apply_ret : Int
  /-- the iterations of the loop of `modeset_draw` -/
  loop : List SelectResult
  /-- the results of `drmHandleEvent` during `modeset_cleanup` -/
  cleanup : List (Option (List (Nat × Int)))

/-- The C function `main`: the exit code (`none` when the run is still
blocked in `modeset_cleanup` after the last scripted event) and the world at
that point. -/
def main (env : Environment) : Option Int × World :=
  let o := modeset_open env.openAnswer
  if o.1 ≠ 0 then (some o.1, ⟨[], 0, []⟩) else
  let p := modeset_prepare env.dev []
  let w : World := ⟨p.2.1, 0, p.2.2⟩
  if p.1 ≠ 0 then (some p.1, w) else
  let w := modeset_draw env.rnd env.ret0 env.test_ret env.apply_ret env.loop w
  let c := modeset_cleanup env.rnd env.cleanup w
  if c.2 then (some 0, c.1) else (none, c.1)

/-- The output handed to `modeset_find_crtc` by `modeset_output_create`. -/
def output_before_find_crtc (dev : Device) (i : Nat) (conn : drmModeConnector) : modeset_output :=
  { zero_output with connector := ⟨none, conn.connector_id⟩, mode := first_mode conn,
                     mode_blob_id := (dev.createPropertyBlob i).2 }

/-! ## Concrete devices used to exercise the model -/

/-- Property table of a connector of the example devices. -/
def demo_connector_props : List drmModePropertyRes :=
  [⟨1, "EDID", 0⟩, ⟨20, "CRTC_ID", 0⟩]

/-- Property table of a CRTC of the example devices. -/
def demo_crtc_props : List drmModePropertyRes :=
  [⟨22, "ACTIVE", 0⟩, ⟨23, "MODE_ID", 0⟩]

/-- Property table of a primary plane of the example devices. -/
def demo_plane_props : List drmModePropertyRes :=
  [⟨8, "type", 1⟩, ⟨17, "FB_ID", 0⟩, ⟨20, "CRTC_ID", 0⟩, ⟨9, "SRC_X", 0⟩, ⟨10, "SRC_Y", 0⟩,
   ⟨11, "SRC_W", 0⟩, ⟨12, "SRC_H", 0⟩, ⟨13, "CRTC_X", 0⟩, ⟨14, "CRTC_Y", 0⟩,
   ⟨15, "CRTC_W", 0⟩, ⟨16, "CRTC_H", 0⟩]

/-- An example device: connectors 1 and 2 (both connected, one 4x2 mode
each) behind encoders 10 and 11, which currently drive CRTCs 100 and 101;
`planes` lists the plane identifiers with their `possible_crtcs` masks, each
with the property table `plane_props`.  Blob and buffer creation always
succeed. -/
def demo_device_with (plane_props : List drmModePropertyRes) (planes : List (Nat × Nat)) :
    Device where
  getResources := some ⟨[1, 2], [100, 101]⟩
  errno := 0
  getConnector := fun c =>
    if c = 1 then some ⟨1, 10, 1, [⟨4, 2⟩], [10]⟩
    else if c = 2 then some ⟨2, 11, 1, [⟨4, 2⟩], [11]⟩
    else none
  getEncoder := fun e =>
    if e = 10 then some ⟨10, 100, 1⟩
    else if e = 11 then some ⟨11, 101, 2⟩
    else none
  getPlaneResources := some (planes.map Prod.fst)
  getPlane := fun p => (planes.lookup p).map (fun m => ⟨p, m⟩)
  objectGetProperties := fun o =>
    if o = 1 ∨ o = 2 then some demo_connector_props
    else if o = 100 ∨ o = 101 then some demo_crtc_props
    else if (planes.lookup o).isSome then some plane_props
    else none
  createPropertyBlob := fun i => (0, 200 + i)
  createFb := fun i b =>
    { create_ret := 0, pitch := 16, size := 32, handle := 300 + 2 * i + b,
      addfb_ret := 0, fb := 400 + 2 * i + b, map_ret := 0, mmap_failed := false, errno := 0 }

/-- The example device with primary planes that have all the properties the
program sets. -/
def demo_device (planes : List (Nat × Nat)) : Device :=
  demo_device_with demo_plane_props planes

/-- Answers of a system on which `modeset_open` succeeds. -/
def demo_open : OpenAnswer :=
  { fd := 3, errno := 0, universal_planes_ret := 0, atomic_ret := 0, cap_init := 0,
    dumb_ret := 0, dumb_cap := 1, vblank_ret := 0, vblank_cap := 1 }

/-- An example run on the device `dev`: the given answers to the two startup
commits, the given iterations of the event loop and the given results of
`drmHandleEvent` during shutdown. -/
def demo_env (dev : Device) (test_ret apply_ret : Int) (loop : List SelectResult)
    (cleanup : List (Option (List (Nat × Int)))) : Environment :=
  { openAnswer := demo_open, dev := dev, rnd := fun n => 7 * n + 3, ret0 := 0,
    test_ret := test_ret, apply_ret := apply_ret, loop := loop, cleanup := cleanup }

/-- The two-output list discovery builds on the example device with one
primary plane per CRTC: head on connector 2 / CRTC 101 / plane 51, then
connector 1 / CRTC 100 / plane 50. -/
def demo_outputs : List modeset_output :=
  (modeset_prepare (demo_device [(50, 1), (51, 2)]) []).2.1

/-! ## Observations on the list of calls -/

/-- Whether a name resolves on an object: the lookup of
`set_drm_object_property` yields a non-zero property identifier. -/
def resolves (obj : drm_object) (name : String) : Bool :=
  find_prop_id (obj.props_info.getD []) name != 0

/-- Whether all thirteen names `modeset_atomic_prepare_commit` sets resolve on
the objects of the output. -/
def all_resolve (out : modeset_output) : Bool :=
  resolves out.connector "CRTC_ID" && resolves out.crtc "MODE_ID" && resolves out.crtc "ACTIVE"
    && resolves out.plane "FB_ID" && resolves out.plane "CRTC_ID"
    && resolves out.plane "SRC_X" && resolves out.plane "SRC_Y"
    && resolves out.plane "SRC_W" && resolves out.plane "SRC_H"
    && resolves out.plane "CRTC_X" && resolves out.plane "CRTC_Y"
    && resolves out.plane "CRTC_W" && resolves out.plane "CRTC_H"

/-- Whether a call is a commit the device accepted, that is not validate-only,
asks for a completion event and touches the object `crtc_id`. -/
def requests_event_for (crtc_id : Nat) : DrmCall → Bool
  | .atomicCommit req flags ret =>
    decide (0 ≤ ret) && (flags &&& DRM_MODE_PAGE_FLIP_EVENT != 0)
      && (flags &&& DRM_MODE_ATOMIC_TEST_ONLY == 0)
      && req.any (fun it => it.object_id == crtc_id)
  | _ => false

/-- Whether a call is the delivery of a completion event of CRTC `crtc_id` to
the handler. -/
def acknowledges (crtc_id : Nat) : DrmCall → Bool
  | .page_flip_event c => c == crtc_id
  | _ => false

/-- The number of accepted commits with a completion-event request for the
CRTC minus the number of completion events delivered for it. -/
def outstanding (calls : List DrmCall) (crtc_id : Nat) : Int :=
  (calls.countP (requests_event_for crtc_id) : Int) - (calls.countP (acknowledges crtc_id) : Int)

/-- Whether a call creates or releases a device resource (buffer, mapping,
framebuffer, blob), as opposed to a commit or a marker. -/
def DrmCall.is_resource : DrmCall → Bool
  | .createDumb _ => true
  | .destroyDumb _ => true
  | .addFB _ => true
  | .rmFB _ => true
  | .mmap _ _ => true
  | .munmap _ _ => true
  | .createBlob _ => true
  | .destroyBlob _ => true
  | _ => false

/-- The thirteen settings of `modeset_atomic_prepare_commit`, in program
order: object, property name, value. -/
def commit_settings (out : modeset_output) : List (drm_object × String × Nat) :=
  let buf := out.bufs (out.front_buf ^^^ 1)
  [(out.connector, "CRTC_ID", out.crtc.id),
   (out.crtc, "MODE_ID", out.mode_blob_id),
   (out.crtc, "ACTIVE", 1),
   (out.plane, "FB_ID", buf.fb),
   (out.plane, "CRTC_ID", out.crtc.id),
   (out.plane, "SRC_X", 0),
   (out.plane, "SRC_Y", 0),
   (out.plane, "SRC_W", (buf.width <<< 16) % 2 ^ 32),
   (out.plane, "SRC_H", (buf.height <<< 16) % 2 ^ 32),
   (out.plane, "CRTC_X", 0),
   (out.plane, "CRTC_Y", 0),
   (out.plane, "CRTC_W", buf.width),
   (out.plane, "CRTC_H", buf.height)]

/-- A sequence of `set_drm_object_property` calls, each followed by
`if (... < 0) return -1;`, ending in `return 0;`. -/
def set_properties : drmModeAtomicReq → List (drm_object × String × Nat) →
    Int × drmModeAtomicReq
  | req, [] => (0, req)
  | req, s :: rest =>
    let r := set_drm_object_property req s.1 s.2.1 s.2.2
    if r.1 < 0 then (-1, r.2) else set_properties r.2 rest

/-- What a property `Q` of calls must satisfy to hold for every call of a
run: it holds for the resource calls, for event deliveries, for a
`modeset_draw_out` entered with `pflip_pending` clear, for commits with one
of the three flag words the program uses, and for the destruction of an
output whose `pflip_pending` is clear or, when it is set, provided `F` (a
failed event dispatch during shutdown) holds. -/
structure CallInvariant (F : Prop) (Q : DrmCall → Prop) : Prop where
  resource : ∀ c, c.is_resource = true → Q c
  event : ∀ crtc_id, Q (.page_flip_event crtc_id)
  draw : ∀ o, o.pflip_pending = false → Q (.draw_out o)
  commit_frame : ∀ req ret,
    Q (.atomicCommit req (DRM_MODE_PAGE_FLIP_EVENT ||| DRM_MODE_ATOMIC_NONBLOCK) ret)
  commit_test : ∀ req ret,
    Q (.atomicCommit req (DRM_MODE_ATOMIC_TEST_ONLY ||| DRM_MODE_ATOMIC_ALLOW_MODESET) ret)
  commit_apply : ∀ req ret,
    Q (.atomicCommit req (DRM_MODE_ATOMIC_ALLOW_MODESET ||| DRM_MODE_PAGE_FLIP_EVENT) ret)
  destroy : ∀ o, (o.pflip_pending = true → F) → Q (.output_destroy o)

/-- The flag words of the commits among the calls, in order. -/
def commit_flags (calls : List DrmCall) : List Nat :=
  calls.filterMap (fun c => match c with
    | .atomicCommit _ flags _ => some flags
    | _ => none)

/-- The requests of the commits among the calls, in order. -/
def commit_requests (calls : List DrmCall) : List drmModeAtomicReq :=
  calls.filterMap (fun c => match c with
    | .atomicCommit req _ _ => some req
    | _ => none)

/-- The outputs `modeset_output_destroy` was called on, in the state they
had at the call. -/
def destroyed_outputs (calls : List DrmCall) : List modeset_output :=
  calls.filterMap (fun c => match c with
    | .output_destroy o => some o
    | _ => none)

/-- The outputs `modeset_draw_out` was called on, in the state they had at
the call. -/
def drawn_outputs (calls : List DrmCall) : List modeset_output :=
  calls.filterMap (fun c => match c with
    | .draw_out o => some o
    | _ => none)

/-- One iteration of the event loop in which the device descriptor is ready
and `drmHandleEvent` delivers the given events. -/
def drm_events (evs : List (Nat × Int)) : SelectResult :=
  { ret := 1, stdin_ready := false, drm_ready := true, events := some evs }

/-- The example device with one primary plane per CRTC. -/
def demo_two_planes : Device := demo_device [(50, 1), (51, 2)]

/-- The example device with primary planes that lack the `SRC_H` property. -/
def demo_no_src_h : Device :=
  demo_device_with (demo_plane_props.filter (fun p => p.name != "SRC_H")) [(50, 1), (51, 2)]

/-- The world after discovery on the example device. -/
def demo_world : World := ⟨demo_outputs, 0, []⟩

/-- An example run: both startup commits accepted, one completion event for
CRTC 101 handled in the event loop (its frame commit accepted), then the
deadline; during shutdown `drmHandleEvent` delivers the completion event of
that frame. -/
def demo_run_clean : Environment :=
  demo_env demo_two_planes 0 0 [drm_events [(101, 0)]] [some [(101, 0)]]

/-- The same run, except that during shutdown `drmHandleEvent` fails. -/
def demo_run_dispatch_fails : Environment :=
  demo_env demo_two_planes 0 0 [drm_events [(101, 0)]] [none]

/-- An example run: both startup commits accepted, then standard input
becomes ready in the first iteration of the event loop, before any completion
event is dispatched. -/
def demo_run_user_input : Environment :=
  demo_env demo_two_planes 0 0 [⟨1, true, false, none⟩] []

/-- The first output `modeset_draw_out` is called on in the clean example
run. -/
def demo_drawn : modeset_output :=
  (drawn_outputs (main demo_run_clean).2.calls).headD zero_output

/-- The first output destroyed in the clean example run. -/
def demo_destroyed : modeset_output :=
  (destroyed_outputs (main demo_run_clean).2.calls).headD zero_output

/-! ## The device's resources, as changed by the calls -/

/-- The resources a process holds on the device: live dumb-buffer handles,
registered framebuffers, mapped buffers (by handle) and property blobs.
Lists are used as multisets. -/
structure DeviceResources where
  handles : List Nat
  fbs : List Nat
  maps : List Nat
  blobs : List Nat
  deriving DecidableEq, Repr

/-- The effect of one call on the device's resources. -/
def apply_call (res : DeviceResources) : DrmCall → DeviceResources
  | .createDumb h => { res with handles := h :: res.handles }
  | .destroyDumb h => { res with handles := res.handles.erase h }
  | .addFB fb => { res with fbs := fb :: res.fbs }
  | .rmFB fb => { res with fbs := res.fbs.erase fb }
  | .mmap h _ => { res with maps := h :: res.maps }
  | .munmap h _ => { res with maps := res.maps.erase h }
  | .createBlob b => { res with blobs := b :: res.blobs }
  | .destroyBlob b => { res with blobs := res.blobs.erase b }
  | _ => res

/-- The effect of a sequence of calls on the device's resources. -/
def apply_calls (calls : List DrmCall) (res : DeviceResources) : DeviceResources :=
  calls.foldl apply_call res

/-! ## `modeset-vsync.c`: buffer allocation and release -/

/-- The C function `modeset_create_fb` of `dh-modeset-vsync/modeset-vsync.c`
(`struct modeset_buf` is the same as in `modeset-atomic.c`; the framebuffer
is registered with `drmModeAddFB`): result code, the buffer afterwards and
the device calls that took effect. -/
def Vsync.modeset_create_fb (ans : CreateFbAnswer) (buf : modeset_buf) :
    Int × modeset_buf × List DrmCall :=
  if ans.create_ret < 0 then (-(ans.errno : Int), buf, []) else
  let buf := { buf with stride := ans.pitch, size := ans.size, handle := ans.handle }
  if ans.addfb_ret ≠ 0 then
    (-(ans.errno : Int), buf, [.createDumb buf.handle, .destroyDumb buf.handle])
  else
  let buf := { buf with fb := ans.fb }
  if ans.map_ret ≠ 0 then
    (-(ans.errno : Int), buf,
      [.createDumb buf.handle, .addFB buf.fb, .rmFB buf.fb, .destroyDumb buf.handle])
  else
  if ans.mmap_failed then
    (-(ans.errno : Int), buf,
      [.createDumb buf.handle, .addFB buf.fb, .rmFB buf.fb, .destroyDumb buf.handle])
  else
  let buf := { buf with map := List.replicate buf.size 0 }
  (0, buf, [.createDumb buf.handle, .addFB buf.fb, .mmap buf.handle buf.size])

/-- The C function `modeset_destroy_fb` of `dh-modeset-vsync/modeset-vsync.c`:
`munmap(buf->map, buf->size)`, `drmModeRmFB(fd, buf->size)`, and
`DRM_IOCTL_MODE_DESTROY_DUMB` on `buf->handle`. -/
def Vsync.modeset_destroy_fb (buf : modeset_buf) : List DrmCall :=
  [.munmap buf.handle buf.size, .rmFB buf.size, .destroyDumb buf.handle]

/-! ## More example inputs -/

/-- The device's answers of a successful buffer allocation: handle 300,
framebuffer 400, pitch 16, 32 bytes. -/
def demo_fb_answer : CreateFbAnswer :=
  { create_ret := 0, pitch := 16, size := 32, handle := 300, addfb_ret := 0, fb := 400,
    map_ret := 0, mmap_failed := false, errno := 0 }

/-- The example device with one primary plane per CRTC, on which connector 1
is connected but declares no mode and connector 2 cannot be retrieved. -/
def demo_no_modes : Device :=
  { demo_two_planes with
    getConnector := fun c => if c = 1 then some ⟨1, 10, 1, [], [10]⟩ else none }

/-- A device with one connected connector 1 (mode 1920x1080) behind encoder
10 on CRTC 100 with primary plane 50; buffers get pitch 7680 and 8294400
bytes. -/
def demo_full_hd : Device where
  getResources := some ⟨[1], [100]⟩
  errno := 0
  getConnector := fun c => if c = 1 then some ⟨1, 10, 1, [⟨1920, 1080⟩, ⟨1280, 720⟩], [10]⟩ else none
  getEncoder := fun e => if e = 10 then some ⟨10, 100, 1⟩ else none
  getPlaneResources := some [50]
  getPlane := fun p => if p = 50 then some ⟨50, 1⟩ else none
  objectGetProperties := fun o =>
    if o = 1 then some demo_connector_props
    else if o = 100 then some demo_crtc_props
    else if o = 50 then some demo_plane_props
    else none
  createPropertyBlob := fun i => (0, 200 + i)
  createFb := fun i b =>
    { create_ret := 0, pitch := 7680, size := 8294400, handle := 300 + 2 * i + b,
      addfb_ret := 0, fb := 400 + 2 * i + b, map_ret := 0, mmap_failed := false, errno := 0 }

/-- The property identifier `set_drm_object_property` resolves a name to on
an object (`0`: the name does not resolve). -/
def prop_id_of (obj : drm_object) (name : String) : Nat :=
  find_prop_id (obj.props_info.getD []) name

/-- The offset `off = buf->stride * j + k * 4` of pixel (`j`, `k`), as
`modeset_paint_framebuffer` computes it in `unsigned int`. -/
def pixel_offset (buf : modeset_buf) (j k : Nat) : Nat :=
  (buf.stride * j + k * 4) % 2 ^ 32

/-- The 32-bit little-endian value stored in four bytes of a mapping from
offset `off` (`none` when they are not all inside the mapping). -/
def read32 (map : List Nat) (off : Nat) : Option Nat :=
  match map[off]?, map[off + 1]?, map[off + 2]?, map[off + 3]? with
  | some b0, some b1, some b2, some b3 => some (b0 + b1 * 2 ^ 8 + b2 * 2 ^ 16 + b3 * 2 ^ 24)
  | _, _, _, _ => none

/-- The connector of `demo_zero_crtc`: no bound encoder, usable with encoder
10. -/
def demo_unbound_connector : drmModeConnector := ⟨1, 0, 1, [⟨4, 2⟩], [10]⟩

/-- The value the `int32_t` variable `crtc` of `modeset_find_crtc` (in
`modeset.c` and `modeset-double-buffered.c`) gets from a `uint32_t`. -/
def toInt32 (v : Nat) : Int :=
  if v % 2 ^ 32 < 2 ^ 31 then ((v % 2 ^ 32 : Nat) : Int) else ((v % 2 ^ 32 : Nat) : Int) - 2 ^ 32

/-- The `uint32_t` value of an `int32_t`, as in the comparison
`iter->crtc == crtc` and the assignment `dev->crtc = crtc`. -/
def toUInt32 (x : Int) : Nat :=
  (x % 2 ^ 32).toNat

/-- The C `struct modeset_dev` of `modeset.c`, without the `next` link and
the `saved_crtc` pointer. -/
structure Modeset.modeset_dev where
  width : Nat
  height : Nat
  stride : Nat
  size : Nat
  handle : Nat
  map : List Nat
  mode : drmModeModeInfo
  fb : Nat
  conn : Nat
  crtc : Nat
  deriving DecidableEq, Repr

/-- The C `struct modeset_dev` of `modeset-double-buffered.c`, without the
`next` link and the `saved_crtc` pointer; `modeset_buf` has the same fields as
in `modeset-atomic.c`. -/
structure DoubleBuffered.modeset_dev where
  front_buf : Nat
  bufs0 : modeset_buf
  bufs1 : modeset_buf
  mode : drmModeModeInfo
  conn : Nat
  crtc : Nat
  deriving DecidableEq, Repr

/-- In `modeset-double-buffered.c`, the loop
`for (iter = modeset_list; iter; iter = iter->next)` of `modeset_find_crtc`
that sets `crtc` to `-1` when a device already uses it. -/
def DoubleBuffered.crtc_unclaimed : List DoubleBuffered.modeset_dev → Int → Int
  | [], crtc => crtc
  | iter :: rest, crtc =>
    if iter.crtc = toUInt32 crtc then -1 else DoubleBuffered.crtc_unclaimed rest crtc

/-- In `modeset-double-buffered.c`, the loop of `modeset_find_crtc` over
`res->crtcs` from position `j`: the test `if (crtc >= 0)` follows the loop
over `modeset_list`. -/
def DoubleBuffered.find_crtc_scan_crtcs (modeset_list : List DoubleBuffered.modeset_dev)
    (possible_crtcs : Nat) : List Nat → Nat → Option Int
  | [], _ => none
  | c :: cs, j =>
    if !bit_set possible_crtcs j then
      DoubleBuffered.find_crtc_scan_crtcs modeset_list possible_crtcs cs (j + 1)
    else
      let crtc := DoubleBuffered.crtc_unclaimed modeset_list (toInt32 c)
      if crtc ≥ 0 then some crtc
      else DoubleBuffered.find_crtc_scan_crtcs modeset_list possible_crtcs cs (j + 1)

/-- In `modeset-double-buffered.c`, the loop of `modeset_find_crtc` over
`conn->encoders`. -/
def DoubleBuffered.find_crtc_scan_encoders (drm : Device)
    (modeset_list : List DoubleBuffered.modeset_dev) (crtcs : List Nat) :
    List Nat → Option Int
  | [] => none
  | e :: es =>
    match drm.getEncoder e with
    | none => DoubleBuffered.find_crtc_scan_encoders drm modeset_list crtcs es
    | some enc =>
      match DoubleBuffered.find_crtc_scan_crtcs modeset_list enc.possible_crtcs crtcs 0 with
      | some crtc => some crtc
      | none => DoubleBuffered.find_crtc_scan_encoders drm modeset_list crtcs es

/-- In `modeset-double-buffered.c`, the first part of `modeset_find_crtc`: the
CRTC of the currently bound encoder. -/
def DoubleBuffered.find_crtc_current (drm : Device) (conn : drmModeConnector)
    (modeset_list : List DoubleBuffered.modeset_dev) : Option Int :=
  let enc := if conn.encoder_id ≠ 0 then drm.getEncoder conn.encoder_id else none
  match enc with
  | none => none
  | some enc =>
    if enc.crtc_id ≠ 0 then
      let crtc := DoubleBuffered.crtc_unclaimed modeset_list (toInt32 enc.crtc_id)
      if crtc ≥ 0 then some crtc else none
    else none

/-- The C function `modeset_find_crtc` of `modeset-double-buffered.c`: result
code and the device with `crtc` filled in. -/
def DoubleBuffered.modeset_find_crtc (drm : Device) (res : drmModeRes) (conn : drmModeConnector)
    (modeset_list : List DoubleBuffered.modeset_dev) (dev : DoubleBuffered.modeset_dev) :
    Int × DoubleBuffered.modeset_dev :=
  match DoubleBuffered.find_crtc_current drm conn modeset_list with
  | some crtc => (0, { dev with crtc := toUInt32 crtc })
  | none =>
    match DoubleBuffered.find_crtc_scan_encoders drm modeset_list res.crtcs conn.encoders with
    | some crtc => (0, { dev with crtc := toUInt32 crtc })
    | none => (-ENOENT, dev)

/-- In `modeset.c`, the loop `for (iter = modeset_list; iter; iter = iter->next)`
of the first part of `modeset_find_crtc`. -/
def Modeset.crtc_unclaimed : List Modeset.modeset_dev → Int → Int
  | [], crtc => crtc
  | iter :: rest, crtc =>
    if iter.crtc = toUInt32 crtc then -1 else Modeset.crtc_unclaimed rest crtc

/-- In `modeset.c`, the loop over `modeset_list` inside the scan of
`modeset_find_crtc`, whose body holds both the comparison and the test
`if (crtc >= 0)`: `some crtc` when the function returns from inside the
loop, `none` when the loop ends (by `break` or at the end of the list). -/
def Modeset.scan_list : List Modeset.modeset_dev → Int → Option Int
  | [], _ => none
  | iter :: rest, crtc =>
    if iter.crtc = toUInt32 crtc then none
    else if crtc ≥ 0 then some crtc
    else Modeset.scan_list rest crtc

/-- In `modeset.c`, the loop of `modeset_find_crtc` over `res->crtcs` from
position `j`. -/
def Modeset.find_crtc_scan_crtcs (modeset_list : List Modeset.modeset_dev)
    (possible_crtcs : Nat) : List Nat → Nat → Option Int
  | [], _ => none
  | c :: cs, j =>
    if !bit_set possible_crtcs j then
      Modeset.find_crtc_scan_crtcs modeset_list possible_crtcs cs (j + 1)
    else
      match Modeset.scan_list modeset_list (toInt32 c) with
      | some crtc => some crtc
      | none => Modeset.find_crtc_scan_crtcs modeset_list possible_crtcs cs (j + 1)

/-- In `modeset.c`, the loop of `modeset_find_crtc` over `conn->encoders`. -/
def Modeset.find_crtc_scan_encoders (drm : Device) (modeset_list : List Modeset.modeset_dev)
    (crtcs : List Nat) : List Nat → Option Int
  | [] => none
  | e :: es =>
    match drm.getEncoder e with
    | none => Modeset.find_crtc_scan_encoders drm modeset_list crtcs es
    | some enc =>
      match Modeset.find_crtc_scan_crtcs modeset_list enc.possible_crtcs crtcs 0 with
      | some crtc => some crtc
      | none => Modeset.find_crtc_scan_encoders drm modeset_list crtcs es

/-- In `modeset.c`, the first part of `modeset_find_crtc`: the CRTC of the
currently bound encoder. -/
def Modeset.find_crtc_current (drm : Device) (conn : drmModeConnector)
    (modeset_list : List Modeset.modeset_dev) : Option Int :=
  let enc := if conn.encoder_id ≠ 0 then drm.getEncoder conn.encoder_id else none
  match enc with
  | none => none
  | some enc =>
    if enc.crtc_id ≠ 0 then
      let crtc := Modeset.crtc_unclaimed modeset_list (toInt32 enc.crtc_id)
      if crtc ≥ 0 then some crtc else none
    else none

/-- The C function `modeset_find_crtc` of `modeset.c`: result code and the
device with `crtc` filled in. -/
def Modeset.modeset_find_crtc (drm : Device) (res : drmModeRes) (conn : drmModeConnector)
    (modeset_list : List Modeset.modeset_dev) (dev : Modeset.modeset_dev) :
    Int × Modeset.modeset_dev :=
  match Modeset.find_crtc_current drm conn modeset_list with
  | some crtc => (0, { dev with crtc := toUInt32 crtc })
  | none =>
    match Modeset.find_crtc_scan_encoders drm modeset_list res.crtcs conn.encoders with
    | some crtc => (0, { dev with crtc := toUInt32 crtc })
    | none => (-ENOENT, dev)

/-- A device whose CRTC list is `[100]`; connector 1 has no bound encoder and
can use encoder 10, which can drive CRTC position 0. -/
def demo_unbound : Device :=
  { demo_full_hd with
    getConnector := fun c => if c = 1 then some demo_unbound_connector else none
    getEncoder := fun e => if e = 10 then some ⟨10, 0, 1⟩ else none }

/-- A `modeset_dev` of `modeset.c` for connector `conn` on CRTC `crtc`, with
a 4x2 buffer of pitch 16. -/
def Modeset.demo_dev (conn crtc : Nat) : Modeset.modeset_dev :=
  { width := 4, height := 2, stride := 16, size := 32, handle := 300,
    map := List.replicate 32 0, mode := ⟨4, 2⟩, fb := 400, conn := conn, crtc := crtc }

/-- A `modeset_dev` of `modeset-double-buffered.c` for connector `conn` on
CRTC `crtc`: `front_buf = 0`, two 4x2 buffers of pitch 16 with framebuffers
400 and 401. -/
def DoubleBuffered.demo_dev (conn crtc : Nat) : DoubleBuffered.modeset_dev :=
  { front_buf := 0,
    bufs0 := ⟨4, 2, 16, 32, 300, List.replicate 32 0, 400⟩,
    bufs1 := ⟨4, 2, 16, 32, 301, List.replicate 32 0, 401⟩,
    mode := ⟨4, 2⟩, conn := conn, crtc := crtc }

/-! ## `modeset-double-buffered.c`: drawing -/

/-- The array access `dev->bufs[i]` (see `modeset_output.bufs`). -/
def DoubleBuffered.modeset_dev.bufs (dev : DoubleBuffered.modeset_dev) (i : Nat) : modeset_buf :=
  if i = 0 then dev.bufs0 else dev.bufs1

/-- The assignment `dev->bufs[i] = b`. -/
def DoubleBuffered.modeset_dev.setBuf (dev : DoubleBuffered.modeset_dev) (i : Nat)
    (b : modeset_buf) : DoubleBuffered.modeset_dev :=
  if i = 0 then { dev with bufs0 := b } else { dev with bufs1 := b }

/-- One call of `drmModeSetCrtc` by `modeset_draw`: the CRTC, the framebuffer
put on screen, the connector, and the result code. -/
structure DoubleBuffered.SetCrtcCall where
  crtc : Nat
  fb : Nat
  conn : Nat
  ret : Int
  deriving DecidableEq, Repr

/-- The body of the loop over `modeset_list` in `modeset_draw` of
`modeset-double-buffered.c` for one device: `v` is the packed colour of this
frame and `ret` what `drmModeSetCrtc` answers.  The pixel loops are those of
`paint_pixels`. -/
def DoubleBuffered.draw_dev (v : Nat) (ret : Int) (iter : DoubleBuffered.modeset_dev) :
    DoubleBuffered.modeset_dev × DoubleBuffered.SetCrtcCall :=
  let buf := iter.bufs (iter.front_buf ^^^ 1)
  let buf := { buf with map := paint_pixels buf v }
  let iter := iter.setBuf (iter.front_buf ^^^ 1) buf
  let call : DoubleBuffered.SetCrtcCall := ⟨iter.crtc, buf.fb, iter.conn, ret⟩
  if ret ≠ 0 then (iter, call)
  else
    -- `iter->front_buf ^ 1;` computes a value and drops it
    let _dropped := iter.front_buf ^^^ 1
    (iter, call)

/-- The loop over `modeset_list` in `modeset_draw` for one frame; `n` is the
number of `drmModeSetCrtc` calls made so far and `set_crtc` their results. -/
def DoubleBuffered.draw_list (v : Nat) (set_crtc : Nat → Int) :
    List DoubleBuffered.modeset_dev → Nat →
      List DoubleBuffered.modeset_dev × List DoubleBuffered.SetCrtcCall
  | [], _ => ([], [])
  | iter :: rest, n =>
    let d := DoubleBuffered.draw_dev v (set_crtc n) iter
    let r := DoubleBuffered.draw_list v set_crtc rest (n + 1)
    (d.1 :: r.1, d.2 :: r.2)

/-- The loop `for (i = 0; i < 50; ++i)` of `modeset_draw` with `frames`
iterations left: `r`, `g`, `b` and the direction flags are the locals of
`modeset_draw`, `n` the number of `rand()` calls and `k` the number of
`drmModeSetCrtc` calls made so far.  `next_color` has the same text as in
`modeset-atomic.c`. -/
def DoubleBuffered.draw_frames (rnd : Nat → Nat) (set_crtc : Nat → Int) :
    Nat → Nat → Nat → Nat → Bool → Bool → Bool → Nat → Nat →
      List DoubleBuffered.modeset_dev →
      List DoubleBuffered.modeset_dev × List DoubleBuffered.SetCrtcCall
  | 0, _, _, _, _, _, _, _, _, l => (l, [])
  | frames + 1, r, g, b, r_up, g_up, b_up, n, k, l =>
    let cr := next_color r_up r 20 (rnd n)
    let cg := next_color g_up g 10 (rnd (n + 1))
    let cb := next_color b_up b 5 (rnd (n + 2))
    let v := ((cr.1 <<< 16) ||| (cg.1 <<< 8) ||| cb.1) % 2 ^ 32
    let d := DoubleBuffered.draw_list v set_crtc l k
    let rest := DoubleBuffered.draw_frames rnd set_crtc frames cr.1 cg.1 cb.1 cr.2 cg.2 cb.2
      (n + 3) (k + l.length) d.1
    (rest.1, d.2 ++ rest.2)

/-- The C function `modeset_draw` of `modeset-double-buffered.c`: the device
list afterwards and the `drmModeSetCrtc` calls made. -/
def DoubleBuffered.modeset_draw (rnd : Nat → Nat) (set_crtc : Nat → Int)
    (modeset_list : List DoubleBuffered.modeset_dev) :
    List DoubleBuffered.modeset_dev × List DoubleBuffered.SetCrtcCall :=
  DoubleBuffered.draw_frames rnd set_crtc 50 (rnd 0 % 0xff) (rnd 1 % 0xff) (rnd 2 % 0xff)
    true true true 3 0 modeset_list

theorem crtc_unclaimed_pos (l : List modeset_output) (c : Nat) (h : 0 < crtc_unclaimed l c) :
    crtc_unclaimed l c = c ∧ ∀ o ∈ l, o.crtc.id ≠ c := by
  induction l with
  | nil => simp [crtc_unclaimed]
  | cons o rest ih =>
    unfold crtc_unclaimed at h ⊢
    by_cases hc : o.crtc.id = c
    · simp [hc] at h
    · simp only [hc, if_false] at h ⊢
      obtain ⟨h1, h2⟩ := ih h
      refine ⟨h1, ?_⟩
      intro o' ho'
      rcases List.mem_cons.mp ho' with rfl | hm
      · exact hc
      · exact h2 o' hm

theorem find_crtc_scan_crtcs_spec (l : List modeset_output) (m : Nat) (cs : List Nat) (j0 : Nat)
    (crtc j : Nat) (h : find_crtc_scan_crtcs l m cs j0 = some (crtc, j)) :
    0 < crtc ∧ (∀ o ∈ l, o.crtc.id ≠ crtc) ∧ j0 ≤ j ∧ cs[j - j0]? = some crtc := by
  induction cs generalizing j0 with
  | nil => simp [find_crtc_scan_crtcs] at h
  | cons c cs ih =>
    unfold find_crtc_scan_crtcs at h
    have step : find_crtc_scan_crtcs l m cs (j0 + 1) = some (crtc, j) →
        0 < crtc ∧ (∀ o ∈ l, o.crtc.id ≠ crtc) ∧ j0 ≤ j ∧ (c :: cs)[j - j0]? = some crtc := by
      intro h'
      obtain ⟨a, b, hle, hget⟩ := ih (j0 + 1) h'
      refine ⟨a, b, by omega, ?_⟩
      have : j - j0 = (j - (j0 + 1)) + 1 := by omega
      rw [this, List.getElem?_cons_succ]
      exact hget
    by_cases hb : bit_set m j0
    · simp only [hb, Bool.not_true, Bool.false_eq_true, if_false] at h
      by_cases hp : crtc_unclaimed l c > 0
      · simp only [hp, if_true, Option.some.injEq, Prod.mk.injEq] at h
        obtain ⟨h1, h2⟩ := h
        obtain ⟨e, hne⟩ := crtc_unclaimed_pos l c hp
        subst h2
        rw [e] at h1 hp
        subst h1
        exact ⟨hp, hne, le_refl _, by simp⟩
      · simp only [hp, if_false] at h
        exact step h
    · simp only [hb, Bool.not_false, if_true] at h
      exact step h

theorem find_crtc_scan_encoders_spec (dev : Device) (l : List modeset_output) (cs es : List Nat)
    (crtc j : Nat) (h : find_crtc_scan_encoders dev l cs es = some (crtc, j)) :
    0 < crtc ∧ (∀ o ∈ l, o.crtc.id ≠ crtc) ∧ cs[j]? = some crtc := by
  induction es with
  | nil => simp [find_crtc_scan_encoders] at h
  | cons e es ih =>
    unfold find_crtc_scan_encoders at h
    cases he : dev.getEncoder e with
    | none => rw [he] at h; exact ih h
    | some enc =>
      rw [he] at h
      dsimp only at h
      cases hs : find_crtc_scan_crtcs l enc.possible_crtcs cs 0 with
      | none => rw [hs] at h; exact ih h
      | some r =>
        rw [hs] at h
        simp only [Option.some.injEq] at h
        subst h
        obtain ⟨a, b, _, d⟩ := find_crtc_scan_crtcs_spec l enc.possible_crtcs cs 0 crtc j hs
        exact ⟨a, b, by simpa using d⟩

theorem find_crtc_current_spec (dev : Device) (conn : drmModeConnector)
    (l : List modeset_output) (crtc : Nat) (h : find_crtc_current dev conn l = some crtc) :
    0 < crtc ∧ (∀ o ∈ l, o.crtc.id ≠ crtc) ∧
      ∃ enc, dev.getEncoder conn.encoder_id = some enc ∧ enc.crtc_id = crtc := by
  unfold find_crtc_current at h
  by_cases h0 : conn.encoder_id ≠ 0
  · rw [if_pos h0] at h
    cases he : dev.getEncoder conn.encoder_id with
    | none => rw [he] at h; simp at h
    | some enc =>
      rw [he] at h
      dsimp only at h
      by_cases hc : enc.crtc_id ≠ 0
      · rw [if_pos hc] at h
        by_cases hp : crtc_unclaimed l enc.crtc_id > 0
        · rw [if_pos hp] at h
          obtain ⟨e, hne⟩ := crtc_unclaimed_pos l enc.crtc_id hp
          rw [e] at h hp
          simp only [Option.some.injEq] at h
          subst h
          exact ⟨hp, hne, enc, rfl, rfl⟩
        · rw [if_neg hp] at h; simp at h
      · rw [if_neg hc] at h; simp at h
  · rw [if_neg h0] at h; simp at h

/-- What a successful `modeset_find_crtc` leaves in the output: a non-zero
CRTC that no output of the list drives; everything but `crtc.id` and
`crtc_index` is untouched. -/
theorem modeset_find_crtc_ok (dev : Device) (res : drmModeRes) (conn : drmModeConnector)
    (l : List modeset_output) (out : modeset_output)
    (h : (modeset_find_crtc dev res conn l out).1 = 0) :
    0 < (modeset_find_crtc dev res conn l out).2.crtc.id ∧
    ∀ o ∈ l, o.crtc.id ≠ (modeset_find_crtc dev res conn l out).2.crtc.id := by
  unfold modeset_find_crtc at h ⊢
  cases hcur : find_crtc_current dev conn l with
  | some crtc =>
    obtain ⟨a, b, _⟩ := find_crtc_current_spec dev conn l crtc hcur
    dsimp only
    cases hp : crtc_position res.crtcs 0 crtc <;> exact ⟨a, b⟩
  | none =>
    rw [hcur] at h
    cases hs : find_crtc_scan_encoders dev l res.crtcs conn.encoders with
    | none => rw [hs] at h; simp [ENOENT] at h
    | some r =>
      obtain ⟨crtc, j⟩ := r
      obtain ⟨a, b, _⟩ := find_crtc_scan_encoders_spec dev l res.crtcs conn.encoders crtc j hs
      exact ⟨a, b⟩

theorem modeset_find_plane_crtc (dev : Device) (out : modeset_output) :
    (modeset_find_plane dev out).2.crtc = out.crtc ∧
    (modeset_find_plane dev out).2.crtc_index = out.crtc_index := by
  unfold modeset_find_plane
  split
  · exact ⟨rfl, rfl⟩
  · split <;> exact ⟨rfl, rfl⟩

theorem modeset_get_object_properties_id (dev : Device) (obj : drm_object) :
    (modeset_get_object_properties dev obj).id = obj.id := by
  unfold modeset_get_object_properties
  cases dev.objectGetProperties obj.id <;> rfl

theorem modeset_setup_objects_ids (dev : Device) (out : modeset_output) :
    (modeset_setup_objects dev out).2.crtc.id = out.crtc.id ∧
    (modeset_setup_objects dev out).2.plane.id = out.plane.id ∧
    (modeset_setup_objects dev out).2.connector.id = out.connector.id ∧
    (modeset_setup_objects dev out).2.crtc_index = out.crtc_index := by
  unfold modeset_setup_objects
  simp only
  split_ifs <;> simp [modeset_get_object_properties_id]

theorem modeset_setup_framebuffers_ids (a0 a1 : CreateFbAnswer) (conn : drmModeConnector)
    (out : modeset_output) :
    (modeset_setup_framebuffers a0 a1 conn out).2.1.crtc = out.crtc ∧
    (modeset_setup_framebuffers a0 a1 conn out).2.1.plane = out.plane ∧
    (modeset_setup_framebuffers a0 a1 conn out).2.1.connector = out.connector ∧
    (modeset_setup_framebuffers a0 a1 conn out).2.1.crtc_index = out.crtc_index := by
  unfold modeset_setup_framebuffers
  simp only
  split_ifs <;> simp

/-- An output returned by `modeset_output_create` carries the CRTC chosen by a
successful `modeset_find_crtc` and the plane chosen by a successful
`modeset_find_plane` for that CRTC. -/
theorem modeset_output_create_some (dev : Device) (i : Nat) (res : drmModeRes)
    (conn : drmModeConnector) (l : List modeset_output) (out : modeset_output)
    (h : (modeset_output_create dev i res conn l).1 = some out) :
    (modeset_find_crtc dev res conn l (output_before_find_crtc dev i conn)).1 = 0 ∧
    (modeset_find_plane dev
      (modeset_find_crtc dev res conn l (output_before_find_crtc dev i conn)).2).1 = 0 ∧
    out.crtc.id = (modeset_find_crtc dev res conn l (output_before_find_crtc dev i conn)).2.crtc.id ∧
    out.crtc_index =
      (modeset_find_crtc dev res conn l (output_before_find_crtc dev i conn)).2.crtc_index ∧
    out.plane.id = (modeset_find_plane dev
      (modeset_find_crtc dev res conn l (output_before_find_crtc dev i conn)).2).2.plane.id := by
  unfold modeset_output_create at h
  simp only at h
  split_ifs at h with h1 h2 h3 h4 h5 h6
  all_goals simp only [Option.some.injEq, reduceCtorEq] at h
  subst h
  have hf := modeset_setup_framebuffers_ids (dev.createFb i 0) (dev.createFb i 1) conn
    (modeset_setup_objects dev (modeset_find_plane dev
      (modeset_find_crtc dev res conn l (output_before_find_crtc dev i conn)).2).2).2
  have ho := modeset_setup_objects_ids dev (modeset_find_plane dev
      (modeset_find_crtc dev res conn l (output_before_find_crtc dev i conn)).2).2
  have hp := modeset_find_plane_crtc dev
      (modeset_find_crtc dev res conn l (output_before_find_crtc dev i conn)).2
  refine ⟨not_not.mp h3, not_not.mp h4, ?_, ?_, ?_⟩
  · exact (congrArg drm_object.id hf.1).trans (ho.1.trans (congrArg drm_object.id hp.1))
  · exact hf.2.2.2.trans (ho.2.2.2.trans hp.2)
  · exact (congrArg drm_object.id hf.2.1).trans ho.2.1

/-- A new output never drives the CRTC of an output already in the list. -/
theorem modeset_output_create_crtc_fresh (dev : Device) (i : Nat) (res : drmModeRes)
    (conn : drmModeConnector) (l : List modeset_output) (out : modeset_output)
    (h : (modeset_output_create dev i res conn l).1 = some out) :
    ∀ o ∈ l, o.crtc.id ≠ out.crtc.id := by
  obtain ⟨h1, _, h3, _⟩ := modeset_output_create_some dev i res conn l out h
  rw [h3]
  exact (modeset_find_crtc_ok dev res conn l _ h1).2

/-- An invariant of the list is kept by the connector loop of
`modeset_prepare` when each appended output establishes `R` against the
outputs before it and `P` for itself. -/
theorem modeset_prepare_loop_invariant (dev : Device) (res : drmModeRes)
    (R : modeset_output → modeset_output → Prop) (P : modeset_output → Prop)
    (hR : ∀ i conn l out, (modeset_output_create dev i res conn l).1 = some out →
      ∀ o ∈ l, R out o)
    (hP : ∀ i conn l out, (modeset_output_create dev i res conn l).1 = some out → P out)
    (cs : List Nat) (i : Nat) (l : List modeset_output) (hl : l.Pairwise R)
    (hp : ∀ o ∈ l, P o) :
    (modeset_prepare_loop dev res cs i l).1.Pairwise R ∧
    ∀ o ∈ (modeset_prepare_loop dev res cs i l).1, P o := by
  induction cs generalizing i l with
  | nil => exact ⟨by simpa [modeset_prepare_loop] using hl, by simpa [modeset_prepare_loop] using hp⟩
  | cons c cs ih =>
    unfold modeset_prepare_loop
    cases hc : dev.getConnector c with
    | none => exact ih (i + 1) l hl hp
    | some conn =>
      dsimp only
      cases hout : modeset_output_create dev i res conn l with
      | mk o tr =>
        cases o with
        | none => exact ih (i + 1) l hl hp
        | some out =>
          have hcr : (modeset_output_create dev i res conn l).1 = some out := by rw [hout]
          apply ih (i + 1) (out :: l)
          · rw [List.pairwise_cons]
            exact ⟨hR i conn l out hcr, hl⟩
          · intro o ho
            rcases List.mem_cons.mp ho with rfl | hm
            · exact hP i conn l _ hcr
            · exact hp o hm

theorem crtc_position_spec (cs : List Nat) (i0 c i : Nat) (h : crtc_position cs i0 c = some i) :
    i0 ≤ i ∧ cs[i - i0]? = some c := by
  induction cs generalizing i0 with
  | nil => simp [crtc_position] at h
  | cons x xs ih =>
    unfold crtc_position at h
    by_cases hx : x = c
    · rw [if_pos hx] at h
      simp only [Option.some.injEq] at h
      subst h
      simp [hx]
    · rw [if_neg hx] at h
      obtain ⟨hle, hget⟩ := ih (i0 + 1) h
      refine ⟨by omega, ?_⟩
      have : i - i0 = (i - (i0 + 1)) + 1 := by omega
      rw [this, List.getElem?_cons_succ]
      exact hget

theorem crtc_position_of_mem (cs : List Nat) (i0 c : Nat) (h : c ∈ cs) :
    ∃ i, crtc_position cs i0 c = some i := by
  induction cs generalizing i0 with
  | nil => simp at h
  | cons x xs ih =>
    unfold crtc_position
    by_cases hx : x = c
    · exact ⟨i0, by rw [if_pos hx]⟩
    · rw [if_neg hx]
      rcases List.mem_cons.mp h with rfl | hm
      · exact absurd rfl hx
      · exact ih (i0 + 1) hm

/-- When the CRTC of every encoder is one of the device's CRTC list, a
successful `modeset_find_crtc` records the position of the chosen CRTC in
that list. -/
theorem modeset_find_crtc_index (dev : Device) (res : drmModeRes) (conn : drmModeConnector)
    (l : List modeset_output) (out : modeset_output)
    (henc : ∀ e enc, dev.getEncoder e = some enc → enc.crtc_id ≠ 0 → enc.crtc_id ∈ res.crtcs)
    (h : (modeset_find_crtc dev res conn l out).1 = 0) :
    res.crtcs[(modeset_find_crtc dev res conn l out).2.crtc_index]? =
      some (modeset_find_crtc dev res conn l out).2.crtc.id := by
  unfold modeset_find_crtc at h ⊢
  cases hcur : find_crtc_current dev conn l with
  | some crtc =>
    obtain ⟨a, _, enc, he, hid⟩ := find_crtc_current_spec dev conn l crtc hcur
    have hmem : crtc ∈ res.crtcs := by
      rw [← hid]
      exact henc conn.encoder_id enc he (by omega)
    obtain ⟨i, hi⟩ := crtc_position_of_mem res.crtcs 0 crtc hmem
    dsimp only
    rw [hi]
    simpa using (crtc_position_spec res.crtcs 0 crtc i hi).2
  | none =>
    rw [hcur] at h
    cases hs : find_crtc_scan_encoders dev l res.crtcs conn.encoders with
    | none => rw [hs] at h; simp [ENOENT] at h
    | some r =>
      obtain ⟨crtc, j⟩ := r
      exact (find_crtc_scan_encoders_spec dev l res.crtcs conn.encoders crtc j hs).2.2

theorem find_plane_loop_spec (dev : Device) (idx : Nat) (ps : List Nat) (p : Nat)
    (h : find_plane_loop dev idx ps = some p) :
    p ∈ ps ∧ ∃ plane, dev.getPlane p = some plane ∧ bit_set plane.possible_crtcs idx = true ∧
      get_property_value (dev.objectGetProperties p) "type" = DRM_PLANE_TYPE_PRIMARY := by
  induction ps with
  | nil => simp [find_plane_loop] at h
  | cons q qs ih =>
    unfold find_plane_loop at h
    have step : find_plane_loop dev idx qs = some p → p ∈ q :: qs ∧ ∃ plane,
        dev.getPlane p = some plane ∧ bit_set plane.possible_crtcs idx = true ∧
        get_property_value (dev.objectGetProperties p) "type" = DRM_PLANE_TYPE_PRIMARY := by
      intro h'
      obtain ⟨hm, hx⟩ := ih h'
      exact ⟨List.mem_cons_of_mem _ hm, hx⟩
    cases hq : dev.getPlane q with
    | none => rw [hq] at h; exact step h
    | some plane =>
      rw [hq] at h
      dsimp only at h
      by_cases hb : bit_set plane.possible_crtcs idx = true
      · rw [if_pos hb] at h
        by_cases ht : get_property_value (dev.objectGetProperties q) "type" = DRM_PLANE_TYPE_PRIMARY
        · rw [if_pos ht] at h
          simp only [Option.some.injEq] at h
          subst h
          exact ⟨List.mem_cons_self _ _, plane, hq, hb, ht⟩
        · rw [if_neg ht] at h; exact step h
      · rw [if_neg hb] at h; exact step h

/-- A successful `modeset_find_plane` records a primary plane that can drive
the CRTC at the output's `crtc_index`. -/
theorem modeset_find_plane_ok (dev : Device) (out : modeset_output)
    (h : (modeset_find_plane dev out).1 = 0) :
    ∃ plane, dev.getPlane (modeset_find_plane dev out).2.plane.id = some plane ∧
      bit_set plane.possible_crtcs out.crtc_index = true ∧
      get_property_value (dev.objectGetProperties (modeset_find_plane dev out).2.plane.id) "type"
        = DRM_PLANE_TYPE_PRIMARY := by
  unfold modeset_find_plane at h ⊢
  cases hr : dev.getPlaneResources with
  | none => rw [hr] at h; simp [ENOENT] at h
  | some planes =>
    rw [hr] at h
    dsimp only at h ⊢
    cases hf : find_plane_loop dev out.crtc_index planes with
    | none => rw [hf] at h; simp [EINVAL] at h
    | some p => exact (find_plane_loop_spec dev out.crtc_index planes p hf).2

/-- C1: after `modeset_prepare` (started, as in `main`, with the empty
`output_list`) no two outputs of `output_list` have the same `crtc.id`, for
every device. -/
theorem modeset_prepare_crtc_distinct (dev : Device) :
    (modeset_prepare dev []).2.1.Pairwise (fun a b => a.crtc.id ≠ b.crtc.id) := by
  unfold modeset_prepare
  cases dev.getResources with
  | none => exact List.Pairwise.nil
  | some res =>
    have key := (modeset_prepare_loop_invariant dev res (fun a b => a.crtc.id ≠ b.crtc.id)
      (fun _ => True)
      (fun i conn l out h o ho => (modeset_output_create_crtc_fresh dev i res conn l out h o ho).symm)
      (fun _ _ _ _ _ => trivial)
      res.connectors 0 [] List.Pairwise.nil (fun _ h => absurd h (List.not_mem_nil _))).1
    dsimp only
    split_ifs <;> exact key

/-- The 32-bit mask test of the C code reads bit `j` of the mask, for the
32 positions a mask has. -/
theorem bit_set_iff (mask j : Nat) :
    bit_set mask j = true ↔ j < 32 ∧ mask.testBit j = true := by
  unfold bit_set
  rw [Nat.one_shiftLeft]
  by_cases hj : j < 32
  · have h1 : 2 ^ j < 2 ^ 32 := Nat.pow_lt_pow_right (by norm_num) hj
    rw [Nat.mod_eq_of_lt h1, Nat.and_two_pow]
    cases hb : mask.testBit j
    · simp
    · simp only [Bool.toNat_true, one_mul, Nat.mod_eq_of_lt h1, hj, and_self, iff_true]
      have : 2 ^ j ≠ 0 := by positivity
      simp
  · have h1 : 2 ^ j % 2 ^ 32 = 0 :=
      Nat.mod_eq_zero_of_dvd (pow_dvd_pow 2 (by omega))
    rw [h1]
    simp [hj]

/-- A mask with the single bit `k` passes the test for position `k` only. -/
theorem bit_set_two_pow (k j : Nat) (h : bit_set (2 ^ k) j = true) : j = k := by
  rw [bit_set_iff, Nat.testBit_two_pow] at h
  exact (of_decide_eq_true h.2).symm

/-- C2 (as stated, refuted): on a device whose single primary plane 50 can
drive both CRTCs, `modeset_prepare` creates two outputs (CRTCs 101 and 100)
that both carry `plane.id = 50`. -/
theorem modeset_prepare_plane_shared :
    (modeset_prepare (demo_device [(50, 3)]) []).2.1.map
        (fun o => (o.connector.id, o.crtc.id, o.plane.id)) = [(2, 101, 50), (1, 100, 50)] ∧
    ¬ (modeset_prepare (demo_device [(50, 3)]) []).2.1.Pairwise
        (fun a b => a.plane.id ≠ b.plane.id) := by
  decide

/-- C2 (amended): on every device on which each primary plane passes the
`possible_crtcs` test for at most one CRTC position, and the CRTC of every
encoder is listed in the device's CRTC list, after `modeset_prepare` no two
outputs of `output_list` have the same `plane.id`. -/
theorem modeset_prepare_plane_distinct (dev : Device)
    (hplane : ∀ p plane, dev.getPlane p = some plane →
      get_property_value (dev.objectGetProperties p) "type" = DRM_PLANE_TYPE_PRIMARY →
      ∀ i j, bit_set plane.possible_crtcs i = true → bit_set plane.possible_crtcs j = true →
        i = j)
    (henc : ∀ res, dev.getResources = some res → ∀ e enc, dev.getEncoder e = some enc →
      enc.crtc_id ≠ 0 → enc.crtc_id ∈ res.crtcs) :
    (modeset_prepare dev []).2.1.Pairwise (fun a b => a.plane.id ≠ b.plane.id) := by
  unfold modeset_prepare
  cases hres : dev.getResources with
  | none => exact List.Pairwise.nil
  | some res =>
    have key := modeset_prepare_loop_invariant dev res (fun a b => a.crtc.id ≠ b.crtc.id)
      (fun o => res.crtcs[o.crtc_index]? = some o.crtc.id ∧
        ∃ plane, dev.getPlane o.plane.id = some plane ∧
          bit_set plane.possible_crtcs o.crtc_index = true ∧
          get_property_value (dev.objectGetProperties o.plane.id) "type"
            = DRM_PLANE_TYPE_PRIMARY)
      (fun i conn l out h o ho => (modeset_output_create_crtc_fresh dev i res conn l out h o ho).symm)
      (fun i conn l out h => by
        obtain ⟨h1, h2, h3, h4, h5⟩ := modeset_output_create_some dev i res conn l out h
        refine ⟨?_, ?_⟩
        · rw [h3, h4]
          exact modeset_find_crtc_index dev res conn l _ (henc res hres) h1
        · rw [h5, h4]
          exact modeset_find_plane_ok dev _ h2)
      res.connectors 0 [] List.Pairwise.nil (fun _ h => absurd h (List.not_mem_nil _))
    have fin : (modeset_prepare_loop dev res res.connectors 0 []).1.Pairwise
        (fun a b => a.plane.id ≠ b.plane.id) := by
      refine List.Pairwise.imp_of_mem ?_ key.1
      intro a b ha hb hab hpl
      obtain ⟨ia, pa, hga, hba, hta⟩ := key.2 a ha
      obtain ⟨ib, pb, hgb, hbb, _⟩ := key.2 b hb
      rw [hpl, hgb] at hga
      simp only [Option.some.injEq] at hga
      subst hga
      have hidx : a.crtc_index = b.crtc_index := hplane a.plane.id pb (by rw [hpl]; exact hgb) hta _ _ hba hbb
      rw [hidx, ib] at ia
      exact hab (by simpa using ia.symm)
    dsimp only
    split_ifs <;> exact fin

/-- C2 (amended), exercised: with one primary plane per CRTC (plane 50 for
position 0, plane 51 for position 1) the two outputs get planes 51 and 50. -/
theorem modeset_prepare_plane_distinct_witness :
    (modeset_prepare (demo_device [(50, 1), (51, 2)]) []).2.1.map
        (fun o => (o.crtc.id, o.plane.id)) = [(101, 51), (100, 50)] ∧
    (modeset_prepare (demo_device [(50, 1), (51, 2)]) []).2.1.Pairwise
        (fun a b => a.plane.id ≠ b.plane.id) :=
  ⟨by decide,
   modeset_prepare_plane_distinct (demo_device [(50, 1), (51, 2)])
    (by
      intro p plane hp _ i j hi hj
      have hm : plane.possible_crtcs = 2 ^ 0 ∨ plane.possible_crtcs = 2 ^ 1 := by
        simp only [demo_device, demo_device_with, List.lookup] at hp
        by_cases h50 : p = 50
        · subst h50; simp at hp; subst hp; left; rfl
        · by_cases h51 : p = 51
          · subst h51; simp at hp; subst hp; right; rfl
          · exfalso
            have e1 : (p == 50) = false := by simpa using h50
            have e2 : (p == 51) = false := by simpa using h51
            simp [e1, e2] at hp
      rcases hm with hm | hm <;> rw [hm] at hi hj
      · rw [bit_set_two_pow 0 i hi, bit_set_two_pow 0 j hj]
      · rw [bit_set_two_pow 1 i hi, bit_set_two_pow 1 j hj])
    (by
      intro res hres e enc he _
      simp only [demo_device, demo_device_with, Option.some.injEq] at hres
      subst hres
      simp only [demo_device, demo_device_with] at he
      split_ifs at he
      · simp only [Option.some.injEq] at he; subst he; simp
      · simp only [Option.some.injEq] at he; subst he; simp)⟩

/-! ## Frame submission -/

theorem set_drm_object_property_neg (req : drmModeAtomicReq) (obj : drm_object) (name : String)
    (v : Nat) : (set_drm_object_property req obj name v).1 < 0 ↔ resolves obj name = false := by
  unfold set_drm_object_property resolves drmModeAtomicAddProperty
  by_cases h : find_prop_id (obj.props_info.getD []) name = 0
  · simp [h, EINVAL]
  · simp only [h, if_false]
    constructor
    · intro hlt
      exfalso
      have : (0 : Int) ≤ ((req.length + 1 : Nat) : Int) := Int.natCast_nonneg _
      omega
    · intro hb
      simp [h] at hb

/-- The body of `modeset_atomic_prepare_commit` is the sequence of its
thirteen settings. -/
theorem modeset_atomic_prepare_commit_eq (out : modeset_output) (req : drmModeAtomicReq) :
    modeset_atomic_prepare_commit out req = set_properties req (commit_settings out) := by
  rfl

theorem set_properties_ret (req : drmModeAtomicReq) (l : List (drm_object × String × Nat)) :
    (set_properties req l).1 = if l.all (fun s => resolves s.1 s.2.1) = true then 0 else -1 := by
  induction l generalizing req with
  | nil => simp [set_properties]
  | cons s rest ih =>
    unfold set_properties
    dsimp only
    by_cases h : resolves s.1 s.2.1 = true
    · have hn : ¬ (set_drm_object_property req s.1 s.2.1 s.2.2).1 < 0 := by
        rw [set_drm_object_property_neg]; simp [h]
      rw [if_neg hn, ih]
      simp only [List.all_cons, h, Bool.true_and]
    · have hn : (set_drm_object_property req s.1 s.2.1 s.2.2).1 < 0 := by
        rw [set_drm_object_property_neg]; simpa using h
      rw [if_pos hn]
      simp [h]

/-- The result code of `modeset_atomic_prepare_commit` is `0` when all
thirteen names resolve and `-1` otherwise. -/
theorem modeset_atomic_prepare_commit_ret (out : modeset_output) (req : drmModeAtomicReq) :
    (modeset_atomic_prepare_commit out req).1 = if all_resolve out = true then 0 else -1 := by
  rw [modeset_atomic_prepare_commit_eq, set_properties_ret]
  have : (commit_settings out).all (fun s => resolves s.1 s.2.1) = all_resolve out := by
    simp [commit_settings, all_resolve, Bool.and_assoc]
  rw [this]

/-- Painting changes the colour state and the back buffer only. -/
theorem modeset_paint_framebuffer_keeps (rnd : Nat → Nat) (n : Nat) (out : modeset_output) :
    (modeset_paint_framebuffer rnd n out).1.front_buf = out.front_buf ∧
    (modeset_paint_framebuffer rnd n out).1.pflip_pending = out.pflip_pending ∧
    (modeset_paint_framebuffer rnd n out).1.cleanup = out.cleanup ∧
    (modeset_paint_framebuffer rnd n out).1.connector = out.connector ∧
    (modeset_paint_framebuffer rnd n out).1.crtc = out.crtc ∧
    (modeset_paint_framebuffer rnd n out).1.plane = out.plane := by
  unfold modeset_paint_framebuffer modeset_output.setBuf
  dsimp only
  split_ifs <;> exact ⟨rfl, rfl, rfl, rfl, rfl, rfl⟩

theorem all_resolve_paint (rnd : Nat → Nat) (n : Nat) (out : modeset_output) :
    all_resolve (modeset_paint_framebuffer rnd n out).1 = all_resolve out := by
  obtain ⟨_, _, _, h1, h2, h3⟩ := modeset_paint_framebuffer_keeps rnd n out
  unfold all_resolve
  rw [h1, h2, h3]

theorem xor_one_ne (n : Nat) : n ^^^ 1 ≠ n := by
  intro h
  have h1 : n ^^^ (n ^^^ 1) = 1 := Nat.xor_cancel_left n 1
  rw [h, Nat.xor_self] at h1
  exact absurd h1 (by decide)

/-- C5: `modeset_draw_out` toggles `front_buf` (which changes it) and sets
`pflip_pending` exactly when all property names resolve and the device
accepts the commit; in every other case both fields keep their values. -/
theorem modeset_draw_out_flip_iff (rnd : Nat → Nat) (n : Nat) (commit_ret : Int)
    (out : modeset_output) :
    (modeset_draw_out rnd n commit_ret out).1.front_buf =
      (if all_resolve out = true ∧ 0 ≤ commit_ret then out.front_buf ^^^ 1 else out.front_buf) ∧
    (modeset_draw_out rnd n commit_ret out).1.pflip_pending =
      (if all_resolve out = true ∧ 0 ≤ commit_ret then true else out.pflip_pending) ∧
    out.front_buf ^^^ 1 ≠ out.front_buf := by
  obtain ⟨hf, hp, _⟩ := modeset_paint_framebuffer_keeps rnd n out
  have hr := all_resolve_paint rnd n out
  unfold modeset_draw_out
  dsimp only
  rw [modeset_atomic_prepare_commit_ret, hr]
  refine ⟨?_, ?_, xor_one_ne _⟩
  · by_cases ha : all_resolve out = true
    · by_cases hc : 0 ≤ commit_ret
      · have hc' : ¬ commit_ret < 0 := by omega
        simp [ha, hc, hc', hf]
      · have hc' : commit_ret < 0 := by omega
        simp [ha, hc, hc', hf]
    · simp [ha, hf]
  · by_cases ha : all_resolve out = true
    · by_cases hc : 0 ≤ commit_ret
      · have hc' : ¬ commit_ret < 0 := by omega
        simp [ha, hc, hc']
      · have hc' : commit_ret < 0 := by omega
        simp [ha, hc, hc', hp]
    · simp [ha, hp]

/-! ## The calls made during discovery -/

theorem modeset_create_fb_calls (ans : CreateFbAnswer) (buf : modeset_buf) :
    ∀ c ∈ (modeset_create_fb ans buf).2.2, c.is_resource = true := by
  unfold modeset_create_fb
  dsimp only
  split_ifs <;> simp [DrmCall.is_resource]

theorem modeset_destroy_fb_calls (buf : modeset_buf) :
    ∀ c ∈ modeset_destroy_fb buf, c.is_resource = true := by
  simp [modeset_destroy_fb, DrmCall.is_resource]

theorem modeset_setup_framebuffers_calls (a0 a1 : CreateFbAnswer) (conn : drmModeConnector)
    (out : modeset_output) :
    ∀ c ∈ (modeset_setup_framebuffers a0 a1 conn out).2.2, c.is_resource = true := by
  unfold modeset_setup_framebuffers
  dsimp only
  intro c hc
  split_ifs at hc
  · exact modeset_create_fb_calls _ _ c hc
  · simp only [List.mem_append] at hc
    rcases hc with (hc | hc) | hc
    · exact modeset_create_fb_calls _ _ c hc
    · exact modeset_create_fb_calls _ _ c hc
    · exact modeset_destroy_fb_calls _ c hc
  · simp only [List.mem_append] at hc
    rcases hc with hc | hc
    · exact modeset_create_fb_calls _ _ c hc
    · exact modeset_create_fb_calls _ _ c hc

theorem modeset_output_create_calls (dev : Device) (i : Nat) (res : drmModeRes)
    (conn : drmModeConnector) (l : List modeset_output) :
    ∀ c ∈ (modeset_output_create dev i res conn l).2, c.is_resource = true := by
  unfold modeset_output_create
  dsimp only
  intro c hc
  split_ifs at hc
  all_goals try simp only [List.mem_append, List.mem_cons, List.mem_singleton, List.not_mem_nil,
    or_false, false_or] at hc
  all_goals first
    | (rcases hc with rfl | rfl <;> rfl)
    | (rcases hc with (rfl | hc) | rfl <;>
        first | rfl | exact modeset_setup_framebuffers_calls _ _ _ _ c hc)
    | (rcases hc with rfl | hc <;>
        first | rfl | exact modeset_setup_framebuffers_calls _ _ _ _ c hc)

theorem modeset_prepare_loop_calls (dev : Device) (res : drmModeRes) (cs : List Nat) (i : Nat)
    (l : List modeset_output) :
    ∀ c ∈ (modeset_prepare_loop dev res cs i l).2, c.is_resource = true := by
  induction cs generalizing i l with
  | nil => simp [modeset_prepare_loop]
  | cons x xs ih =>
    unfold modeset_prepare_loop
    cases hx : dev.getConnector x with
    | none => exact ih (i + 1) l
    | some conn =>
      dsimp only
      have hcalls := modeset_output_create_calls dev i res conn l
      cases hout : modeset_output_create dev i res conn l with
      | mk o tr =>
        rw [hout] at hcalls
        cases o with
        | none =>
          intro c hc
          rcases List.mem_append.mp hc with h | h
          · exact hcalls c h
          · exact ih (i + 1) l c h
        | some out =>
          intro c hc
          rcases List.mem_append.mp hc with h | h
          · exact hcalls c h
          · exact ih (i + 1) (out :: l) c h

/-- Discovery makes resource calls only: no commit is submitted and no
output is drawn or destroyed. -/
theorem modeset_prepare_calls (dev : Device) (l : List modeset_output) :
    ∀ c ∈ (modeset_prepare dev l).2.2, c.is_resource = true := by
  unfold modeset_prepare
  cases dev.getResources with
  | none => simp
  | some res =>
    dsimp only
    split_ifs <;> exact modeset_prepare_loop_calls dev res res.connectors 0 l

/-! ## The calls made at run time -/

theorem modeset_draw_out_calls {F : Prop} {Q : DrmCall → Prop} (hQ : CallInvariant F Q)
    (rnd : Nat → Nat) (n : Nat) (commit_ret : Int) (out : modeset_output)
    (hout : out.pflip_pending = false) :
    ∀ c ∈ (modeset_draw_out rnd n commit_ret out).2.2, Q c := by
  unfold modeset_draw_out
  dsimp only
  intro c hc
  split_ifs at hc
  all_goals simp only [List.mem_cons, List.mem_singleton, List.not_mem_nil, or_false] at hc
  · subst hc; exact hQ.draw out hout
  · rcases hc with rfl | rfl
    · exact hQ.draw out hout
    · exact hQ.commit_frame _ _
  · rcases hc with rfl | rfl
    · exact hQ.draw out hout
    · exact hQ.commit_frame _ _

theorem page_flip_event_loop_calls {F : Prop} {Q : DrmCall → Prop} (hQ : CallInvariant F Q)
    (rnd : Nat → Nat) (commit_ret : Int) (crtc_id : Nat) (l : List modeset_output) (n : Nat) :
    ∀ c ∈ (page_flip_event_loop rnd commit_ret crtc_id l n).2.2, Q c := by
  induction l with
  | nil => simp [page_flip_event_loop]
  | cons iter rest ih =>
    unfold page_flip_event_loop
    dsimp only
    intro c hc
    split_ifs at hc
    · exact modeset_draw_out_calls hQ rnd n commit_ret _ rfl c hc
    · simp at hc
    · exact ih c hc

theorem modeset_page_flip_event_calls {F : Prop} {Q : DrmCall → Prop} (hQ : CallInvariant F Q)
    (rnd : Nat → Nat) (commit_ret : Int) (crtc_id : Nat) (w : World)
    (hw : ∀ c ∈ w.calls, Q c) :
    ∀ c ∈ (modeset_page_flip_event rnd commit_ret crtc_id w).calls, Q c := by
  unfold modeset_page_flip_event
  dsimp only
  intro c hc
  simp only [List.mem_append, List.mem_singleton] at hc
  rcases hc with (hc | rfl) | hc
  · exact hw c hc
  · exact hQ.event _
  · exact page_flip_event_loop_calls hQ rnd commit_ret crtc_id _ _ c hc

theorem drmHandleEvent_calls {F : Prop} {Q : DrmCall → Prop} (hQ : CallInvariant F Q)
    (rnd : Nat → Nat) (evs : List (Nat × Int)) (w : World) (hw : ∀ c ∈ w.calls, Q c) :
    ∀ c ∈ (drmHandleEvent rnd evs w).calls, Q c := by
  induction evs generalizing w with
  | nil => simpa [drmHandleEvent] using hw
  | cons ev evs ih =>
    unfold drmHandleEvent
    exact ih _ (modeset_page_flip_event_calls hQ rnd ev.2 ev.1 w hw)

theorem modeset_perform_modeset_calls {F : Prop} {Q : DrmCall → Prop} (hQ : CallInvariant F Q)
    (rnd : Nat → Nat) (ret0 test_ret apply_ret : Int) (w : World) (hw : ∀ c ∈ w.calls, Q c) :
    ∀ c ∈ (modeset_perform_modeset rnd ret0 test_ret apply_ret w).2.calls, Q c := by
  unfold modeset_perform_modeset
  dsimp only
  intro c hc
  split_ifs at hc
  · exact hw c hc
  · simp only [List.mem_append, List.mem_singleton] at hc
    rcases hc with hc | rfl
    · exact hw c hc
    · exact hQ.commit_test _ _
  · simp only [List.mem_append, List.mem_singleton] at hc
    rcases hc with (hc | rfl) | rfl
    · exact hw c hc
    · exact hQ.commit_test _ _
    · exact hQ.commit_apply _ _

theorem modeset_draw_loop_calls {F : Prop} {Q : DrmCall → Prop} (hQ : CallInvariant F Q)
    (rnd : Nat → Nat) (loop : List SelectResult) (w : World) (hw : ∀ c ∈ w.calls, Q c) :
    ∀ c ∈ (modeset_draw_loop rnd loop w).calls, Q c := by
  induction loop generalizing w with
  | nil => simpa [modeset_draw_loop] using hw
  | cons s rest ih =>
    unfold modeset_draw_loop
    split_ifs
    · exact hw
    · exact hw
    · cases hs : s.events with
      | none => exact ih w hw
      | some evs => exact ih _ (drmHandleEvent_calls hQ rnd evs w hw)
    · exact ih w hw

theorem modeset_draw_calls {F : Prop} {Q : DrmCall → Prop} (hQ : CallInvariant F Q)
    (rnd : Nat → Nat) (ret0 test_ret apply_ret : Int) (loop : List SelectResult) (w : World)
    (hw : ∀ c ∈ w.calls, Q c) :
    ∀ c ∈ (modeset_draw rnd ret0 test_ret apply_ret loop w).calls, Q c :=
  modeset_draw_loop_calls hQ rnd loop _
    (modeset_perform_modeset_calls hQ rnd ret0 test_ret apply_ret w hw)

/-- The wait loop of `modeset_cleanup` ends with the head output still
pending only after a failed `drmHandleEvent`; what it leaves of the script is
a part of the script. -/
theorem modeset_cleanup_wait_spec {F : Prop} {Q : DrmCall → Prop} (hQ : CallInvariant F Q)
    (rnd : Nat → Nat) (script : List (Option (List (Nat × Int)))) (w : World)
    (hw : ∀ c ∈ w.calls, Q c) :
    (∀ c ∈ (modeset_cleanup_wait rnd script w).world.calls, Q c) ∧
    (∀ r ∈ (modeset_cleanup_wait rnd script w).script, r ∈ script) ∧
    ((modeset_cleanup_wait rnd script w).returned = true →
      head_pending (modeset_cleanup_wait rnd script w).world = true → none ∈ script) := by
  induction script generalizing w with
  | nil =>
    unfold modeset_cleanup_wait
    refine ⟨hw, fun r hr => hr, ?_⟩
    intro h1 h2
    simp only [Bool.not_eq_true'] at h1
    rw [h1] at h2
    exact absurd h2 (by decide)
  | cons r rest ih =>
    unfold modeset_cleanup_wait
    by_cases hp : head_pending w = true
    · simp only [hp, Bool.not_true, Bool.false_eq_true, if_false]
      cases r with
      | none => exact ⟨hw, fun r hr => List.mem_cons_of_mem _ hr, fun _ _ => List.mem_cons_self _ _⟩
      | some evs =>
        obtain ⟨a, b, c⟩ := ih _ (drmHandleEvent_calls hQ rnd evs w hw)
        exact ⟨a, fun r hr => List.mem_cons_of_mem _ (b r hr),
          fun h1 h2 => List.mem_cons_of_mem _ (c h1 h2)⟩
    · have hp' : head_pending w = false := by simpa using hp
      simp only [hp', Bool.not_false, if_true]
      exact ⟨hw, fun r hr => hr, fun _ h2 => absurd h2 (by simp [hp'])⟩

theorem modeset_output_destroy_calls {F : Prop} {Q : DrmCall → Prop} (hQ : CallInvariant F Q)
    (out : modeset_output) (hout : out.pflip_pending = true → F) :
    ∀ c ∈ modeset_output_destroy out, Q c := by
  unfold modeset_output_destroy
  intro c hc
  simp only [List.mem_append, List.mem_singleton] at hc
  rcases hc with ((rfl | hc) | hc) | rfl
  · exact hQ.destroy out hout
  · exact hQ.resource c (modeset_destroy_fb_calls _ c hc)
  · exact hQ.resource c (modeset_destroy_fb_calls _ c hc)
  · exact hQ.resource _ rfl

theorem modeset_cleanup_loop_calls {F : Prop} {Q : DrmCall → Prop} (hQ : CallInvariant F Q)
    (rnd : Nat → Nat) (fuel : Nat) (script : List (Option (List (Nat × Int)))) (w : World)
    (hF : none ∈ script → F) (hw : ∀ c ∈ w.calls, Q c) :
    ∀ c ∈ (modeset_cleanup_loop rnd fuel script w).1.calls, Q c := by
  induction fuel generalizing script w with
  | zero => simpa [modeset_cleanup_loop] using hw
  | succ fuel ih =>
    unfold modeset_cleanup_loop
    cases hl : w.output_list with
    | nil => exact hw
    | cons iter rest =>
      dsimp only
      obtain ⟨a, b, d⟩ := modeset_cleanup_wait_spec hQ rnd script
        { w with output_list := { iter with cleanup := true } :: rest } hw
      split_ifs with hret
      · exact a
      · have hret' : (modeset_cleanup_wait rnd script
            { w with output_list := { iter with cleanup := true } :: rest }).returned = true := by
          simpa using hret
        cases hl2 : (modeset_cleanup_wait rnd script
            { w with output_list := { iter with cleanup := true } :: rest }).world.output_list with
        | nil => exact a
        | cons iter2 rest2 =>
          dsimp only
          apply ih
          · intro hn
            exact hF (b _ hn)
          · intro c hc
            rcases List.mem_append.mp hc with hc | hc
            · exact a c hc
            · refine modeset_output_destroy_calls hQ iter2 ?_ c hc
              intro hpend
              apply hF
              apply d hret'
              unfold head_pending
              rw [hl2]
              exact hpend

/-- Every call of a run of `main` satisfies a property `Q` that holds for the
calls listed in `CallInvariant`, with `F` a failed event dispatch during
shutdown. -/
theorem main_calls {Q : DrmCall → Prop} (env : Environment)
    (hQ : CallInvariant (none ∈ env.cleanup) Q) :
    ∀ c ∈ (main env).2.calls, Q c := by
  unfold main
  dsimp only
  have hprep : ∀ c ∈ (modeset_prepare env.dev []).2.2, Q c :=
    fun c hc => hQ.resource c (modeset_prepare_calls env.dev [] c hc)
  split_ifs
  · simp
  · exact hprep
  · exact modeset_cleanup_loop_calls hQ env.rnd _ env.cleanup _ id
      (modeset_draw_calls hQ env.rnd env.ret0 env.test_ret env.apply_ret env.loop _ hprep)
  · exact modeset_cleanup_loop_calls hQ env.rnd _ env.cleanup _ id
      (modeset_draw_calls hQ env.rnd env.ret0 env.test_ret env.apply_ret env.loop _ hprep)

/-! ## Claims about the run-time protocol -/

/-- C3 (the code at the failing input): after `modeset_perform_modeset` with
both startup commits accepted, the head output (CRTC 101) has one accepted
commit with a completion-event request that is not acknowledged, while its
`pflip_pending` flag is `false`; the other output has none.  When user input
ends the event loop before that event is dispatched, `modeset_cleanup` does
not wait: both outputs are destroyed and `main` returns with the event of
CRTC 101 still outstanding. -/
theorem perform_modeset_outstanding_without_pending :
    (modeset_perform_modeset (fun n => 7 * n + 3) 0 0 0 demo_world).1 = 0 ∧
    (modeset_perform_modeset (fun n => 7 * n + 3) 0 0 0 demo_world).2.output_list.map
      (fun o => (o.crtc.id, o.pflip_pending,
        outstanding (modeset_perform_modeset (fun n => 7 * n + 3) 0 0 0 demo_world).2.calls
          o.crtc.id))
      = [(101, false, 1), (100, false, 0)] ∧
    (main demo_run_user_input).1 = some 0 ∧
    (destroyed_outputs (main demo_run_user_input).2.calls).map
      (fun o => (o.crtc.id, o.pflip_pending)) = [(101, false), (100, false)] ∧
    outstanding (main demo_run_user_input).2.calls 101 = 1 := by
  decide

/-- C4 (as stated, refuted): in the run in which `drmHandleEvent` fails
during shutdown, `modeset_cleanup` calls `modeset_output_destroy` on the
output of CRTC 101 while its `pflip_pending` flag is `true` (and `main`
returns). -/
theorem cleanup_destroys_pending_output :
    (main demo_run_dispatch_fails).1 = some 0 ∧
    (destroyed_outputs (main demo_run_dispatch_fails).2.calls).map
      (fun o => (o.crtc.id, o.pflip_pending)) = [(101, true), (100, false)] := by
  decide

/-- C4 (amended): in every run in which no `drmHandleEvent` call of
`modeset_cleanup` fails, every output `modeset_output_destroy` is called on
has `pflip_pending = false` at that call. -/
theorem cleanup_destroy_not_pending (env : Environment) (hok : none ∉ env.cleanup)
    (o : modeset_output) (h : DrmCall.output_destroy o ∈ (main env).2.calls) :
    o.pflip_pending = false := by
  have key := main_calls (Q := fun c => ∀ o, c = DrmCall.output_destroy o → o.pflip_pending = false)
    env
    { resource := by intro c hc o ho; subst ho; simp [DrmCall.is_resource] at hc
      event := by intro _ o ho; cases ho
      draw := by intro _ _ o ho; cases ho
      commit_frame := by intro _ _ o ho; cases ho
      commit_test := by intro _ _ o ho; cases ho
      commit_apply := by intro _ _ o ho; cases ho
      destroy := by
        intro o1 h1 o2 ho
        cases ho
        cases hp : o1.pflip_pending with
        | false => rfl
        | true => exact absurd (h1 hp) hok }
  exact key _ h o rfl

/-- C4 (amended), exercised: in the clean example run the event dispatched
during shutdown succeeds and the first output destroyed (CRTC 101) has
`pflip_pending = false`. -/
theorem cleanup_destroy_not_pending_witness :
    demo_destroyed.crtc.id = 101 ∧ demo_destroyed.pflip_pending = false :=
  ⟨by decide,
   cleanup_destroy_not_pending demo_run_clean (by decide) demo_destroyed (by decide)⟩

/-- C6 (the code at the failing input): the accepted startup commit of
`modeset_perform_modeset` binds the head output's plane 51 to framebuffer 403,
which is `bufs[1]`, but `front_buf` stays `0`: afterwards `bufs[front_buf]`
is framebuffer 402, and the buffer the next `modeset_paint_framebuffer`
writes to, `bufs[front_buf ^ 1]`, is the committed framebuffer 403.  The
first per-frame commit then binds framebuffer 403 again. -/
theorem perform_modeset_keeps_front_buf :
    (modeset_perform_modeset (fun n => 7 * n + 3) 0 0 0 demo_world).1 = 0 ∧
    (commit_requests (modeset_perform_modeset (fun n => 7 * n + 3) 0 0 0 demo_world).2.calls).map
      (fun req => req.filter (fun it => it.property_id == 17))
      = [[⟨51, 17, 403⟩, ⟨51, 17, 403⟩], [⟨51, 17, 403⟩, ⟨51, 17, 403⟩]] ∧
    (modeset_perform_modeset (fun n => 7 * n + 3) 0 0 0 demo_world).2.output_list.map
      (fun o => (o.crtc.id, o.front_buf, (o.bufs o.front_buf).fb, (o.bufs (o.front_buf ^^^ 1)).fb))
      = [(101, 0, 402, 403), (100, 0, 400, 401)] ∧
    (commit_requests (main demo_run_clean).2.calls).map
      (fun req => req.filter (fun it => it.property_id == 17))
      = [[⟨51, 17, 403⟩, ⟨51, 17, 403⟩], [⟨51, 17, 403⟩, ⟨51, 17, 403⟩], [⟨51, 17, 403⟩]] := by
  decide

/-- C7: in every run, every invocation of `modeset_draw_out` finds the
`pflip_pending` flag of its output `false`, and the flag is still `false`
after painting, when the per-frame commit is submitted. -/
theorem draw_out_only_when_not_pending (env : Environment) (o : modeset_output)
    (h : DrmCall.draw_out o ∈ (main env).2.calls) :
    o.pflip_pending = false ∧
    ∀ n, (modeset_paint_framebuffer env.rnd n o).1.pflip_pending = false := by
  have key := main_calls (Q := fun c => ∀ o, c = DrmCall.draw_out o → o.pflip_pending = false)
    env
    { resource := by intro c hc o ho; subst ho; simp [DrmCall.is_resource] at hc
      event := by intro _ o ho; cases ho
      draw := by intro o1 h1 o2 ho; cases ho; exact h1
      commit_frame := by intro _ _ o ho; cases ho
      commit_test := by intro _ _ o ho; cases ho
      commit_apply := by intro _ _ o ho; cases ho
      destroy := by intro _ _ o ho; cases ho }
  have hp := key _ h o rfl
  exact ⟨hp, fun n => by rw [(modeset_paint_framebuffer_keeps env.rnd n o).2.1, hp]⟩

/-- C7, exercised: in the clean example run `modeset_draw_out` is called on
the output of CRTC 101. -/
theorem draw_out_only_when_not_pending_witness :
    demo_drawn.crtc.id = 101 ∧ demo_drawn.pflip_pending = false :=
  ⟨by decide, (draw_out_only_when_not_pending demo_run_clean demo_drawn (by decide)).1⟩

/-- C8 (as stated, refuted): the commits of the clean example run carry the
flag words `0x500` (validate-only), `0x401` (first mode-setting commit) and
`0x201` (per-frame commit); the first mode-setting commit is not
validate-only and lacks the non-blocking flag. -/
theorem startup_commit_is_blocking :
    commit_flags (main demo_run_clean).2.calls = [0x500, 0x401, 0x201] ∧
    0x401 &&& DRM_MODE_ATOMIC_TEST_ONLY = 0 ∧
    0x401 &&& DRM_MODE_ATOMIC_NONBLOCK = 0 ∧
    ¬ ∀ flags ∈ commit_flags (main demo_run_clean).2.calls,
        flags &&& DRM_MODE_ATOMIC_TEST_ONLY = 0 →
        flags &&& DRM_MODE_ATOMIC_NONBLOCK ≠ 0 ∧ flags &&& DRM_MODE_PAGE_FLIP_EVENT ≠ 0 := by
  decide

/-- C8 (amended): every commit `modeset_draw_out` submits is an apply commit
with both the non-blocking and the request-completion-event flag; every apply
commit `modeset_perform_modeset` submits has the request-completion-event and
the allow-modeset flag and not the non-blocking flag. -/
theorem apply_commit_flags :
    (∀ (rnd : Nat → Nat) (n : Nat) (commit_ret : Int) (out : modeset_output)
        (req : drmModeAtomicReq) (flags : Nat) (ret : Int),
      DrmCall.atomicCommit req flags ret ∈ (modeset_draw_out rnd n commit_ret out).2.2 →
      flags &&& DRM_MODE_ATOMIC_TEST_ONLY = 0 ∧ flags &&& DRM_MODE_ATOMIC_NONBLOCK ≠ 0 ∧
        flags &&& DRM_MODE_PAGE_FLIP_EVENT ≠ 0) ∧
    (∀ (rnd : Nat → Nat) (ret0 test_ret apply_ret : Int) (l : List modeset_output) (n : Nat)
        (req : drmModeAtomicReq) (flags : Nat) (ret : Int),
      DrmCall.atomicCommit req flags ret ∈
        (modeset_perform_modeset rnd ret0 test_ret apply_ret ⟨l, n, []⟩).2.calls →
      flags &&& DRM_MODE_ATOMIC_TEST_ONLY = 0 →
      flags &&& DRM_MODE_PAGE_FLIP_EVENT ≠ 0 ∧ flags &&& DRM_MODE_ATOMIC_ALLOW_MODESET ≠ 0 ∧
        flags &&& DRM_MODE_ATOMIC_NONBLOCK = 0) := by
  constructor
  · intro rnd n commit_ret out req flags ret h
    unfold modeset_draw_out at h
    dsimp only at h
    split_ifs at h
    all_goals simp only [List.mem_cons, List.mem_singleton, List.not_mem_nil, or_false,
      reduceCtorEq, false_or, DrmCall.atomicCommit.injEq] at h
    all_goals (obtain ⟨_, rfl, _⟩ := h; decide)
  · intro rnd ret0 test_ret apply_ret l n req flags ret h ht
    unfold modeset_perform_modeset at h
    dsimp only at h
    split_ifs at h
    all_goals simp only [List.nil_append, List.mem_cons, List.mem_singleton, List.not_mem_nil,
      or_false, List.cons_append, DrmCall.atomicCommit.injEq] at h
    · obtain ⟨_, rfl, _⟩ := h
      exact absurd ht (by decide)
    · rcases h with ⟨_, rfl, _⟩ | ⟨_, rfl, _⟩
      · exact absurd ht (by decide)
      · decide

/-- C8 (amended), exercised: the per-frame commit of the head output of the
example world is submitted with flags `0x201`, the accepted startup apply
commit with flags `0x401`. -/
theorem apply_commit_flags_witness :
    (0x201 &&& DRM_MODE_ATOMIC_TEST_ONLY = 0 ∧ 0x201 &&& DRM_MODE_ATOMIC_NONBLOCK ≠ 0 ∧
        0x201 &&& DRM_MODE_PAGE_FLIP_EVENT ≠ 0) ∧
    (0x401 &&& DRM_MODE_PAGE_FLIP_EVENT ≠ 0 ∧ 0x401 &&& DRM_MODE_ATOMIC_ALLOW_MODESET ≠ 0 ∧
        0x401 &&& DRM_MODE_ATOMIC_NONBLOCK = 0) :=
  ⟨apply_commit_flags.1 (fun n => 7 * n + 3) 0 0 (demo_outputs.headD zero_output)
      ((commit_requests (modeset_draw_out (fun n => 7 * n + 3) 0 0
        (demo_outputs.headD zero_output)).2.2).headD []) 0x201 0 (by decide),
   apply_commit_flags.2 (fun n => 7 * n + 3) 0 0 0 demo_outputs 0
      (((commit_requests (modeset_perform_modeset (fun n => 7 * n + 3) 0 0 0
        demo_world).2.calls).drop 1).headD []) 0x401 0 (by decide) (by decide)⟩

/-- C9 (the code at the failing input): with the two outputs of the example
world (head: connector 2, CRTC 101, plane 51; second: connector 1, CRTC 100,
plane 50) the request of the validate-only commit holds the thirteen triples
of the head output twice and no triple of the second output. -/
theorem validate_only_commit_head_only :
    demo_outputs.map (fun o => (o.connector.id, o.crtc.id, o.plane.id))
      = [(2, 101, 51), (1, 100, 50)] ∧
    (commit_flags (modeset_perform_modeset (fun n => 7 * n + 3) 0 0 0 demo_world).2.calls).head?
      = some (DRM_MODE_ATOMIC_TEST_ONLY ||| DRM_MODE_ATOMIC_ALLOW_MODESET) ∧
    ((commit_requests (modeset_perform_modeset (fun n => 7 * n + 3) 0 0 0 demo_world).2.calls).headD
        []).map (fun it => it.object_id)
      = [2, 101, 101, 51, 51, 51, 51, 51, 51, 51, 51, 51, 51,
         2, 101, 101, 51, 51, 51, 51, 51, 51, 51, 51, 51, 51] ∧
    ((commit_requests (modeset_perform_modeset (fun n => 7 * n + 3) 0 0 0 demo_world).2.calls).headD
        []).all (fun it => it.object_id != 1 && it.object_id != 100 && it.object_id != 50)
      = true := by
  decide

/-- C10 (the code at the failing inputs): when the device rejects the
validate-only commit (`modeset_perform_modeset` returns `-22`), and when the
name `SRC_H` does not resolve while the request is built
(`modeset_perform_modeset` returns `-1`), `main` returns exit code `0`. -/
theorem main_exit_code_ignores_startup_failure :
    (modeset_perform_modeset (fun n => 7 * n + 3) 0 (-22) 0 demo_world).1 = -22 ∧
    (main (demo_env demo_two_planes (-22) 0 [] [])).1 = some 0 ∧
    (modeset_perform_modeset (fun n => 7 * n + 3) 0 0 0
      ⟨(modeset_prepare demo_no_src_h []).2.1, 0, []⟩).1 = -1 ∧
    (main (demo_env demo_no_src_h 0 0 [] [])).1 = some 0 := by
  decide

/-! ## The fuel of the shutdown loop -/

theorem page_flip_event_loop_length (rnd : Nat → Nat) (commit_ret : Int) (crtc_id : Nat)
    (l : List modeset_output) (n : Nat) :
    (page_flip_event_loop rnd commit_ret crtc_id l n).1.length = l.length := by
  induction l with
  | nil => rfl
  | cons iter rest ih =>
    unfold page_flip_event_loop
    dsimp only
    split_ifs
    · rfl
    · rfl
    · simp [ih]

theorem drmHandleEvent_length (rnd : Nat → Nat) (evs : List (Nat × Int)) (w : World) :
    (drmHandleEvent rnd evs w).output_list.length = w.output_list.length := by
  induction evs generalizing w with
  | nil => rfl
  | cons ev evs ih =>
    unfold drmHandleEvent
    rw [ih]
    exact page_flip_event_loop_length rnd ev.2 ev.1 w.output_list w.rand_calls

theorem modeset_cleanup_wait_length (rnd : Nat → Nat)
    (script : List (Option (List (Nat × Int)))) (w : World) :
    (modeset_cleanup_wait rnd script w).world.output_list.length = w.output_list.length := by
  induction script generalizing w with
  | nil => rfl
  | cons r rest ih =>
    unfold modeset_cleanup_wait
    split_ifs
    · rfl
    · cases r with
      | none => rfl
      | some evs =>
        dsimp only
        rw [ih, drmHandleEvent_length]

/-- The outer loop of `modeset_cleanup` needs one round per output: any fuel
of at least the length of `output_list` gives the result of
`modeset_cleanup`. -/
theorem modeset_cleanup_loop_fuel (rnd : Nat → Nat) (fuel : Nat)
    (script : List (Option (List (Nat × Int)))) (w : World)
    (h : w.output_list.length ≤ fuel) :
    modeset_cleanup_loop rnd fuel script w = modeset_cleanup rnd script w := by
  unfold modeset_cleanup
  induction fuel generalizing script w with
  | zero =>
    have h0 : w.output_list.length = 0 := by omega
    rw [h0]
  | succ fuel ih =>
    cases hl : w.output_list with
    | nil =>
      simp [modeset_cleanup_loop, hl]
    | cons iter rest =>
      have hlen := modeset_cleanup_wait_length rnd script
        { w with output_list := { iter with cleanup := true } :: rest }
      rw [hl] at h
      simp only [List.length_cons] at h hlen ⊢
      unfold modeset_cleanup_loop
      simp only [hl]
      generalize modeset_cleanup_wait rnd script
        { w with output_list := { iter with cleanup := true } :: rest } = c at hlen ⊢
      split_ifs
      · rfl
      · cases hl2 : c.world.output_list with
        | nil => rfl
        | cons iter2 rest2 =>
          dsimp only
          rw [hl2] at hlen
          simp only [List.length_cons, Nat.add_right_cancel_iff] at hlen
          have e := ih c.script
            { c.world with output_list := rest2,
                           calls := c.world.calls ++ modeset_output_destroy iter2 }
            (by show rest2.length ≤ fuel; omega)
          rw [e]
          show modeset_cleanup_loop rnd rest2.length _ _ = _
          rw [hlen]

/-- When `modeset_cleanup` returns, `output_list` is empty. -/
theorem modeset_cleanup_loop_returned (rnd : Nat → Nat) (fuel : Nat)
    (script : List (Option (List (Nat × Int)))) (w : World)
    (h : (modeset_cleanup_loop rnd fuel script w).2 = true) :
    (modeset_cleanup_loop rnd fuel script w).1.output_list = [] := by
  induction fuel generalizing script w with
  | zero =>
    unfold modeset_cleanup_loop at h ⊢
    simpa using h
  | succ fuel ih =>
    unfold modeset_cleanup_loop at h ⊢
    cases hl : w.output_list with
    | nil => simp [hl]
    | cons iter rest =>
      simp only [hl] at h ⊢
      generalize modeset_cleanup_wait rnd script
        { w with output_list := { iter with cleanup := true } :: rest } = c at h ⊢
      by_cases hr : (!c.returned) = true
      · rw [if_pos hr] at h
        exact absurd h (by simp)
      · rw [if_neg hr] at h ⊢
        cases hl2 : c.world.output_list with
        | nil => simp [hl2]
        | cons iter2 rest2 =>
          simp only [hl2] at h ⊢
          exact ih _ _ h

/-! ## Opening the device -/

/-- C11 (the code at the failing input): the answers to the
CRTC-in-vblank-event capability query never change the result of
`modeset_open`; with all other steps succeeding it returns `0` and stores the
descriptor although that query failed (`-1`), and although it succeeded with
value `0`. -/
theorem modeset_open_ignores_vblank_cap :
    (∀ (a : OpenAnswer) (r : Int) (c : Nat),
      modeset_open { a with vblank_ret := r, vblank_cap := c } = modeset_open a) ∧
    modeset_open { demo_open with vblank_ret := -1, vblank_cap := 0 } = (0, some 3) ∧
    modeset_open { demo_open with vblank_ret := 0, vblank_cap := 0 } = (0, some 3) ∧
    modeset_open { demo_open with dumb_ret := 0, dumb_cap := 0 } = (-95, none) := by
  refine ⟨?_, by decide, by decide, by decide⟩
  intro a r c
  unfold modeset_open
  dsimp only
  split_ifs with h1 h2 h3 h4 h5 h6 h7 h8
  all_goals first
    | rfl
    | (exfalso; simp only [Bool.or_eq_true, Bool.and_eq_true, decide_eq_true_eq] at *; omega)

/-! ## The colour walk -/

/-- C20: for a channel value `cur <= 255`, a modulus `1 <= mod <= 256` and any
value `rnd` of `rand()` (the step is `rnd % mod`), `next_color` returns a
value `next` with `cur <= next <= 255` and `next - cur < mod` when the
direction is up, and `next <= cur` and `cur - next < mod` when it is down. -/
theorem next_color_bounds (up : Bool) (cur mod rnd : Nat) (hcur : cur ≤ 255) (h1 : 1 ≤ mod)
    (h256 : mod ≤ 256) :
    (up = true → cur ≤ (next_color up cur mod rnd).1 ∧ (next_color up cur mod rnd).1 ≤ 255 ∧
      (next_color up cur mod rnd).1 - cur < mod) ∧
    (up = false → (next_color up cur mod rnd).1 ≤ cur ∧
      cur - (next_color up cur mod rnd).1 < mod) := by
  have hstep : rnd % mod < mod := Nat.mod_lt _ (by omega)
  cases up with
  | true =>
    refine ⟨fun _ => ?_, fun h => absurd h (by decide)⟩
    unfold next_color
    simp only [if_true, one_mul, Bool.true_and, Bool.not_true, Bool.false_and, Bool.or_false,
      decide_eq_true_eq]
    generalize rnd % mod = step at hstep ⊢
    norm_num only
    split_ifs <;> dsimp only <;> omega
  | false =>
    refine ⟨fun h => absurd h (by decide), fun _ => ?_⟩
    unfold next_color
    simp only [Bool.false_eq_true, if_false, Bool.false_and, Bool.not_false, Bool.true_and,
      Bool.false_or, decide_eq_true_eq]
    generalize rnd % mod = step at hstep ⊢
    norm_num only
    split_ifs <;> dsimp only <;> omega

/-- C20, exercised on the two boundary cases of the specification: from 250,
direction up, modulus 10 the next value lies in `[250, 255]`; from 3,
direction down, modulus 10 it lies in `[0, 3]` (here with `rand()` returning
17, a step of 7, which is refused in both cases). -/
theorem next_color_bounds_witness :
    (250 ≤ (next_color true 250 10 17).1 ∧ (next_color true 250 10 17).1 ≤ 255 ∧
      (next_color true 250 10 17).1 - 250 < 10) ∧
    ((next_color false 3 10 17).1 ≤ 3 ∧ 3 - (next_color false 3 10 17).1 < 10) :=
  ⟨(next_color_bounds true 250 10 17 (by decide) (by decide) (by decide)).1 rfl,
   (next_color_bounds false 3 10 17 (by decide) (by decide) (by decide)).2 rfl⟩

/-! ## The triples of a commit -/

theorem set_drm_object_property_ok (req : drmModeAtomicReq) (obj : drm_object) (name : String)
    (v : Nat) (h : resolves obj name = true) :
    set_drm_object_property req obj name v =
      (((req.length + 1 : Nat) : Int), req ++ [⟨obj.id, prop_id_of obj name, v⟩]) := by
  unfold resolves at h
  unfold set_drm_object_property drmModeAtomicAddProperty prop_id_of
  have h0 : ¬ find_prop_id (obj.props_info.getD []) name = 0 := by simpa using h
  simp only [h0, if_false]

theorem set_properties_ok (req : drmModeAtomicReq) (l : List (drm_object × String × Nat))
    (h : l.all (fun s => resolves s.1 s.2.1) = true) :
    set_properties req l =
      (0, req ++ l.map (fun s => ⟨s.1.id, prop_id_of s.1 s.2.1, s.2.2⟩)) := by
  induction l generalizing req with
  | nil => simp [set_properties]
  | cons s rest ih =>
    simp only [List.all_cons, Bool.and_eq_true] at h
    unfold set_properties
    dsimp only
    rw [set_drm_object_property_ok req s.1 s.2.1 s.2.2 h.1]
    have hn : ¬ (((req.length + 1 : Nat) : Int) < 0) := by omega
    simp only [hn, if_false]
    rw [ih _ h.2]
    simp

theorem shift16_no_wrap (w : Nat) (h : w < 65536) : (w <<< 16) % 2 ^ 32 = w * 65536 := by
  rw [Nat.shiftLeft_eq]
  norm_num only
  omega

/-- C12: for an output whose thirteen property names all resolve and whose
back buffer `bufs[front_buf ^ 1]` has width and height below 65536,
`modeset_atomic_prepare_commit` returns `0` and appends exactly these
thirteen triples, in this order: connector `CRTC_ID = crtc.id`; CRTC
`MODE_ID = mode_blob_id`; CRTC `ACTIVE = 1`; plane `FB_ID` = the back buffer's
`fb`; plane `CRTC_ID = crtc.id`; `SRC_X = 0`; `SRC_Y = 0`;
`SRC_W = width * 65536`; `SRC_H = height * 65536`; `CRTC_X = 0`; `CRTC_Y = 0`;
`CRTC_W = width`; `CRTC_H = height`. -/
theorem modeset_atomic_prepare_commit_items (out : modeset_output) (req : drmModeAtomicReq)
    (h : all_resolve out = true)
    (hw : (out.bufs (out.front_buf ^^^ 1)).width < 65536)
    (hh : (out.bufs (out.front_buf ^^^ 1)).height < 65536) :
    modeset_atomic_prepare_commit out req =
      (0, req ++
        [⟨out.connector.id, prop_id_of out.connector "CRTC_ID", out.crtc.id⟩,
         ⟨out.crtc.id, prop_id_of out.crtc "MODE_ID", out.mode_blob_id⟩,
         ⟨out.crtc.id, prop_id_of out.crtc "ACTIVE", 1⟩,
         ⟨out.plane.id, prop_id_of out.plane "FB_ID", (out.bufs (out.front_buf ^^^ 1)).fb⟩,
         ⟨out.plane.id, prop_id_of out.plane "CRTC_ID", out.crtc.id⟩,
         ⟨out.plane.id, prop_id_of out.plane "SRC_X", 0⟩,
         ⟨out.plane.id, prop_id_of out.plane "SRC_Y", 0⟩,
         ⟨out.plane.id, prop_id_of out.plane "SRC_W",
            (out.bufs (out.front_buf ^^^ 1)).width * 65536⟩,
         ⟨out.plane.id, prop_id_of out.plane "SRC_H",
            (out.bufs (out.front_buf ^^^ 1)).height * 65536⟩,
         ⟨out.plane.id, prop_id_of out.plane "CRTC_X", 0⟩,
         ⟨out.plane.id, prop_id_of out.plane "CRTC_Y", 0⟩,
         ⟨out.plane.id, prop_id_of out.plane "CRTC_W", (out.bufs (out.front_buf ^^^ 1)).width⟩,
         ⟨out.plane.id, prop_id_of out.plane "CRTC_H",
            (out.bufs (out.front_buf ^^^ 1)).height⟩]) := by
  have hall : (commit_settings out).all (fun s => resolves s.1 s.2.1) = true := by
    rw [← h]
    simp [commit_settings, all_resolve, Bool.and_assoc]
  rw [modeset_atomic_prepare_commit_eq, set_properties_ok req _ hall]
  simp only [commit_settings, List.map_cons, List.map_nil, shift16_no_wrap _ hw,
    shift16_no_wrap _ hh]

/-- C12, exercised: the head output of the example world (connector 2, CRTC
101, plane 51, blob 201, back buffer 4x2 with framebuffer 403) yields the
thirteen triples with `SRC_W = 4 * 65536` and `SRC_H = 2 * 65536`. -/
theorem modeset_atomic_prepare_commit_items_witness :
    modeset_atomic_prepare_commit (demo_outputs.headD zero_output) [] =
      (0, [⟨2, 20, 101⟩, ⟨101, 23, 201⟩, ⟨101, 22, 1⟩, ⟨51, 17, 403⟩, ⟨51, 20, 101⟩,
           ⟨51, 9, 0⟩, ⟨51, 10, 0⟩, ⟨51, 11, 262144⟩, ⟨51, 12, 131072⟩, ⟨51, 13, 0⟩,
           ⟨51, 14, 0⟩, ⟨51, 15, 4⟩, ⟨51, 16, 2⟩]) :=
  (modeset_atomic_prepare_commit_items (demo_outputs.headD zero_output) [] (by decide)
    (by decide) (by decide)).trans (by decide)

/-- C14: at every failure point of `modeset_create_fb` (dumb-buffer creation,
framebuffer registration, map request, `mmap`), with the failing call leaving
a positive `errno`, the call returns a negative error and the device's live
buffer handles, registered framebuffers and mappings are as before the call:
nothing was created if creation failed, the created handle is destroyed if
registration failed, and the framebuffer is removed and the handle destroyed
if the map request or `mmap` failed. -/
theorem modeset_create_fb_rollback (ans : CreateFbAnswer) (buf : modeset_buf)
    (res : DeviceResources) (herrno : 0 < ans.errno)
    (hfail : ans.create_ret < 0 ∨ ans.addfb_ret ≠ 0 ∨ ans.map_ret ≠ 0 ∨ ans.mmap_failed = true) :
    (modeset_create_fb ans buf).1 < 0 ∧
    apply_calls (modeset_create_fb ans buf).2.2 res = res ∧
    (ans.create_ret < 0 → (modeset_create_fb ans buf).2.2 = []) ∧
    (¬ ans.create_ret < 0 → ans.addfb_ret ≠ 0 →
      (modeset_create_fb ans buf).2.2 = [.createDumb ans.handle, .destroyDumb ans.handle]) ∧
    (¬ ans.create_ret < 0 → ans.addfb_ret = 0 →
      (modeset_create_fb ans buf).2.2 =
        [.createDumb ans.handle, .addFB ans.fb, .rmFB ans.fb, .destroyDumb ans.handle]) := by
  have hneg : -(ans.errno : Int) < 0 := by omega
  unfold modeset_create_fb
  dsimp only
  split_ifs with h1 h2 h3 h4
  · exact ⟨hneg, rfl, fun _ => rfl, fun h => absurd h1 h, fun h => absurd h1 h⟩
  · refine ⟨hneg, ?_, fun h => absurd h h1, fun _ _ => rfl, fun _ h => absurd h h2⟩
    simp [apply_calls, apply_call]
  · refine ⟨hneg, ?_, fun h => absurd h h1, fun _ h => absurd (not_not.mp h2) h, fun _ _ => rfl⟩
    simp [apply_calls, apply_call]
  · refine ⟨hneg, ?_, fun h => absurd h h1, fun _ h => absurd (not_not.mp h2) h, fun _ _ => rfl⟩
    simp [apply_calls, apply_call]
  · exfalso
    rcases hfail with h | h | h | h
    · exact h1 h
    · exact h2 h
    · exact h3 h
    · exact h4 h

/-- C14, exercised: with the map request failing (`errno = 12`) on a device
that already holds handle 1 and framebuffer 2, `modeset_create_fb` returns
`-12`, and handle 300 and framebuffer 400 are gone again. -/
theorem modeset_create_fb_rollback_witness :
    (modeset_create_fb { demo_fb_answer with map_ret := -1, errno := 12 } zero_buf).1 = -12 ∧
    apply_calls (modeset_create_fb { demo_fb_answer with map_ret := -1, errno := 12 } zero_buf).2.2
      ⟨[1], [2], [], []⟩ = ⟨[1], [2], [], []⟩ ∧
    (modeset_create_fb { demo_fb_answer with map_ret := -1, errno := 12 } zero_buf).2.2 =
      [.createDumb 300, .addFB 400, .rmFB 400, .destroyDumb 300] :=
  ⟨by decide,
   (modeset_create_fb_rollback { demo_fb_answer with map_ret := -1, errno := 12 } zero_buf
      ⟨[1], [2], [], []⟩ (by decide) (by decide)).2.1,
   by decide⟩

/-- C15 (the code at the failing input): for the buffer a successful
`modeset_create_fb` of `modeset-vsync.c` produces (handle 300, framebuffer
400, 32 bytes), `modeset_destroy_fb` of `modeset-vsync.c` unmaps the buffer
and destroys handle 300 but calls `drmModeRmFB` on `32`, the buffer's size;
after allocate and release framebuffer 400 is still registered. -/
theorem vsync_destroy_fb_removes_wrong_framebuffer :
    (Vsync.modeset_create_fb demo_fb_answer zero_buf).1 = 0 ∧
    ((Vsync.modeset_create_fb demo_fb_answer zero_buf).2.1.fb,
     (Vsync.modeset_create_fb demo_fb_answer zero_buf).2.1.size,
     (Vsync.modeset_create_fb demo_fb_answer zero_buf).2.1.handle) = (400, 32, 300) ∧
    Vsync.modeset_destroy_fb (Vsync.modeset_create_fb demo_fb_answer zero_buf).2.1 =
      [.munmap 300 32, .rmFB 32, .destroyDumb 300] ∧
    apply_calls ((Vsync.modeset_create_fb demo_fb_answer zero_buf).2.2 ++
        Vsync.modeset_destroy_fb (Vsync.modeset_create_fb demo_fb_answer zero_buf).2.1)
      ⟨[], [], [], []⟩ = ⟨[], [400], [], []⟩ ∧
    apply_calls ((modeset_create_fb demo_fb_answer zero_buf).2.2 ++
        modeset_destroy_fb (modeset_create_fb demo_fb_answer zero_buf).2.1)
      ⟨[], [], [], []⟩ = ⟨[], [], [], []⟩ := by
  decide

/-! ## Discovery: result code, skipped connectors and buffer sizes -/

/-- A connector for which `modeset_find_crtc` or `modeset_find_plane` fails
yields no output. -/
theorem modeset_output_create_none (dev : Device) (i : Nat) (res : drmModeRes)
    (conn : drmModeConnector) (l : List modeset_output)
    (h : (modeset_find_crtc dev res conn l (output_before_find_crtc dev i conn)).1 ≠ 0 ∨
      (modeset_find_plane dev
        (modeset_find_crtc dev res conn l (output_before_find_crtc dev i conn)).2).1 ≠ 0) :
    (modeset_output_create dev i res conn l).1 = none := by
  unfold modeset_output_create
  dsimp only
  split_ifs with h1 h2 h3 h4 h5 h6
  all_goals first
    | rfl
    | (exfalso
       rcases h with h | h
       · exact h (not_not.mp h3)
       · exact h (not_not.mp h4))

/-- C16: when the device resources can be retrieved, `modeset_prepare` returns
a non-zero code exactly when `output_list` is empty afterwards; a connector
for which no output is created is skipped by the connector loop, and no
output is created for a connector for which `modeset_find_crtc` or
`modeset_find_plane` fails. -/
theorem modeset_prepare_fails_iff_no_output (dev : Device) (res : drmModeRes)
    (hres : dev.getResources = some res) :
    ((modeset_prepare dev []).1 ≠ 0 ↔ (modeset_prepare dev []).2.1 = []) ∧
    (∀ c cs i l conn, dev.getConnector c = some conn →
      (modeset_output_create dev i res conn l).1 = none →
      (modeset_prepare_loop dev res (c :: cs) i l).1 =
        (modeset_prepare_loop dev res cs (i + 1) l).1) ∧
    (∀ i conn l,
      ((modeset_find_crtc dev res conn l (output_before_find_crtc dev i conn)).1 ≠ 0 ∨
        (modeset_find_plane dev
          (modeset_find_crtc dev res conn l (output_before_find_crtc dev i conn)).2).1 ≠ 0) →
      (modeset_output_create dev i res conn l).1 = none) := by
  refine ⟨?_, ?_, fun i conn l h => modeset_output_create_none dev i res conn l h⟩
  · unfold modeset_prepare
    rw [hres]
    dsimp only
    cases hl : (modeset_prepare_loop dev res res.connectors 0 []).1 with
    | nil => simp
    | cons o os => simp
  · intro c cs i l conn hc hnone
    conv_lhs => unfold modeset_prepare_loop
    rw [hc]
    dsimp only
    cases hout : modeset_output_create dev i res conn l with
    | mk o tr =>
      rw [hout] at hnone
      dsimp only at hnone
      subst hnone
      rfl

/-- C16, exercised: on the example device without any plane no connector gets
an output and `modeset_prepare` returns `-1`; connector 2 of the example
device with a single plane for CRTC position 0 gets no plane and is skipped,
and `modeset_prepare` returns `0` with the output of connector 1. -/
theorem modeset_prepare_fails_iff_no_output_witness :
    ((modeset_prepare (demo_device []) []).1 ≠ 0 ↔ (modeset_prepare (demo_device []) []).2.1 = []) ∧
    (modeset_prepare (demo_device []) []).1 = -1 ∧
    (modeset_prepare (demo_device [(50, 1)]) []).1 = 0 ∧
    (modeset_prepare (demo_device [(50, 1)]) []).2.1.map (fun o => o.connector.id) = [1] :=
  ⟨(modeset_prepare_fails_iff_no_output (demo_device []) ⟨[1, 2], [100, 101]⟩ rfl).1,
   by decide, by decide, by decide⟩

/-- C17 (the code at the failing input): for the connected connector 1 that
declares no mode, `modeset_output_create` returns an output: it reads
`modes[0]` (here a zero mode), creates blob 200 and two 0x0 buffers, and
`modeset_prepare` links the output into `output_list` and returns `0`. -/
theorem modeset_output_create_without_modes :
    (demo_no_modes.getConnector 1).map (fun c => (c.connection, c.modes)) = some (1, []) ∧
    ((modeset_output_create demo_no_modes 0 ⟨[1, 2], [100, 101]⟩ ⟨1, 10, 1, [], [10]⟩ []).1.map
      (fun o => (o.connector.id, o.crtc.id, o.plane.id, o.mode_blob_id)))
      = some (1, 100, 50, 200) ∧
    ((modeset_output_create demo_no_modes 0 ⟨[1, 2], [100, 101]⟩ ⟨1, 10, 1, [], [10]⟩ []).1.map
      (fun o => (o.mode.hdisplay, o.mode.vdisplay, o.bufs0.width, o.bufs0.height, o.bufs0.fb,
        o.bufs1.fb)))
      = some (0, 0, 0, 0, 400, 401) ∧
    (modeset_prepare demo_no_modes []).1 = 0 ∧
    (modeset_prepare demo_no_modes []).2.1.map (fun o => o.connector.id) = [1] ∧
    apply_calls (modeset_prepare demo_no_modes []).2.2 ⟨[], [], [], []⟩
      = ⟨[301, 300], [401, 400], [301, 300], [200]⟩ := by
  decide

theorem modeset_create_fb_size (ans : CreateFbAnswer) (buf : modeset_buf) :
    (modeset_create_fb ans buf).2.1.width = buf.width ∧
    (modeset_create_fb ans buf).2.1.height = buf.height := by
  unfold modeset_create_fb
  dsimp only
  split_ifs <;> exact ⟨rfl, rfl⟩

theorem modeset_setup_framebuffers_size (a0 a1 : CreateFbAnswer) (conn : drmModeConnector)
    (out : modeset_output) (h : (modeset_setup_framebuffers a0 a1 conn out).1 = 0) :
    (modeset_setup_framebuffers a0 a1 conn out).2.1.bufs0.width = (first_mode conn).hdisplay ∧
    (modeset_setup_framebuffers a0 a1 conn out).2.1.bufs0.height = (first_mode conn).vdisplay ∧
    (modeset_setup_framebuffers a0 a1 conn out).2.1.bufs1.width = (first_mode conn).hdisplay ∧
    (modeset_setup_framebuffers a0 a1 conn out).2.1.bufs1.height = (first_mode conn).vdisplay ∧
    (modeset_setup_framebuffers a0 a1 conn out).2.1.mode = out.mode := by
  unfold modeset_setup_framebuffers at h ⊢
  dsimp only at h ⊢
  split_ifs at h ⊢ with h1 h2
  · exact absurd h h1
  · exact absurd h h2
  · exact ⟨(modeset_create_fb_size _ _).1, (modeset_create_fb_size _ _).2,
      (modeset_create_fb_size _ _).1, (modeset_create_fb_size _ _).2, rfl⟩

theorem modeset_find_crtc_mode (dev : Device) (res : drmModeRes) (conn : drmModeConnector)
    (l : List modeset_output) (out : modeset_output) :
    (modeset_find_crtc dev res conn l out).2.mode = out.mode ∧
    (modeset_find_crtc dev res conn l out).2.connector = out.connector := by
  unfold modeset_find_crtc
  split
  · split <;> exact ⟨rfl, rfl⟩
  · split <;> exact ⟨rfl, rfl⟩

theorem modeset_find_plane_mode (dev : Device) (out : modeset_output) :
    (modeset_find_plane dev out).2.mode = out.mode ∧
    (modeset_find_plane dev out).2.connector = out.connector := by
  unfold modeset_find_plane
  split
  · exact ⟨rfl, rfl⟩
  · split <;> exact ⟨rfl, rfl⟩

theorem modeset_setup_objects_mode (dev : Device) (out : modeset_output) :
    (modeset_setup_objects dev out).2.mode = out.mode := by
  unfold modeset_setup_objects
  dsimp only
  split_ifs <;> rfl

/-- C19: every output `modeset_output_create` returns for a connector whose
first mode is `m` has `m` in its `mode` field and both swap-chain buffers
`bufs[0]` and `bufs[1]` of width `m.hdisplay` and height `m.vdisplay`. -/
theorem modeset_output_create_buffer_size (dev : Device) (i : Nat) (res : drmModeRes)
    (conn : drmModeConnector) (l : List modeset_output) (out : modeset_output)
    (m : drmModeModeInfo) (rest : List drmModeModeInfo)
    (h : (modeset_output_create dev i res conn l).1 = some out)
    (hm : conn.modes = m :: rest) :
    out.mode = m ∧
    out.bufs0.width = m.hdisplay ∧ out.bufs0.height = m.vdisplay ∧
    out.bufs1.width = m.hdisplay ∧ out.bufs1.height = m.vdisplay := by
  have hfm : first_mode conn = m := by unfold first_mode; rw [hm]; rfl
  unfold modeset_output_create at h
  simp only at h
  split_ifs at h with h1 h2 h3 h4 h5 h6
  all_goals simp only [Option.some.injEq, reduceCtorEq] at h
  subst h
  obtain ⟨a, b, c, d, e⟩ := modeset_setup_framebuffers_size _ _ _ _ (not_not.mp h6)
  rw [a, b, c, d, e, modeset_setup_objects_mode, (modeset_find_plane_mode _ _).1,
    (modeset_find_crtc_mode _ _ _ _ _).1, hfm]
  exact ⟨rfl, rfl, rfl, rfl, rfl⟩

/-- C19, exercised: on the device whose connector 1 lists the modes 1920x1080
and 1280x720, the output created has mode 1920x1080 and two 1920x1080
buffers. -/
theorem modeset_output_create_buffer_size_witness :
    ((modeset_output_create demo_full_hd 0 ⟨[1], [100]⟩
        ⟨1, 10, 1, [⟨1920, 1080⟩, ⟨1280, 720⟩], [10]⟩ []).1.getD zero_output).mode = ⟨1920, 1080⟩ ∧
    ((modeset_output_create demo_full_hd 0 ⟨[1], [100]⟩
        ⟨1, 10, 1, [⟨1920, 1080⟩, ⟨1280, 720⟩], [10]⟩ []).1.getD zero_output).bufs0.width = 1920 ∧
    ((modeset_output_create demo_full_hd 0 ⟨[1], [100]⟩
        ⟨1, 10, 1, [⟨1920, 1080⟩, ⟨1280, 720⟩], [10]⟩ []).1.getD zero_output).bufs0.height = 1080 ∧
    ((modeset_output_create demo_full_hd 0 ⟨[1], [100]⟩
        ⟨1, 10, 1, [⟨1920, 1080⟩, ⟨1280, 720⟩], [10]⟩ []).1.getD zero_output).bufs1.width = 1920 ∧
    ((modeset_output_create demo_full_hd 0 ⟨[1], [100]⟩
        ⟨1, 10, 1, [⟨1920, 1080⟩, ⟨1280, 720⟩], [10]⟩ []).1.getD zero_output).bufs1.height = 1080 :=
  modeset_output_create_buffer_size demo_full_hd 0 ⟨[1], [100]⟩
    ⟨1, 10, 1, [⟨1920, 1080⟩, ⟨1280, 720⟩], [10]⟩ [] _ ⟨1920, 1080⟩ [⟨1280, 720⟩]
    (Option.eq_some_of_isSome (by decide) |>.trans (by rfl)) rfl

/-! ## Discovery: when a CRTC or plane is found -/

/-- C26: for a channel value `cur <= 255` and a step `rnd % mod` below 256,
`next_color` inverts the direction flag and returns `cur` exactly when moving
by the step would leave `0..255` (`cur + step > 255` when up, `step > cur`
when down); otherwise the flag is unchanged and the result is `cur + step`
(up) or `cur - step` (down). -/
theorem next_color_step (up : Bool) (cur mod rnd : Nat) (hcur : cur ≤ 255)
    (hstep : rnd % mod < 256) :
    next_color up cur mod rnd =
      if (up = true ∧ cur + rnd % mod > 255) ∨ (up = false ∧ rnd % mod > cur) then (cur, !up)
      else (if up = true then cur + rnd % mod else cur - rnd % mod, up) := by
  cases up with
  | true =>
    unfold next_color
    simp only [if_true, one_mul, Bool.true_and, Bool.not_true, Bool.false_and, Bool.or_false,
      decide_eq_true_eq, true_and, Bool.true_eq_false, false_and, or_false]
    generalize rnd % mod = step at hstep ⊢
    norm_num only
    split_ifs <;> first | rfl | (exfalso; omega) | (congr 1; omega)
  | false =>
    unfold next_color
    simp only [Bool.false_eq_true, if_false, Bool.false_and, Bool.not_false, Bool.true_and,
      Bool.false_or, decide_eq_true_eq, false_and, true_and, false_or]
    generalize rnd % mod = step at hstep ⊢
    norm_num only
    split_ifs <;> first | rfl | (exfalso; omega) | (congr 1; omega)

/-- C26, exercised: from 250 upwards a step of 7 is refused and the direction
turns down, a step of 3 gives 253; from 3 downwards a step of 7 is refused and
the direction turns up, a step of 2 gives 1. -/
theorem next_color_step_witness :
    next_color true 250 10 17 = (250, false) ∧ next_color true 250 10 13 = (253, true) ∧
    next_color false 3 10 17 = (3, true) ∧ next_color false 3 10 12 = (1, false) :=
  ⟨(next_color_step true 250 10 17 (by decide) (by decide)).trans (by decide),
   (next_color_step true 250 10 13 (by decide) (by decide)).trans (by decide),
   (next_color_step false 3 10 17 (by decide) (by decide)).trans (by decide),
   (next_color_step false 3 10 12 (by decide) (by decide)).trans (by decide)⟩

/-! ## Pixel offsets -/

theorem pixel_in_bounds (buf : modeset_buf) (j k : Nat)
    (hstride : 4 * buf.width ≤ buf.stride) (hsize : buf.stride * buf.height ≤ buf.size)
    (hj : j < buf.height) (hk : k < buf.width) :
    buf.stride * j + 4 * k + 4 ≤ buf.size := by
  have h1 : buf.stride * (j + 1) ≤ buf.stride * buf.height := Nat.mul_le_mul_left _ hj
  have h2 : buf.stride * (j + 1) = buf.stride * j + buf.stride := Nat.mul_succ _ _
  omega

/-- C29: for a buffer with `stride >= 4 * width` and `size >= stride * height`
(`size` a 32-bit value), every pixel write of `modeset_paint_framebuffer` lies
inside the `size` bytes of the mapping, and the 32-bit computation of its
offset does not wrap. -/
theorem pixel_write_in_bounds (buf : modeset_buf) (j k : Nat)
    (hstride : 4 * buf.width ≤ buf.stride) (hsize : buf.stride * buf.height ≤ buf.size)
    (h32 : buf.size < 2 ^ 32) (hj : j < buf.height) (hk : k < buf.width) :
    buf.stride * j + 4 * k + 4 ≤ buf.size ∧
    pixel_offset buf j k = buf.stride * j + 4 * k ∧
    pixel_offset buf j k + 4 ≤ buf.size := by
  have hb := pixel_in_bounds buf j k hstride hsize hj hk
  have hoff : pixel_offset buf j k = buf.stride * j + 4 * k := by
    unfold pixel_offset
    rw [Nat.mod_eq_of_lt (by omega)]
    omega
  exact ⟨hb, hoff, by rw [hoff]; exact hb⟩

/-- C29, exercised on a 1920x1080 buffer with pitch 7680 and 8294400 bytes:
the last pixel is written at offset 8294396. -/
theorem pixel_write_in_bounds_witness :
    7680 * 1079 + 4 * 1919 + 4 ≤ 8294400 ∧
    pixel_offset ⟨1920, 1080, 7680, 8294400, 300, [], 400⟩ 1079 1919 = 7680 * 1079 + 4 * 1919 ∧
    pixel_offset ⟨1920, 1080, 7680, 8294400, 300, [], 400⟩ 1079 1919 + 4 ≤ 8294400 :=
  pixel_write_in_bounds ⟨1920, 1080, 7680, 8294400, 300, [], 400⟩ 1079 1919 (by decide)
    (by decide) (by decide) (by decide) (by decide)

/-! ## The front index and the completion handler -/

theorem xor_one_le_one (n : Nat) (h : n ≤ 1) : n ^^^ 1 ≤ 1 := by
  interval_cases n <;> decide

theorem modeset_draw_out_front_buf (rnd : Nat → Nat) (n : Nat) (commit_ret : Int)
    (out : modeset_output) (h : out.front_buf ≤ 1) :
    (modeset_draw_out rnd n commit_ret out).1.front_buf ≤ 1 := by
  have hp := (modeset_paint_framebuffer_keeps rnd n out).1
  unfold modeset_draw_out
  dsimp only
  split_ifs
  · rw [hp]; exact h
  · rw [hp]; exact h
  · show (modeset_paint_framebuffer rnd n out).1.front_buf ^^^ 1 ≤ 1
    rw [hp]
    exact xor_one_le_one _ h

theorem page_flip_event_loop_front_buf (rnd : Nat → Nat) (commit_ret : Int) (crtc_id : Nat)
    (l : List modeset_output) (n : Nat) (h : ∀ o ∈ l, o.front_buf ≤ 1) :
    ∀ o ∈ (page_flip_event_loop rnd commit_ret crtc_id l n).1, o.front_buf ≤ 1 := by
  induction l with
  | nil => simp [page_flip_event_loop]
  | cons iter rest ih =>
    have hi := h iter (List.mem_cons_self _ _)
    have hr : ∀ o ∈ rest, o.front_buf ≤ 1 := fun o ho => h o (List.mem_cons_of_mem _ ho)
    unfold page_flip_event_loop
    dsimp only
    intro o ho
    split_ifs at ho
    · rcases List.mem_cons.mp ho with rfl | hm
      · exact modeset_draw_out_front_buf rnd n commit_ret _ hi
      · exact hr o hm
    · rcases List.mem_cons.mp ho with rfl | hm
      · exact hi
      · exact hr o hm
    · rcases List.mem_cons.mp ho with rfl | hm
      · exact hi
      · exact ih hr o hm

theorem perform_modeset_paint_loop_front_buf (rnd : Nat → Nat) (l : List modeset_output)
    (n : Nat) (h : ∀ o ∈ l, o.front_buf ≤ 1) :
    ∀ o ∈ (perform_modeset_paint_loop rnd l n).1, o.front_buf ≤ 1 := by
  induction l generalizing n with
  | nil => simp [perform_modeset_paint_loop]
  | cons iter rest ih =>
    unfold perform_modeset_paint_loop
    dsimp only
    intro o ho
    rcases List.mem_cons.mp ho with rfl | hm
    · rw [(modeset_paint_framebuffer_keeps rnd _ _).1]
      exact h iter (List.mem_cons_self _ _)
    · exact ih _ (fun o ho => h o (List.mem_cons_of_mem _ ho)) o hm

theorem modeset_output_create_front_buf (dev : Device) (i : Nat) (res : drmModeRes)
    (conn : drmModeConnector) (l : List modeset_output) (out : modeset_output)
    (h : (modeset_output_create dev i res conn l).1 = some out) :
    out.front_buf = 0 := by
  have hc : ∀ o, (modeset_find_crtc dev res conn l o).2.front_buf = o.front_buf := by
    intro o
    unfold modeset_find_crtc
    split
    · split <;> rfl
    · split <;> rfl
  have hp : ∀ o, (modeset_find_plane dev o).2.front_buf = o.front_buf := by
    intro o
    unfold modeset_find_plane
    split
    · rfl
    · split <;> rfl
  have ho : ∀ o, (modeset_setup_objects dev o).2.front_buf = o.front_buf := by
    intro o
    unfold modeset_setup_objects
    dsimp only
    split_ifs <;> rfl
  have hf : ∀ a0 a1 o, (modeset_setup_framebuffers a0 a1 conn o).2.1.front_buf = o.front_buf := by
    intro a0 a1 o
    unfold modeset_setup_framebuffers
    dsimp only
    split_ifs <;> rfl
  unfold modeset_output_create at h
  simp only at h
  split_ifs at h with h1 h2 h3 h4 h5 h6
  all_goals simp only [Option.some.injEq, reduceCtorEq] at h
  subst h
  rw [hf, ho, hp, hc]
  rfl

/-- C28: an output returned by `modeset_output_create` has `front_buf = 0`;
`modeset_paint_framebuffer` leaves `front_buf` as it is; `modeset_draw_out`,
`modeset_page_flip_event` and `modeset_perform_modeset` keep `front_buf` of
every output in `{0, 1}`; and for `front_buf` in `{0, 1}` the two indices
`front_buf` and `front_buf ^ 1` are both in `{0, 1}` and differ. -/
theorem front_buf_in_range :
    (∀ (dev : Device) (i : Nat) (res : drmModeRes) (conn : drmModeConnector)
        (l : List modeset_output) (out : modeset_output),
      (modeset_output_create dev i res conn l).1 = some out → out.front_buf = 0) ∧
    (∀ (rnd : Nat → Nat) (n : Nat) (out : modeset_output),
      (modeset_paint_framebuffer rnd n out).1.front_buf = out.front_buf) ∧
    (∀ (rnd : Nat → Nat) (n : Nat) (commit_ret : Int) (out : modeset_output),
      out.front_buf ≤ 1 → (modeset_draw_out rnd n commit_ret out).1.front_buf ≤ 1) ∧
    (∀ (rnd : Nat → Nat) (commit_ret : Int) (crtc_id : Nat) (w : World),
      (∀ o ∈ w.output_list, o.front_buf ≤ 1) →
      ∀ o ∈ (modeset_page_flip_event rnd commit_ret crtc_id w).output_list, o.front_buf ≤ 1) ∧
    (∀ (rnd : Nat → Nat) (ret0 test_ret apply_ret : Int) (w : World),
      (∀ o ∈ w.output_list, o.front_buf ≤ 1) →
      ∀ o ∈ (modeset_perform_modeset rnd ret0 test_ret apply_ret w).2.output_list,
        o.front_buf ≤ 1) ∧
    (∀ (out : modeset_output), out.front_buf ≤ 1 →
      out.front_buf ^^^ 1 ≤ 1 ∧ out.front_buf ^^^ 1 ≠ out.front_buf) := by
  refine ⟨modeset_output_create_front_buf, fun rnd n out =>
    (modeset_paint_framebuffer_keeps rnd n out).1, modeset_draw_out_front_buf, ?_, ?_,
    fun out h => ⟨xor_one_le_one _ h, xor_one_ne _⟩⟩
  · intro rnd commit_ret crtc_id w hw
    exact page_flip_event_loop_front_buf rnd commit_ret crtc_id w.output_list w.rand_calls hw
  · intro rnd ret0 test_ret apply_ret w hw
    unfold modeset_perform_modeset
    dsimp only
    split_ifs
    · exact hw
    · exact hw
    · exact perform_modeset_paint_loop_front_buf rnd w.output_list w.rand_calls hw

/-- C28, exercised on the example world: the outputs start with `front_buf =
0`, and after the startup commits and one completion event for CRTC 101 (its
frame commit accepted) the front indices are 1 and 0. -/
theorem front_buf_in_range_witness :
    demo_outputs.map (fun o => o.front_buf) = [0, 0] ∧
    (modeset_page_flip_event (fun n => 7 * n + 3) 0 101
      (modeset_perform_modeset (fun n => 7 * n + 3) 0 0 0 demo_world).2).output_list.map
        (fun o => o.front_buf) = [1, 0] ∧
    (∀ o ∈ (modeset_page_flip_event (fun n => 7 * n + 3) 0 101
      (modeset_perform_modeset (fun n => 7 * n + 3) 0 0 0 demo_world).2).output_list,
        o.front_buf ≤ 1) :=
  ⟨by decide, by decide,
   front_buf_in_range.2.2.2.1 (fun n => 7 * n + 3) 0 101
    (modeset_perform_modeset (fun n => 7 * n + 3) 0 0 0 demo_world).2
    (front_buf_in_range.2.2.2.2.1 (fun n => 7 * n + 3) 0 0 0 demo_world (by decide))⟩

theorem page_flip_event_loop_no_match (rnd : Nat → Nat) (commit_ret : Int) (crtc_id : Nat)
    (l : List modeset_output) (n : Nat) (h : ∀ o ∈ l, o.crtc.id ≠ crtc_id) :
    page_flip_event_loop rnd commit_ret crtc_id l n = (l, n, []) := by
  induction l with
  | nil => rfl
  | cons iter rest ih =>
    unfold page_flip_event_loop
    rw [if_neg (h iter (List.mem_cons_self _ _))]
    dsimp only
    rw [ih (fun o ho => h o (List.mem_cons_of_mem _ ho))]

theorem page_flip_event_loop_match (rnd : Nat → Nat) (commit_ret : Int) (crtc_id : Nat)
    (pre : List modeset_output) (o : modeset_output) (post : List modeset_output) (n : Nat)
    (hpre : ∀ q ∈ pre, q.crtc.id ≠ crtc_id) (ho : o.crtc.id = crtc_id) :
    page_flip_event_loop rnd commit_ret crtc_id (pre ++ o :: post) n =
      if o.cleanup = true then (pre ++ { o with pflip_pending := false } :: post, n, [])
      else (pre ++ (modeset_draw_out rnd n commit_ret { o with pflip_pending := false }).1 :: post,
        (modeset_draw_out rnd n commit_ret { o with pflip_pending := false }).2.1,
        (modeset_draw_out rnd n commit_ret { o with pflip_pending := false }).2.2) := by
  induction pre with
  | nil =>
    simp only [List.nil_append]
    unfold page_flip_event_loop
    rw [if_pos ho]
    dsimp only
    cases hc : o.cleanup <;> simp
  | cons q qs ih =>
    simp only [List.cons_append]
    unfold page_flip_event_loop
    rw [if_neg (hpre q (List.mem_cons_self _ _))]
    dsimp only
    rw [ih (fun x hx => hpre x (List.mem_cons_of_mem _ hx))]
    split_ifs <;> rfl

/-- C25: `modeset_page_flip_event` changes nothing when no output has the
event's CRTC identifier.  Otherwise it clears `pflip_pending` of the first
output with that identifier; when the output's `cleanup` flag is set that is
the only change and no frame is submitted; when it is clear
`modeset_draw_out` is called on that output (and on no other); every other
output is unchanged. -/
theorem modeset_page_flip_event_spec (rnd : Nat → Nat) (commit_ret : Int) (crtc_id : Nat)
    (w : World) :
    ((∀ o ∈ w.output_list, o.crtc.id ≠ crtc_id) →
      (modeset_page_flip_event rnd commit_ret crtc_id w).output_list = w.output_list ∧
      (modeset_page_flip_event rnd commit_ret crtc_id w).rand_calls = w.rand_calls ∧
      (modeset_page_flip_event rnd commit_ret crtc_id w).calls =
        w.calls ++ [.page_flip_event crtc_id]) ∧
    (∀ pre o post, w.output_list = pre ++ o :: post → (∀ q ∈ pre, q.crtc.id ≠ crtc_id) →
      o.crtc.id = crtc_id →
      (o.cleanup = true →
        (modeset_page_flip_event rnd commit_ret crtc_id w).output_list =
          pre ++ { o with pflip_pending := false } :: post ∧
        (modeset_page_flip_event rnd commit_ret crtc_id w).rand_calls = w.rand_calls ∧
        (modeset_page_flip_event rnd commit_ret crtc_id w).calls =
          w.calls ++ [.page_flip_event crtc_id]) ∧
      (o.cleanup = false →
        (modeset_page_flip_event rnd commit_ret crtc_id w).output_list =
          pre ++ (modeset_draw_out rnd w.rand_calls commit_ret
            { o with pflip_pending := false }).1 :: post ∧
        (modeset_page_flip_event rnd commit_ret crtc_id w).calls =
          w.calls ++ [.page_flip_event crtc_id] ++
            (modeset_draw_out rnd w.rand_calls commit_ret
              { o with pflip_pending := false }).2.2)) := by
  constructor
  · intro h
    unfold modeset_page_flip_event
    rw [page_flip_event_loop_no_match rnd commit_ret crtc_id _ _ h]
    simp
  · intro pre o post hl hpre ho
    unfold modeset_page_flip_event
    rw [hl, page_flip_event_loop_match rnd commit_ret crtc_id pre o post _ hpre ho]
    constructor
    · intro hc
      simp [hc]
    · intro hc
      simp [hc]

/-- C25, exercised on the example world after the startup commits: an event
for CRTC 100 (second output, `cleanup` clear) draws that output and leaves the
head output as it was; an event for CRTC 7 changes no output. -/
theorem modeset_page_flip_event_spec_witness :
    (drawn_outputs (modeset_page_flip_event (fun n => 7 * n + 3) 0 100
      (modeset_perform_modeset (fun n => 7 * n + 3) 0 0 0 demo_world).2).calls).map
        (fun o => o.crtc.id) = [100] ∧
    (modeset_page_flip_event (fun n => 7 * n + 3) 0 100
      (modeset_perform_modeset (fun n => 7 * n + 3) 0 0 0 demo_world).2).output_list.head? =
      (modeset_perform_modeset (fun n => 7 * n + 3) 0 0 0 demo_world).2.output_list.head? ∧
    (modeset_page_flip_event (fun n => 7 * n + 3) 0 7
      (modeset_perform_modeset (fun n => 7 * n + 3) 0 0 0 demo_world).2).output_list =
      (modeset_perform_modeset (fun n => 7 * n + 3) 0 0 0 demo_world).2.output_list :=
  ⟨by decide, by decide,
   ((modeset_page_flip_event_spec (fun n => 7 * n + 3) 0 7
      (modeset_perform_modeset (fun n => 7 * n + 3) 0 0 0 demo_world).2).1 (by decide)).1⟩

/-! ## Discovery: the first primary plane -/

theorem write32_length (m : List Nat) (off v : Nat) : (write32 m off v).length = m.length := by
  unfold write32
  simp only [List.length_set]

/-- The bytes a store leaves in the mapping. -/
theorem write32_read (m : List Nat) (off v : Nat) (h : off + 4 ≤ m.length) :
    read32 (write32 m off v) off = some (v % 2 ^ 32) := by
  unfold read32 write32
  rw [List.getElem?_set_ne (by omega), List.getElem?_set_ne (by omega),
    List.getElem?_set_ne (by omega), List.getElem?_set_self (by omega),
    List.getElem?_set_ne (by omega), List.getElem?_set_ne (by omega),
    List.getElem?_set_self (by simp only [List.length_set]; omega),
    List.getElem?_set_ne (by omega),
    List.getElem?_set_self (by simp only [List.length_set]; omega),
    List.getElem?_set_self (by simp only [List.length_set]; omega)]
  simp only [Option.some.injEq]
  omega

theorem write32_other (m : List Nat) (off v p : Nat) (h : p < off ∨ off + 4 ≤ p) :
    (write32 m off v)[p]? = m[p]? := by
  unfold write32
  rw [List.getElem?_set_ne (by omega), List.getElem?_set_ne (by omega),
    List.getElem?_set_ne (by omega), List.getElem?_set_ne (by omega)]

theorem read32_other (m : List Nat) (off v o : Nat) (h : o + 4 ≤ off ∨ off + 4 ≤ o) :
    read32 (write32 m off v) o = read32 m o := by
  unfold read32
  rw [write32_other m off v o (by omega), write32_other m off v (o + 1) (by omega),
    write32_other m off v (o + 2) (by omega), write32_other m off v (o + 3) (by omega)]

theorem foldl_invariant {α β : Type} (P : β → Prop) (f : β → α → β) (xs : List α)
    (h : ∀ m x, x ∈ xs → P m → P (f m x)) (m : β) (hm : P m) : P (xs.foldl f m) := by
  induction xs generalizing m with
  | nil => exact hm
  | cons x xs ih =>
    exact ih (fun m y hy => h m y (List.mem_cons_of_mem _ hy)) _ (h m x (List.mem_cons_self _ _) hm)

/-- A store of `v` at an offset that is the pixel at `o` or does not overlap it
keeps the length of the mapping and the value `v` of the pixel at `o`. -/
theorem write32_keeps (m : List Nat) (off v o L : Nat)
    (hc : off = o ∨ off + 4 ≤ o ∨ o + 4 ≤ off)
    (hm : m.length = L ∧ read32 m o = some (v % 2 ^ 32)) (ho : o + 4 ≤ L) :
    (write32 m off v).length = L ∧ read32 (write32 m off v) o = some (v % 2 ^ 32) := by
  refine ⟨by rw [write32_length]; exact hm.1, ?_⟩
  rcases hc with rfl | hd
  · exact write32_read m off v (by omega)
  · rw [read32_other m off v o (by omega)]
    exact hm.2

theorem pixel_offsets_apart (buf : modeset_buf) (j k j0 k0 : Nat)
    (hstride : 4 * buf.width ≤ buf.stride) (hk : k < buf.width) (hk0 : k0 < buf.width) :
    buf.stride * j + 4 * k = buf.stride * j0 + 4 * k0 ∨
    buf.stride * j + 4 * k + 4 ≤ buf.stride * j0 + 4 * k0 ∨
    buf.stride * j0 + 4 * k0 + 4 ≤ buf.stride * j + 4 * k := by
  rcases Nat.lt_trichotomy j j0 with h | h | h
  · have h1 : buf.stride * (j + 1) ≤ buf.stride * j0 := Nat.mul_le_mul_left _ h
    have h2 : buf.stride * (j + 1) = buf.stride * j + buf.stride := Nat.mul_succ _ _
    omega
  · subst h
    omega
  · have h1 : buf.stride * (j0 + 1) ≤ buf.stride * j := Nat.mul_le_mul_left _ h
    have h2 : buf.stride * (j0 + 1) = buf.stride * j0 + buf.stride := Nat.mul_succ _ _
    omega

theorem pixel_offset_eq (buf : modeset_buf) (j k : Nat)
    (hstride : 4 * buf.width ≤ buf.stride) (hsize : buf.stride * buf.height ≤ buf.size)
    (h32 : buf.size < 2 ^ 32) (hj : j < buf.height) (hk : k < buf.width) :
    (buf.stride * j + k * 4) % 2 ^ 32 = buf.stride * j + 4 * k := by
  have := pixel_in_bounds buf j k hstride hsize hj hk
  rw [Nat.mod_eq_of_lt (by omega)]
  omega

/-- After the two loops every pixel of the buffer holds `v`. -/
theorem paint_pixels_read (buf : modeset_buf) (v : Nat)
    (hstride : 4 * buf.width ≤ buf.stride) (hsize : buf.stride * buf.height ≤ buf.size)
    (hmap : buf.map.length = buf.size) (h32 : buf.size < 2 ^ 32)
    (j0 k0 : Nat) (hj0 : j0 < buf.height) (hk0 : k0 < buf.width) :
    read32 (paint_pixels buf v) (buf.stride * j0 + 4 * k0) = some (v % 2 ^ 32) := by
  have hb0 := pixel_in_bounds buf j0 k0 hstride hsize hj0 hk0
  -- one store keeps the pixel once it is painted
  have hstep : ∀ (j : Nat), j < buf.height → ∀ (m : List Nat) (k : Nat), k ∈ List.range buf.width →
      (m.length = buf.size ∧ read32 m (buf.stride * j0 + 4 * k0) = some (v % 2 ^ 32)) →
      ((write32 m ((buf.stride * j + k * 4) % 2 ^ 32) v).length = buf.size ∧
        read32 (write32 m ((buf.stride * j + k * 4) % 2 ^ 32) v) (buf.stride * j0 + 4 * k0)
          = some (v % 2 ^ 32)) := by
    intro j hj m k hk hm
    have hk' := List.mem_range.mp hk
    rw [pixel_offset_eq buf j k hstride hsize h32 hj hk']
    exact write32_keeps m _ v _ buf.size
      (pixel_offsets_apart buf j k j0 k0 hstride hk' hk0) hm hb0
  have hlen : ∀ (j : Nat), j < buf.height → ∀ (m : List Nat) (k : Nat),
      m.length = buf.size →
      (write32 m ((buf.stride * j + k * 4) % 2 ^ 32) v).length = buf.size := by
    intro j _ m k hm
    rw [write32_length]
    exact hm
  -- one row keeps the length, and the pixel once it is painted
  have hrow_len : ∀ (m : List Nat) (j : Nat), j ∈ List.range buf.height →
      m.length = buf.size →
      ((List.range buf.width).foldl
        (fun m k => write32 m ((buf.stride * j + k * 4) % 2 ^ 32) v) m).length = buf.size := by
    intro m j hj hm
    exact foldl_invariant (fun (m : List Nat) => m.length = buf.size) _ _
      (fun m k _ h => hlen j (List.mem_range.mp hj) m k h) m hm
  have hrow : ∀ (m : List Nat) (j : Nat), j ∈ List.range buf.height →
      (m.length = buf.size ∧ read32 m (buf.stride * j0 + 4 * k0) = some (v % 2 ^ 32)) →
      (((List.range buf.width).foldl
        (fun m k => write32 m ((buf.stride * j + k * 4) % 2 ^ 32) v) m).length = buf.size ∧
       read32 ((List.range buf.width).foldl
        (fun m k => write32 m ((buf.stride * j + k * 4) % 2 ^ 32) v) m)
          (buf.stride * j0 + 4 * k0) = some (v % 2 ^ 32)) := by
    intro m j hj hm
    exact foldl_invariant
      (fun (m : List Nat) => m.length = buf.size ∧ read32 m (buf.stride * j0 + 4 * k0) = some (v % 2 ^ 32))
      _ _ (hstep j (List.mem_range.mp hj)) m hm
  obtain ⟨rpre, rpost, hrows⟩ := List.append_of_mem (List.mem_range.mpr hj0)
  obtain ⟨cpre, cpost, hcols⟩ := List.append_of_mem (List.mem_range.mpr hk0)
  have hrpre : ∀ j ∈ rpre, j ∈ List.range buf.height := fun j hj => by
    rw [hrows]; exact List.mem_append_left _ hj
  have hrpost : ∀ j ∈ rpost, j ∈ List.range buf.height := fun j hj => by
    rw [hrows]; exact List.mem_append_right _ (List.mem_cons_of_mem _ hj)
  have hcpre : ∀ k ∈ cpre, k ∈ List.range buf.width := fun k hk => by
    rw [hcols]; exact List.mem_append_left _ hk
  have hcpost : ∀ k ∈ cpost, k ∈ List.range buf.width := fun k hk => by
    rw [hcols]; exact List.mem_append_right _ (List.mem_cons_of_mem _ hk)
  unfold paint_pixels
  rw [hrows, List.foldl_append, List.foldl_cons]
  refine (foldl_invariant
    (fun (m : List Nat) => m.length = buf.size ∧ read32 m (buf.stride * j0 + 4 * k0) = some (v % 2 ^ 32))
    _ rpost (fun m j hj hm => ?_) _ ?_).2
  · exact hrow m j (hrpost j hj) hm
  · -- the row of the pixel
    have hm1 : (rpre.foldl (fun m j => (List.range buf.width).foldl
        (fun m k => write32 m ((buf.stride * j + k * 4) % 2 ^ 32) v) m) buf.map).length
        = buf.size := by
      refine foldl_invariant (fun (m : List Nat) => m.length = buf.size) _ rpre (fun m j hj hm => ?_) _ hmap
      exact hrow_len m j (hrpre j hj) hm
    generalize rpre.foldl (fun m j => (List.range buf.width).foldl
        (fun m k => write32 m ((buf.stride * j + k * 4) % 2 ^ 32) v) m) buf.map = m1 at hm1 ⊢
    rw [hcols, List.foldl_append, List.foldl_cons]
    refine foldl_invariant
      (fun (m : List Nat) => m.length = buf.size ∧ read32 m (buf.stride * j0 + 4 * k0) = some (v % 2 ^ 32))
      _ cpost (fun m k hk hm => hstep j0 hj0 m k (hcpost k hk) hm) _ ?_
    have hm2 : (cpre.foldl (fun m k => write32 m ((buf.stride * j0 + k * 4) % 2 ^ 32) v)
        m1).length = buf.size :=
      foldl_invariant (fun (m : List Nat) => m.length = buf.size) _ cpre
        (fun m k _ hm => hlen j0 hj0 m k hm) _ hm1
    generalize cpre.foldl (fun m k => write32 m ((buf.stride * j0 + k * 4) % 2 ^ 32) v) m1
      = m2 at hm2 ⊢
    rw [pixel_offset_eq buf j0 k0 hstride hsize h32 hj0 hk0]
    exact ⟨by rw [write32_length]; exact hm2, write32_read m2 _ v (by omega)⟩

theorem pack_rgb (r g b : Nat) (hr : r ≤ 255) (hg : g ≤ 255) (hb : b ≤ 255) :
    ((r <<< 16) ||| (g <<< 8) ||| b) % 2 ^ 32 = r * 65536 + g * 256 + b := by
  have e1 : 2 ^ 8 * g + b = 2 ^ 8 * g ||| b := Nat.mul_add_lt_is_or (by omega) g
  have e2 : 2 ^ 16 * r + (2 ^ 8 * g + b) = 2 ^ 16 * r ||| (2 ^ 8 * g + b) :=
    Nat.mul_add_lt_is_or (by omega) r
  rw [Nat.shiftLeft_eq, Nat.shiftLeft_eq, Nat.or_assoc, Nat.mul_comm r, Nat.mul_comm g,
    ← e1, ← e2]
  omega

theorem next_color_le (up : Bool) (cur mod rnd : Nat) (h : cur ≤ 255) :
    (next_color up cur mod rnd).1 ≤ 255 := by
  unfold next_color
  dsimp only
  split_ifs
  all_goals first
    | exact h
    | exact Nat.le_of_lt_succ (Nat.mod_lt _ (by decide))

theorem modeset_paint_framebuffer_colour (rnd : Nat → Nat) (n : Nat) (out : modeset_output) :
    (modeset_paint_framebuffer rnd n out).1.r = (next_color out.r_up out.r 5 (rnd n)).1 ∧
    (modeset_paint_framebuffer rnd n out).1.g = (next_color out.g_up out.g 5 (rnd (n + 1))).1 ∧
    (modeset_paint_framebuffer rnd n out).1.b = (next_color out.b_up out.b 5 (rnd (n + 2))).1 := by
  unfold modeset_paint_framebuffer modeset_output.setBuf
  dsimp only
  split_ifs <;> exact ⟨rfl, rfl, rfl⟩

theorem modeset_paint_framebuffer_map (rnd : Nat → Nat) (n : Nat) (out : modeset_output) :
    ((modeset_paint_framebuffer rnd n out).1.bufs (out.front_buf ^^^ 1)).map =
      paint_pixels (out.bufs (out.front_buf ^^^ 1))
        ((((modeset_paint_framebuffer rnd n out).1.r <<< 16) |||
          ((modeset_paint_framebuffer rnd n out).1.g <<< 8) |||
          (modeset_paint_framebuffer rnd n out).1.b) % 2 ^ 32) := by
  unfold modeset_paint_framebuffer modeset_output.setBuf modeset_output.bufs
  dsimp only
  split_ifs <;> rfl

theorem modeset_paint_framebuffer_front (rnd : Nat → Nat) (n : Nat) (out : modeset_output)
    (hf : out.front_buf ≤ 1) :
    (modeset_paint_framebuffer rnd n out).1.bufs out.front_buf = out.bufs out.front_buf := by
  have h01 : out.front_buf = 0 ∨ out.front_buf = 1 := by omega
  unfold modeset_paint_framebuffer modeset_output.setBuf modeset_output.bufs
  dsimp only
  rcases h01 with h | h
  · rw [h]
    rfl
  · rw [h]
    rfl

/-- C27: for an output with `front_buf` in `{0, 1}` and colour channels in
`0..255` whose back buffer `bufs[front_buf ^ 1]` has `stride >= 4 * width`,
`stride * height <= size` and a mapping of `size` bytes (`size` a 32-bit
value), after `modeset_paint_framebuffer` every pixel (row `j < height`,
column `k < width`) of the back buffer, at byte offset `stride * j + 4 * k`,
holds the 32-bit value `r * 65536 + g * 256 + b` of the output's updated
colour, whose channels are at most 255 (top byte zero), and the front buffer
`bufs[front_buf]` is as before. -/
theorem modeset_paint_framebuffer_fills (rnd : Nat → Nat) (n : Nat) (out : modeset_output)
    (hf : out.front_buf ≤ 1) (hr : out.r ≤ 255) (hg : out.g ≤ 255) (hb : out.b ≤ 255)
    (hstride : 4 * (out.bufs (out.front_buf ^^^ 1)).width ≤
      (out.bufs (out.front_buf ^^^ 1)).stride)
    (hsize : (out.bufs (out.front_buf ^^^ 1)).stride * (out.bufs (out.front_buf ^^^ 1)).height ≤
      (out.bufs (out.front_buf ^^^ 1)).size)
    (hmap : (out.bufs (out.front_buf ^^^ 1)).map.length = (out.bufs (out.front_buf ^^^ 1)).size)
    (h32 : (out.bufs (out.front_buf ^^^ 1)).size < 2 ^ 32) :
    (∀ j k, j < (out.bufs (out.front_buf ^^^ 1)).height →
      k < (out.bufs (out.front_buf ^^^ 1)).width →
      read32 ((modeset_paint_framebuffer rnd n out).1.bufs (out.front_buf ^^^ 1)).map
        ((out.bufs (out.front_buf ^^^ 1)).stride * j + 4 * k) =
        some ((modeset_paint_framebuffer rnd n out).1.r * 65536 +
          (modeset_paint_framebuffer rnd n out).1.g * 256 +
          (modeset_paint_framebuffer rnd n out).1.b)) ∧
    (modeset_paint_framebuffer rnd n out).1.r ≤ 255 ∧
    (modeset_paint_framebuffer rnd n out).1.g ≤ 255 ∧
    (modeset_paint_framebuffer rnd n out).1.b ≤ 255 ∧
    (modeset_paint_framebuffer rnd n out).1.bufs out.front_buf = out.bufs out.front_buf := by
  obtain ⟨er, eg, eb⟩ := modeset_paint_framebuffer_colour rnd n out
  have hr2 : (modeset_paint_framebuffer rnd n out).1.r ≤ 255 := by
    rw [er]; exact next_color_le _ _ _ _ hr
  have hg2 : (modeset_paint_framebuffer rnd n out).1.g ≤ 255 := by
    rw [eg]; exact next_color_le _ _ _ _ hg
  have hb2 : (modeset_paint_framebuffer rnd n out).1.b ≤ 255 := by
    rw [eb]; exact next_color_le _ _ _ _ hb
  refine ⟨?_, hr2, hg2, hb2, modeset_paint_framebuffer_front rnd n out hf⟩
  intro j k hj hk
  rw [modeset_paint_framebuffer_map,
    paint_pixels_read _ _ hstride hsize hmap h32 j k hj hk, Nat.mod_mod,
    pack_rgb _ _ _ hr2 hg2 hb2]

/-- C27, exercised on the first output drawn in the clean example run (4x2
pixels, stride 16, 32 bytes): after painting, the last pixel (row 1, column
3) of its back buffer holds the packed updated colour. -/
theorem modeset_paint_framebuffer_fills_witness :
    (demo_drawn.bufs (demo_drawn.front_buf ^^^ 1)).stride = 16 ∧
    read32 ((modeset_paint_framebuffer (fun n => 7 * n + 3) 0 demo_drawn).1.bufs
        (demo_drawn.front_buf ^^^ 1)).map
      ((demo_drawn.bufs (demo_drawn.front_buf ^^^ 1)).stride * 1 + 4 * 3) =
      some ((modeset_paint_framebuffer (fun n => 7 * n + 3) 0 demo_drawn).1.r * 65536 +
        (modeset_paint_framebuffer (fun n => 7 * n + 3) 0 demo_drawn).1.g * 256 +
        (modeset_paint_framebuffer (fun n => 7 * n + 3) 0 demo_drawn).1.b) :=
  ⟨by decide,
   (modeset_paint_framebuffer_fills (fun n => 7 * n + 3) 0 demo_drawn (by decide) (by decide)
      (by decide) (by decide) (by decide) (by decide) (by decide) (by decide)).1 1 3
      (by decide) (by decide)⟩

/-! ## `modeset.c` against `modeset-double-buffered.c` -/

/-- C30: the two versions of `modeset_find_crtc` differ.  On a device with
CRTC list `[100]`, a connector without bound encoder whose encoder 10 can
drive position 0, and no device created yet, `modeset.c` returns `-ENOENT`
while `modeset-double-buffered.c` returns `0` with CRTC 100.  With the devices
on CRTCs 5 and 100 already created (in list order), `modeset.c` returns `0`
with CRTC 100, which the second device uses, while
`modeset-double-buffered.c` returns `-ENOENT`. -/
theorem modeset_find_crtc_versions_differ :
    (Modeset.modeset_find_crtc demo_unbound ⟨[1], [100]⟩ demo_unbound_connector []
      (Modeset.demo_dev 1 0)).1 = -ENOENT ∧
    (DoubleBuffered.modeset_find_crtc demo_unbound ⟨[1], [100]⟩ demo_unbound_connector []
      (DoubleBuffered.demo_dev 1 0)).1 = 0 ∧
    (DoubleBuffered.modeset_find_crtc demo_unbound ⟨[1], [100]⟩ demo_unbound_connector []
      (DoubleBuffered.demo_dev 1 0)).2.crtc = 100 ∧
    (Modeset.modeset_find_crtc demo_unbound ⟨[1], [100]⟩ demo_unbound_connector
      [Modeset.demo_dev 2 5, Modeset.demo_dev 3 100] (Modeset.demo_dev 1 0)).1 = 0 ∧
    (Modeset.modeset_find_crtc demo_unbound ⟨[1], [100]⟩ demo_unbound_connector
      [Modeset.demo_dev 2 5, Modeset.demo_dev 3 100] (Modeset.demo_dev 1 0)).2.crtc = 100 ∧
    (DoubleBuffered.modeset_find_crtc demo_unbound ⟨[1], [100]⟩ demo_unbound_connector
      [DoubleBuffered.demo_dev 2 5, DoubleBuffered.demo_dev 3 100]
      (DoubleBuffered.demo_dev 1 0)).1 = -ENOENT := by
  refine ⟨by decide, by decide, by decide, by decide, by decide, by decide⟩

/-! ## `modeset-double-buffered.c`: the front index during drawing -/

theorem double_buffered_draw_dev_keeps (v : Nat) (ret : Int)
    (iter : DoubleBuffered.modeset_dev) :
    (DoubleBuffered.draw_dev v ret iter).1.front_buf = iter.front_buf ∧
    (DoubleBuffered.draw_dev v ret iter).1.bufs0.fb = iter.bufs0.fb ∧
    (DoubleBuffered.draw_dev v ret iter).1.bufs1.fb = iter.bufs1.fb ∧
    (DoubleBuffered.draw_dev v ret iter).2.fb = (iter.bufs (iter.front_buf ^^^ 1)).fb := by
  unfold DoubleBuffered.draw_dev DoubleBuffered.modeset_dev.setBuf DoubleBuffered.modeset_dev.bufs
  dsimp only
  split_ifs <;> exact ⟨rfl, rfl, rfl, rfl⟩

theorem double_buffered_draw_dev_shown (v : Nat) (ret : Int)
    (iter : DoubleBuffered.modeset_dev) :
    ((DoubleBuffered.draw_dev v ret iter).1.bufs
        ((DoubleBuffered.draw_dev v ret iter).1.front_buf ^^^ 1)).fb =
      (iter.bufs (iter.front_buf ^^^ 1)).fb := by
  obtain ⟨h1, h2, h3, _⟩ := double_buffered_draw_dev_keeps v ret iter
  unfold DoubleBuffered.modeset_dev.bufs
  rw [h1]
  split_ifs
  · exact h2
  · exact h3

theorem double_buffered_draw_list_keeps (v : Nat) (set_crtc : Nat → Int)
    (l : List DoubleBuffered.modeset_dev) (n : Nat) :
    (DoubleBuffered.draw_list v set_crtc l n).1.map (fun d => d.front_buf) =
      l.map (fun d => d.front_buf) ∧
    (DoubleBuffered.draw_list v set_crtc l n).1.map
        (fun d => (d.bufs (d.front_buf ^^^ 1)).fb) =
      l.map (fun d => (d.bufs (d.front_buf ^^^ 1)).fb) ∧
    (DoubleBuffered.draw_list v set_crtc l n).2.map (fun c => c.fb) =
      l.map (fun d => (d.bufs (d.front_buf ^^^ 1)).fb) := by
  induction l generalizing n with
  | nil => exact ⟨rfl, rfl, rfl⟩
  | cons iter rest ih =>
    obtain ⟨i1, i2, i3⟩ := ih (n + 1)
    obtain ⟨k1, _, _, k4⟩ := double_buffered_draw_dev_keeps v (set_crtc n) iter
    have ks := double_buffered_draw_dev_shown v (set_crtc n) iter
    unfold DoubleBuffered.draw_list
    dsimp only
    refine ⟨?_, ?_, ?_⟩
    · simp only [List.map_cons]
      rw [i1, k1]
    · simp only [List.map_cons]
      rw [i2, ks]
    · simp only [List.map_cons]
      rw [i3, k4]

theorem double_buffered_draw_frames_keeps (rnd : Nat → Nat) (set_crtc : Nat → Int)
    (frames r g b : Nat) (r_up g_up b_up : Bool) (n k : Nat)
    (l : List DoubleBuffered.modeset_dev) :
    (DoubleBuffered.draw_frames rnd set_crtc frames r g b r_up g_up b_up n k l).1.map
        (fun d => d.front_buf) = l.map (fun d => d.front_buf) ∧
    (DoubleBuffered.draw_frames rnd set_crtc frames r g b r_up g_up b_up n k l).2.map
        (fun c => c.fb) =
      (List.replicate frames (l.map (fun d => (d.bufs (d.front_buf ^^^ 1)).fb))).flatten := by
  induction frames generalizing r g b r_up g_up b_up n k l with
  | zero => exact ⟨rfl, rfl⟩
  | succ frames ih =>
    unfold DoubleBuffered.draw_frames
    dsimp only
    obtain ⟨d1, d2, d3⟩ := double_buffered_draw_list_keeps
      (((next_color r_up r 20 (rnd n)).1 <<< 16 ||| (next_color g_up g 10 (rnd (n + 1))).1 <<< 8
        ||| (next_color b_up b 5 (rnd (n + 2))).1) % 2 ^ 32) set_crtc l k
    obtain ⟨f1, f2⟩ := ih (next_color r_up r 20 (rnd n)).1 (next_color g_up g 10 (rnd (n + 1))).1
      (next_color b_up b 5 (rnd (n + 2))).1 (next_color r_up r 20 (rnd n)).2
      (next_color g_up g 10 (rnd (n + 1))).2 (next_color b_up b 5 (rnd (n + 2))).2
      (n + 3) (k + l.length)
      (DoubleBuffered.draw_list
        (((next_color r_up r 20 (rnd n)).1 <<< 16 |||
          (next_color g_up g 10 (rnd (n + 1))).1 <<< 8 |||
          (next_color b_up b 5 (rnd (n + 2))).1) % 2 ^ 32) set_crtc l k).1
    refine ⟨f1.trans d1, ?_⟩
    rw [List.map_append, f2, d2, d3, List.replicate_succ, List.flatten_cons]

/-- C24: in `modeset-double-buffered.c` a successful `drmModeSetCrtc` leaves
the device's `front_buf` as it was (the statement `iter->front_buf ^ 1;` has
no effect), so `modeset_draw` ends with every `front_buf` unchanged and each
of its 50 frames paints and shows, for every device, the framebuffer of the
same slot `bufs[front_buf ^ 1]`, whatever `drmModeSetCrtc` answers.  On a
device with `front_buf = 0` and framebuffers 400 and 401, two successful
frames both show framebuffer 401. -/
theorem double_buffered_draw_never_toggles :
    (∀ (v : Nat) (iter : DoubleBuffered.modeset_dev),
      (DoubleBuffered.draw_dev v 0 iter).1.front_buf = iter.front_buf) ∧
    (∀ (rnd : Nat → Nat) (set_crtc : Nat → Int) (l : List DoubleBuffered.modeset_dev),
      (DoubleBuffered.modeset_draw rnd set_crtc l).1.map (fun d => d.front_buf) =
        l.map (fun d => d.front_buf) ∧
      (DoubleBuffered.modeset_draw rnd set_crtc l).2.map (fun c => c.fb) =
        (List.replicate 50 (l.map (fun d => (d.bufs (d.front_buf ^^^ 1)).fb))).flatten) ∧
    ((DoubleBuffered.draw_frames (fun n => 7 * n + 3) (fun _ => 0) 2 0 0 0 true true true 3 0
        [DoubleBuffered.demo_dev 1 100]).1.map (fun d => d.front_buf) = [0] ∧
     (DoubleBuffered.draw_frames (fun n => 7 * n + 3) (fun _ => 0) 2 0 0 0 true true true 3 0
        [DoubleBuffered.demo_dev 1 100]).2.map (fun c => (c.fb, c.ret)) = [(401, 0), (401, 0)]) := by
  refine ⟨fun v iter => (double_buffered_draw_dev_keeps v 0 iter).1, fun rnd set_crtc l => ?_,
    by decide, by decide⟩
  unfold DoubleBuffered.modeset_draw
  exact double_buffered_draw_frames_keeps rnd set_crtc 50 _ _ _ _ _ _ _ _ l

end ModesetAtomic
